import Mathlib

/-!
# hipBLAS client test routines

A shallow embedding of the test routines under `clients/include`.  Every routine is
straight-line glue around opaque collaborators (the device operation, the reference
routine, the data generator, the comparison helpers), so a routine is embedded as the
list of statements it executes for a given argument record, in source order.  The
statements are then run by `exec` over an explicit memory (buffer name to contents),
which yields the trace of events together with the buffer contents every device or
reference invocation receives.

Conventions.
* Runtime calls wrapped in `CHECK_HIP_ERROR` and `CHECK_DEVICE_ALLOCATION` succeed.
* A status expectation (`DAPI_EXPECT`, `DAPI_CHECK`, `EXPECT_HIPBLAS_STATUS`,
  `CHECK_HIPBLAS_ERROR`) is recorded with the call it guards; a mismatch is a reported
  test failure and does not alter the statements that follow.
* An operation or reference invocation may rewrite its documented output buffers with
  arbitrary contents and leaves every other buffer alone.
* `size_t` conversions and products wrap modulo `2 ^ 64`; signed overflow and
  out-of-range floating conversions are undefined in the source and are not modelled.
* The argument record holds, in each field, a value of the type of the local variable that
  the routine initialises from it, so these initialisations do not truncate.
* `stride_scale` is a rational number, the value of the `double` field.  A stride is computed
  as in the source: the integer operand is converted to the nearest `double`, the product is
  rounded to the nearest `double` (`fl`: ties to even, exponent range taken as unbounded), and
  the result is truncated.  The tolerances are products of a machine epsilon, a power of two,
  by 1000 or 2000, which no rounding alters.
-/

namespace hipBLAS

/-! ## Library types -/

/-- Status classification returned by the device entry points. -/
inductive hipblasStatus_t where
  | HIPBLAS_STATUS_SUCCESS
  | HIPBLAS_STATUS_NOT_INITIALIZED
  | HIPBLAS_STATUS_ALLOC_FAILED
  | HIPBLAS_STATUS_INVALID_VALUE
  | HIPBLAS_STATUS_INVALID_ENUM
  deriving DecidableEq, Repr

/-- Whether scalar arguments are read through host or device addresses. -/
inductive hipblasPointerMode_t where
  | HIPBLAS_POINTER_MODE_HOST
  | HIPBLAS_POINTER_MODE_DEVICE
  deriving DecidableEq, Repr

/-- The enumerators of the operation, fill-mode, diagonal and side enumerations.  A C-style
cast between the enumerations keeps the enumerator, so one type carries them all. -/
inductive Enumerator where
  | HIPBLAS_OP_N
  | HIPBLAS_OP_T
  | HIPBLAS_OP_C
  | HIPBLAS_FILL_MODE_UPPER
  | HIPBLAS_FILL_MODE_LOWER
  | HIPBLAS_FILL_MODE_FULL
  | HIPBLAS_DIAG_NON_UNIT
  | HIPBLAS_DIAG_UNIT
  | HIPBLAS_SIDE_LEFT
  | HIPBLAS_SIDE_RIGHT
  | HIPBLAS_SIDE_BOTH
  deriving DecidableEq, Repr

/-- Enumerators of `hipblasOperation_t`. -/
def Enumerator.isOperation : Enumerator → Bool
  | .HIPBLAS_OP_N | .HIPBLAS_OP_T | .HIPBLAS_OP_C => true
  | _ => false

/-- Enumerators of `hipblasFillMode_t`. -/
def Enumerator.isFillMode : Enumerator → Bool
  | .HIPBLAS_FILL_MODE_UPPER | .HIPBLAS_FILL_MODE_LOWER | .HIPBLAS_FILL_MODE_FULL => true
  | _ => false

/-- Enumerators of `hipblasDiagType_t`. -/
def Enumerator.isDiagType : Enumerator → Bool
  | .HIPBLAS_DIAG_NON_UNIT | .HIPBLAS_DIAG_UNIT => true
  | _ => false

/-- Calling-convention selector of the argument record. -/
inductive hipblas_client_api where
  | C
  | C_64
  | FORTRAN
  | FORTRAN_64
  deriving DecidableEq, Repr

/-- The test `arg.api & c_API_64`. -/
def hipblas_client_api.is_64 : hipblas_client_api → Bool
  | .C_64 | .FORTRAN_64 => true
  | _ => false

/-- The flat configuration record handed to every test routine. -/
structure Arguments (T : Type) where
  M : Int
  N : Int
  K : Int
  KL : Int
  KU : Int
  lda : Int
  ldb : Int
  ldc : Int
  incx : Int
  incy : Int
  batch_count : Int
  stride_scale : ℚ
  alpha : T
  beta : T
  transA : Char
  side : Char
  uplo : Char
  diag : Char
  unit_check : Bool
  norm_check : Bool
  timing : Bool
  cold_iters : Int
  iters : Int
  api : hipblas_client_api
  fortran : Bool
  bad_arg_all : Bool

/-- The character-to-enumerator conversions of the client utilities, taken as given. -/
structure Conv where
  char2hipblas_operation : Char → Enumerator
  char2hipblas_side : Char → Enumerator
  char2hipblas_fill : Char → Enumerator
  char2hipblas_diagonal : Char → Enumerator

/-! ## Machine arithmetic -/

/-- Conversion of a signed value to `size_t`. -/
def size_t (x : Int) : Int := x % 2 ^ 64

/-- Conversion of a floating value to `int64_t`: truncation toward zero. -/
def double_to_int64 (q : ℚ) : Int := Int.tdiv q.num q.den

/-- Rounding of a rational to the nearest integer, ties to the even one. -/
def round_even (q : ℚ) : Int :=
  if q - ⌊q⌋ < 1 / 2 then ⌊q⌋
  else if 1 / 2 < q - ⌊q⌋ then ⌊q⌋ + 1
  else if ⌊q⌋ % 2 = 0 then ⌊q⌋ else ⌊q⌋ + 1

/-- The binary exponent of a nonzero rational: `2 ^ binade q ≤ |q| < 2 ^ (binade q + 1)`. -/
def binade (q : ℚ) : Int := Int.log 2 (abs q)

/-- The `double` nearest to a rational, ties to the even significand: the doubles of binary
exponent `e` are the integer multiples of `2 ^ (e - 52)`. -/
def fl (q : ℚ) : ℚ :=
  if q = 0 then 0 else (round_even (q / 2 ^ (binade q - 52)) : ℚ) * 2 ^ (binade q - 52)

/-- An integer quantity multiplied by `stride_scale` and stored in a `hipblasStride`: the
integer is converted to `double`, the product is rounded to `double`, and the result is
truncated. -/
def scaled_stride (x : Int) (stride_scale : ℚ) : Int :=
  double_to_int64 (fl (fl (x : ℚ) * stride_scale))

/-! ## Statements and their execution -/

/-- The handle argument of a device call. -/
inductive HandleArg where
  | nullptr
  | handle
  deriving DecidableEq, Repr

/-- A pointer argument: null, or a buffer with an element offset. -/
inductive Ptr (B : Type) where
  | nullptr
  | addr (b : B) (offset : Int)
  deriving DecidableEq, Repr

/-- Pointer to the first element of a buffer. -/
def Ptr.to {B : Type} (b : B) : Ptr B := Ptr.addr b 0

/-- Null test. -/
def Ptr.isNull {B : Type} : Ptr B → Bool
  | .nullptr => true
  | .addr _ _ => false

/-- The buffer a pointer refers to, if any. -/
def Ptr.buffers {B : Type} : Ptr B → List B
  | .nullptr => []
  | .addr b _ => [b]

/-- Residence of a buffer. -/
inductive MemKind where
  | host
  | device
  deriving DecidableEq, Repr

/-- Which instantiation of the entry point a call goes to. -/
structure Fn where
  fortran : Bool
  i64 : Bool
  deriving DecidableEq, Repr

/-- The comparison helpers. -/
inductive CheckKind where
  | unit_check_general
  | near_check_general
  | norm_check_general
  | unit_check_error
  deriving DecidableEq, Repr

/-- One invocation of a comparison helper: its integer arguments in source order, the
expected and the actual buffer, and the tolerance when one is passed. -/
structure Check (B : Type) where
  kind : CheckKind
  dims : List Int
  expected : B
  actual : B
  tol : Option ℚ
  deriving DecidableEq

/-- One executed statement of a test routine.  An allocation carries the constructor
arguments of the container, a data generation the shape it is asked for. -/
inductive Stmt (B C R T : Type) where
  | create_handle
  | destroy_handle
  | host_alloc (b : B) (dims : List Int)
  | device_alloc (b : B) (dims : List Int)
  | free (b : B)
  | srand (seed : Int)
  | store (b : B) (v : List T)
  | init (b : B) (shape : List Int)
  | host_loop (b : B)
  | copy (dst src : B)
  | get_stream
  | set_pointer_mode (m : hipblasPointerMode_t)
  | call (expect : Option hipblasStatus_t) (fn : Fn) (c : C)
  | ref (r : R)
  | check (k : Check B)
  | get_time
  | log
  deriving DecidableEq

/-- Device invocation. -/
def Stmt.isCall {B C R T : Type} : Stmt B C R T → Bool
  | .call _ _ _ => true
  | _ => false

/-- Reference invocation. -/
def Stmt.isRef {B C R T : Type} : Stmt B C R T → Bool
  | .ref _ => true
  | _ => false

/-- Comparison against the reference. -/
def Stmt.isCheck {B C R T : Type} : Stmt B C R T → Bool
  | .check _ => true
  | _ => false

/-- Data generation. -/
def Stmt.isInit {B C R T : Type} : Stmt B C R T → Bool
  | .init _ _ => true
  | _ => false

/-- Host or device buffer allocation. -/
def Stmt.isAlloc {B C R T : Type} : Stmt B C R T → Bool
  | .host_alloc _ _ => true
  | .device_alloc _ _ => true
  | _ => false

/-- Per-routine description of the entry point and of the reference routine: the pointer
arguments in source order, the scalar ones among them, the buffers an invocation may
write, and the in-place host loop of the routine (if it has one). -/
structure Sig (B C R T : Type) where
  call_ptrs : C → List (Ptr B)
  call_scalars : C → List (Ptr B)
  call_outputs : C → List B
  ref_ptrs : R → List (Ptr B)
  ref_outputs : R → List B
  mem_kind : B → MemKind
  host_loop : B → List T → List T

/-- The collaborators a run depends on: the seeding and the data generator (a function of
the generator state and the requested shape), what the n-th device invocation writes to
each output buffer, and what the reference routine writes. -/
structure Env (B C R T : Type) where
  seed : Int → Nat
  gen : Nat → List Int → List T × Nat
  device : Nat → C → List (List T) → B → List T
  reference : R → List (List T) → B → List T

/-- Run-time state: buffer contents, generator state, number of device invocations so far. -/
structure State (B T : Type) where
  mem : B → List T
  rng : Nat
  calls : Nat

/-- One event of the trace: the statement, and the data that goes with it (the contents
received through each pointer argument for an invocation, the generated contents for a
data generation, nothing otherwise). -/
structure Event (B C R T : Type) where
  stmt : Stmt B C R T
  data : List (List T)

/-- What a callee sees through a pointer: the buffer from the offset on. -/
def received {B T : Type} (mem : B → List T) : Ptr B → List T
  | .nullptr => []
  | .addr b offset => (mem b).drop offset.toNat

/-- Rewrite the listed buffers with the contents given by `w`. -/
def write_all {B T : Type} [DecidableEq B] (mem : B → List T) (w : B → List T) (outs : List B) :
    B → List T :=
  outs.foldl (fun m b => Function.update m b (w b)) mem

/-- Execute one statement. -/
def step {B C R T : Type} [DecidableEq B] (sg : Sig B C R T) (env : Env B C R T)
    (s : State B T) : Stmt B C R T → State B T × Event B C R T
  | .srand seed => ({ s with rng := env.seed seed }, ⟨.srand seed, []⟩)
  | .store b v => ({ s with mem := Function.update s.mem b v }, ⟨.store b v, []⟩)
  | .init b shape =>
      let g := env.gen s.rng shape
      ({ s with mem := Function.update s.mem b g.1, rng := g.2 }, ⟨.init b shape, [g.1]⟩)
  | .host_loop b =>
      ({ s with mem := Function.update s.mem b (sg.host_loop b (s.mem b)) }, ⟨.host_loop b, []⟩)
  | .copy dst src => ({ s with mem := Function.update s.mem dst (s.mem src) }, ⟨.copy dst src, []⟩)
  | .call expect fn c =>
      let d := (sg.call_ptrs c).map (received s.mem)
      ({ s with mem := write_all s.mem (env.device s.calls c d) (sg.call_outputs c),
                calls := s.calls + 1 }, ⟨.call expect fn c, d⟩)
  | .ref r =>
      let d := (sg.ref_ptrs r).map (received s.mem)
      ({ s with mem := write_all s.mem (env.reference r d) (sg.ref_outputs r) }, ⟨.ref r, d⟩)
  | st => (s, ⟨st, []⟩)

/-- Execute a statement list, returning the final state and the trace. -/
def run {B C R T : Type} [DecidableEq B] (sg : Sig B C R T) (env : Env B C R T) :
    State B T → List (Stmt B C R T) → State B T × List (Event B C R T)
  | s, [] => (s, [])
  | s, st :: rest =>
      let r := step sg env s st
      let rr := run sg env r.1 rest
      (rr.1, r.2 :: rr.2)

/-- The trace of a statement list. -/
def exec {B C R T : Type} [DecidableEq B] (sg : Sig B C R T) (env : Env B C R T)
    (s : State B T) (p : List (Stmt B C R T)) : List (Event B C R T) :=
  (run sg env s p).2

/-- The data produced by the first data generation for buffer `b` in a trace. -/
def generated {B C R T : Type} [DecidableEq B] (b : B) : List (Event B C R T) → Option (List T)
  | [] => none
  | ⟨.init b1 _, d⟩ :: rest => if b1 = b then d.head? else generated b rest
  | _ :: rest => generated b rest

/-- Scalars passed by host address: every scalar pointer refers to a host buffer. -/
def host_scalars {B C R T : Type} (sg : Sig B C R T) : Stmt B C R T → Bool
  | .call _ _ c => (sg.call_scalars c).all fun p =>
      match p with
      | .nullptr => false
      | .addr b _ => sg.mem_kind b == MemKind.host
  | _ => false

/-- Scalars passed by device address: every scalar pointer refers to a device buffer. -/
def device_scalars {B C R T : Type} (sg : Sig B C R T) : Stmt B C R T → Bool
  | .call _ _ c => (sg.call_scalars c).all fun p =>
      match p with
      | .nullptr => false
      | .addr b _ => sg.mem_kind b == MemKind.device
  | _ => false

/-! ## Status-expectation wrappers -/

/-- Modelled from the spec: `DAPI_EXPECT` of `testing_common.hpp` (not part of the listed
sources) issues one call, through the 64-bit entry point when `arg.api & c_API_64`, and
asserts that the returned classification equals the expected one. -/
def DAPI_EXPECT {B C R T : Type} (arg : Arguments T) (e : hipblasStatus_t) (c : C) :
    Stmt B C R T :=
  .call (some e)
    (if arg.api.is_64 then ⟨arg.api == .FORTRAN_64, true⟩ else ⟨arg.api == .FORTRAN, false⟩) c

/-- Modelled from the spec: `DAPI_CHECK` is `DAPI_EXPECT` with the success status. -/
def DAPI_CHECK {B C R T : Type} (arg : Arguments T) (c : C) : Stmt B C R T :=
  DAPI_EXPECT arg .HIPBLAS_STATUS_SUCCESS c

/-- Modelled from the spec: `DAPI_DISPATCH` issues the call and asserts nothing. -/
def DAPI_DISPATCH {B C R T : Type} (arg : Arguments T) (c : C) : Stmt B C R T :=
  .call none
    (if arg.api.is_64 then ⟨arg.api == .FORTRAN_64, true⟩ else ⟨arg.api == .FORTRAN, false⟩) c

/-- Modelled from the spec: `EXPECT_HIPBLAS_STATUS` asserts the status of a direct call. -/
def EXPECT_HIPBLAS_STATUS {B C R T : Type} (fortran : Bool) (c : C) (e : hipblasStatus_t) :
    Stmt B C R T :=
  .call (some e) ⟨fortran, false⟩ c

/-- Modelled from the spec: `CHECK_HIPBLAS_ERROR` expects a direct call to succeed. -/
def CHECK_HIPBLAS_ERROR {B C R T : Type} (fortran : Bool) (c : C) : Stmt B C R T :=
  EXPECT_HIPBLAS_STATUS fortran c .HIPBLAS_STATUS_SUCCESS

/-- The timing loop shared by the routines: `cold_iters + iters` iterations of `body`,
with the start timestamp read at the top of iteration `cold_iters`. -/
def timing_loop {B C R T : Type} (cold_iters iters : Int) (body : Stmt B C R T) :
    List (Stmt B C R T) :=
  (List.range (cold_iters + iters).toNat).flatMap fun iter =>
    (if (iter : Int) = cold_iters then [Stmt.get_time] else []) ++ [body]

/-! ## gbmv_strided_batched -/

namespace gbmv

/-- The buffers of the two gbmv routines. -/
inductive Buf where
  | hA
  | hx
  | hy
  | hy_host
  | hy_device
  | hy_cpu
  | dA
  | dx
  | dy
  | d_alpha
  | d_beta
  | d_one
  | d_zero
  | h_alpha
  | h_beta
  | h_one
  | h_zero
  deriving DecidableEq, Repr

/-- Residence of each buffer. -/
def Buf.kind : Buf → MemKind
  | .dA | .dx | .dy | .d_alpha | .d_beta | .d_one | .d_zero => .device
  | _ => .host

/-- Arguments of `hipblasGbmvStridedBatched`, in source order. -/
structure Call where
  handle : HandleArg
  transA : Enumerator
  M : Int
  N : Int
  KL : Int
  KU : Int
  alpha : Ptr Buf
  A : Ptr Buf
  lda : Int
  strideA : Int
  x : Ptr Buf
  incx : Int
  stridex : Int
  beta : Ptr Buf
  y : Ptr Buf
  incy : Int
  stridey : Int
  batch_count : Int
  deriving DecidableEq

/-- Arguments of `ref_gbmv`, in source order (the scalars are passed by value). -/
structure RefCall (T : Type) where
  transA : Enumerator
  M : Int
  N : Int
  KL : Int
  KU : Int
  alpha : T
  A : Ptr Buf
  lda : Int
  x : Ptr Buf
  incx : Int
  beta : T
  y : Ptr Buf
  incy : Int
  deriving DecidableEq

/-- Pointer arguments of the entry point and of the reference; both write `y` only. -/
def sig (T : Type) : Sig Buf Call (RefCall T) T where
  call_ptrs c := [c.alpha, c.A, c.x, c.beta, c.y]
  call_scalars c := [c.alpha, c.beta]
  call_outputs c := c.y.buffers
  ref_ptrs r := [r.A, r.x, r.y]
  ref_outputs r := r.y.buffers
  mem_kind := Buf.kind
  host_loop _ v := v

/-- The size predicate of `testing_gbmv_strided_batched`. -/
def invalid_size (M N KL KU lda incx incy batch_count : Int) : Bool :=
  decide (M < 0) || decide (N < 0) || decide (lda < KL + KU + 1) || incx == 0 || incy == 0
    || decide (KL < 0) || decide (KU < 0) || decide (batch_count < 0)

/-- The condition of the quick-return branch (source line 442). -/
def quick_return {T : Type} (arg : Arguments T) : Bool :=
  invalid_size arg.M arg.N arg.KL arg.KU arg.lda arg.incx arg.incy arg.batch_count
    || arg.M == 0 || arg.N == 0 || arg.batch_count == 0

/-- Logical length of `x`. -/
def dim_x {T : Type} (cv : Conv) (arg : Arguments T) : Int :=
  if cv.char2hipblas_operation arg.transA = .HIPBLAS_OP_N then size_t arg.N else size_t arg.M

/-- Logical length of `y`. -/
def dim_y {T : Type} (cv : Conv) (arg : Arguments T) : Int :=
  if cv.char2hipblas_operation arg.transA = .HIPBLAS_OP_N then size_t arg.M else size_t arg.N

/-- The value of `abs_incx`. -/
def abs_incx {T : Type} (arg : Arguments T) : Int :=
  size_t (if arg.incx ≥ 0 then arg.incx else -arg.incx)

/-- The value of `abs_incy`. -/
def abs_incy {T : Type} (arg : Arguments T) : Int :=
  size_t (if arg.incy ≥ 0 then arg.incy else -arg.incy)

/-- The value of `stride_A`, from `size_t(lda) * N * stride_scale`. -/
def stride_A {T : Type} (arg : Arguments T) : Int :=
  scaled_stride (size_t (size_t arg.lda * size_t arg.N)) arg.stride_scale

/-- The value of `stride_x`, from `dim_x * abs_incx * stride_scale`. -/
def stride_x {T : Type} (cv : Conv) (arg : Arguments T) : Int :=
  scaled_stride (size_t (dim_x cv arg * abs_incx arg)) arg.stride_scale

/-- The value of `stride_y`, from `dim_y * abs_incy * stride_scale`. -/
def stride_y {T : Type} (cv : Conv) (arg : Arguments T) : Int :=
  scaled_stride (size_t (dim_y cv arg * abs_incy arg)) arg.stride_scale

/-- The value of `A_size`. -/
def A_size {T : Type} (arg : Arguments T) : Int := size_t (stride_A arg * arg.batch_count)

/-- The value of `X_size`. -/
def X_size {T : Type} (cv : Conv) (arg : Arguments T) : Int :=
  size_t (stride_x cv arg * arg.batch_count)

/-- The value of `Y_size`. -/
def Y_size {T : Type} (cv : Conv) (arg : Arguments T) : Int :=
  size_t (stride_y cv arg * arg.batch_count)

/-- The call of the functional routine, up to its five pointer arguments. -/
def mk_call {T : Type} (cv : Conv) (arg : Arguments T) (alpha A x beta y : Ptr Buf) : Call :=
  { handle := .handle, transA := cv.char2hipblas_operation arg.transA,
    M := arg.M, N := arg.N, KL := arg.KL, KU := arg.KU,
    alpha := alpha, A := A, lda := arg.lda, strideA := stride_A arg,
    x := x, incx := arg.incx, stridex := stride_x cv arg,
    beta := beta, y := y, incy := arg.incy, stridey := stride_y cv arg,
    batch_count := arg.batch_count }

/-- The reference invocation for batch element `b`. -/
def ref_call {T : Type} (cv : Conv) (arg : Arguments T) (b : Nat) : RefCall T :=
  { transA := cv.char2hipblas_operation arg.transA,
    M := arg.M, N := arg.N, KL := arg.KL, KU := arg.KU,
    alpha := arg.alpha, A := .addr .hA (b * stride_A arg), lda := arg.lda,
    x := .addr .hx (b * stride_x cv arg), incx := arg.incx,
    beta := arg.beta, y := .addr .hy_cpu (b * stride_y cv arg), incy := arg.incy }

/-- Allocation, data generation and host-to-device transfer (source lines 467 to 509). -/
def setup {T : Type} (cv : Conv) (arg : Arguments T) : List (Stmt Buf Call (RefCall T) T) :=
  [ .host_alloc .hA [A_size arg], .host_alloc .hx [X_size cv arg],
    .host_alloc .hy [Y_size cv arg], .host_alloc .hy_host [Y_size cv arg],
    .host_alloc .hy_device [Y_size cv arg], .host_alloc .hy_cpu [Y_size cv arg],
    .device_alloc .dA [A_size arg], .device_alloc .dx [X_size cv arg],
    .device_alloc .dy [Y_size cv arg], .device_alloc .d_alpha [1], .device_alloc .d_beta [1],
    .store .h_alpha [arg.alpha], .store .h_beta [arg.beta],
    .init .hA [arg.M, arg.N, arg.lda, stride_A arg, arg.batch_count],
    .init .hx [dim_x cv arg, abs_incx arg, stride_x cv arg, arg.batch_count],
    .init .hy [dim_y cv arg, abs_incy arg, stride_y cv arg, arg.batch_count],
    .copy .hy_cpu .hy,
    .copy .dA .hA, .copy .dx .hx, .copy .dy .hy,
    .copy .d_alpha .h_alpha, .copy .d_beta .h_beta ]

/-- The two device invocations of the correctness phase (source lines 516 to 561). -/
def device_phase {T : Type} (cv : Conv) (arg : Arguments T) :
    List (Stmt Buf Call (RefCall T) T) :=
  [ .set_pointer_mode .HIPBLAS_POINTER_MODE_HOST,
    DAPI_CHECK arg (mk_call cv arg (.to .h_alpha) (.to .dA) (.to .dx) (.to .h_beta) (.to .dy)),
    .copy .hy_host .dy,
    .copy .dy .hy,
    .set_pointer_mode .HIPBLAS_POINTER_MODE_DEVICE,
    DAPI_CHECK arg (mk_call cv arg (.to .d_alpha) (.to .dA) (.to .dx) (.to .d_beta) (.to .dy)),
    .copy .hy_device .dy ]

/-- The reference loop (source lines 567 to 582). -/
def ref_phase {T : Type} (cv : Conv) (arg : Arguments T) : List (Stmt Buf Call (RefCall T) T) :=
  (List.range arg.batch_count.toNat).map fun b => .ref (ref_call cv arg b)

/-- The comparisons (source lines 586 to 597). -/
def check_phase {T : Type} (cv : Conv) (arg : Arguments T) :
    List (Stmt Buf Call (RefCall T) T) :=
  (if arg.unit_check then
    [ .check ⟨.unit_check_general,
        [1, dim_y cv arg, arg.batch_count, abs_incy arg, stride_y cv arg], .hy_cpu, .hy_host, none⟩,
      .check ⟨.unit_check_general,
        [1, dim_y cv arg, arg.batch_count, abs_incy arg, stride_y cv arg], .hy_cpu, .hy_device,
        none⟩ ]
  else []) ++
  (if arg.norm_check then
    [ .check ⟨.norm_check_general,
        [1, dim_y cv arg, abs_incy arg, stride_y cv arg, arg.batch_count], .hy_cpu, .hy_host, none⟩,
      .check ⟨.norm_check_general,
        [1, dim_y cv arg, abs_incy arg, stride_y cv arg, arg.batch_count], .hy_cpu, .hy_device,
        none⟩ ]
  else [])

/-- The timing phase (source lines 600 to 643). -/
def timing_phase {T : Type} (cv : Conv) (arg : Arguments T) :
    List (Stmt Buf Call (RefCall T) T) :=
  [ .copy .dy .hy, .get_stream, .set_pointer_mode .HIPBLAS_POINTER_MODE_DEVICE ] ++
  timing_loop arg.cold_iters arg.iters
    (DAPI_DISPATCH arg
      (mk_call cv arg (.to .d_alpha) (.to .dA) (.to .dx) (.to .d_beta) (.to .dy))) ++
  [ .get_time, .log ]

/-- The statements executed by `testing_gbmv_strided_batched`. -/
def testing_gbmv_strided_batched {T : Type} (cv : Conv) (arg : Arguments T) :
    List (Stmt Buf Call (RefCall T) T) :=
  let invalid := invalid_size arg.M arg.N arg.KL arg.KU arg.lda arg.incx arg.incy arg.batch_count
  .create_handle ::
  if quick_return arg then
    [ DAPI_EXPECT arg
        (if invalid then .HIPBLAS_STATUS_INVALID_VALUE else .HIPBLAS_STATUS_SUCCESS)
        (mk_call cv arg .nullptr .nullptr .nullptr .nullptr .nullptr) ]
  else
    setup cv arg ++
    (if arg.unit_check || arg.norm_check then
      device_phase cv arg ++ ref_phase cv arg ++ check_phase cv arg
    else []) ++
    (if arg.timing then timing_phase cv arg else [])

end gbmv

namespace gbmv

/-- The constant `c_i32_overflow` of the client headers; the source notes (line 257) that it
rolls over to -2147483648 as a 32-bit value, that is, it is `2 ^ 31`. -/
def c_i32_overflow : Int := 2147483648

/-- The call of the bad-argument routine with every argument valid (source lines 68 to 80),
up to the two scalar pointers, which depend on the pointer mode. -/
def valid_call (alpha beta : Ptr Buf) : Call :=
  { handle := .handle, transA := .HIPBLAS_OP_N, M := 100, N := 100, KL := 5, KU := 5,
    alpha := alpha, A := .to .dA, lda := 100, strideA := 100 * 100,
    x := .to .dx, incx := 1, stridex := 100 * 1,
    beta := beta, y := .to .dy, incy := 1, stridey := 100 * 1, batch_count := 2 }

/-- The body of the pointer-mode loop of `testing_gbmv_strided_batched_bad_arg`. -/
def bad_arg_body {T : Type} [NatCast T] (arg : Arguments T) (pointer_mode : hipblasPointerMode_t) :
    List (Stmt Buf Call (RefCall T) T) :=
  let dev : Bool := pointer_mode == .HIPBLAS_POINTER_MODE_DEVICE
  let alpha : Ptr Buf := if dev then .to .d_alpha else .to .h_alpha
  let beta : Ptr Buf := if dev then .to .d_beta else .to .h_beta
  let one : Ptr Buf := if dev then .to .d_one else .to .h_one
  let zero : Ptr Buf := if dev then .to .d_zero else .to .h_zero
  let v := valid_call alpha beta
  [ .create_handle, .set_pointer_mode pointer_mode,
    .device_alloc .d_alpha [1], .device_alloc .d_beta [1], .device_alloc .d_one [1],
    .device_alloc .d_zero [1],
    .store .h_alpha [((1 : Nat) : T)], .store .h_beta [((2 : Nat) : T)],
    .store .h_one [((1 : Nat) : T)], .store .h_zero [((0 : Nat) : T)] ] ++
  (if dev then
    [ .copy .d_alpha .h_alpha, .copy .d_beta .h_beta, .copy .d_one .h_one,
      .copy .d_zero .h_zero ]
  else []) ++
  [ .device_alloc .dA [100 * 100 * 2], .device_alloc .dx [100 * 1 * 2],
    .device_alloc .dy [100 * 1 * 2],
    DAPI_EXPECT arg .HIPBLAS_STATUS_NOT_INITIALIZED { v with handle := .nullptr },
    DAPI_EXPECT arg .HIPBLAS_STATUS_INVALID_ENUM { v with transA := .HIPBLAS_FILL_MODE_FULL },
    DAPI_EXPECT arg .HIPBLAS_STATUS_INVALID_VALUE { v with alpha := .nullptr },
    DAPI_EXPECT arg .HIPBLAS_STATUS_INVALID_VALUE { v with beta := .nullptr } ] ++
  (if pointer_mode == .HIPBLAS_POINTER_MODE_HOST then
    [ DAPI_EXPECT arg .HIPBLAS_STATUS_INVALID_VALUE { v with A := .nullptr },
      DAPI_EXPECT arg .HIPBLAS_STATUS_INVALID_VALUE { v with x := .nullptr },
      DAPI_EXPECT arg .HIPBLAS_STATUS_INVALID_VALUE { v with y := .nullptr },
      DAPI_EXPECT arg
        (if arg.api.is_64 then .HIPBLAS_STATUS_SUCCESS else .HIPBLAS_STATUS_INVALID_VALUE)
        { v with M := c_i32_overflow, N := c_i32_overflow, alpha := zero, A := .nullptr,
                 lda := c_i32_overflow + 1, x := .nullptr, beta := one, y := .nullptr,
                 batch_count := c_i32_overflow } ]
  else []) ++
  [ DAPI_CHECK arg
      { v with M := 0, alpha := .nullptr, A := .nullptr, x := .nullptr, beta := .nullptr,
               y := .nullptr },
    DAPI_CHECK arg
      { v with N := 0, alpha := .nullptr, A := .nullptr, x := .nullptr, beta := .nullptr,
               y := .nullptr },
    DAPI_CHECK arg
      { v with alpha := .nullptr, A := .nullptr, x := .nullptr, beta := .nullptr,
               y := .nullptr, batch_count := 0 },
    DAPI_CHECK arg { v with alpha := zero, A := .nullptr, x := .nullptr },
    DAPI_CHECK arg { v with alpha := zero, A := .nullptr, x := .nullptr, beta := one,
                            y := .nullptr } ]

/-- The statements executed by `testing_gbmv_strided_batched_bad_arg`: the body once for the
host and once for the device pointer mode. -/
def testing_gbmv_strided_batched_bad_arg {T : Type} [NatCast T] (arg : Arguments T) :
    List (Stmt Buf Call (RefCall T) T) :=
  [hipblasPointerMode_t.HIPBLAS_POINTER_MODE_HOST,
    hipblasPointerMode_t.HIPBLAS_POINTER_MODE_DEVICE].flatMap (bad_arg_body arg)

end gbmv

/-! ## rotmg_strided_batched -/

namespace rotmg

/-- The buffers of the two rotmg routines. -/
inductive Buf where
  | hd1
  | hd2
  | hx1
  | hy1
  | hparams
  | hd1_d
  | hd2_d
  | hx1_d
  | hy1_d
  | hparams_d
  | cd1
  | cd2
  | cx1
  | cy1
  | cparams
  | dd1
  | dd2
  | dx1
  | dy1
  | dparams
  | d1
  | d2
  | x1
  | y1
  | param
  deriving DecidableEq, Repr

/-- Residence of each buffer. -/
def Buf.kind : Buf → MemKind
  | .dd1 | .dd2 | .dx1 | .dy1 | .dparams | .d1 | .d2 | .x1 | .y1 | .param => .device
  | _ => .host

/-- Arguments of `hipblasRotmgStridedBatched`, in source order. -/
structure Call where
  handle : HandleArg
  d1 : Ptr Buf
  stride_d1 : Int
  d2 : Ptr Buf
  stride_d2 : Int
  x1 : Ptr Buf
  stride_x1 : Int
  y1 : Ptr Buf
  stride_y1 : Int
  param : Ptr Buf
  stride_param : Int
  batch_count : Int
  deriving DecidableEq

/-- Arguments of `ref_rotmg`, in source order. -/
structure RefCall where
  d1 : Ptr Buf
  d2 : Ptr Buf
  x1 : Ptr Buf
  y1 : Ptr Buf
  param : Ptr Buf
  deriving DecidableEq

/-- Modelled from the spec: element `b` of a strided-batch container (the container classes
are not part of the listed sources) starts `b` strides into the one contiguous allocation. -/
def slot (buf : Buf) (stride : Int) (b : Nat) : Ptr Buf := .addr buf (b * stride)

/-- All five arrays are both read and written, by the entry point and by the reference. -/
def sig (T : Type) : Sig Buf Call RefCall T where
  call_ptrs c := [c.d1, c.d2, c.x1, c.y1, c.param]
  call_scalars c := [c.d1, c.d2, c.x1, c.y1, c.param]
  call_outputs c := c.d1.buffers ++ c.d2.buffers ++ c.x1.buffers ++ c.y1.buffers ++ c.param.buffers
  ref_ptrs r := [r.d1, r.d2, r.x1, r.y1, r.param]
  ref_outputs r := r.d1.buffers ++ r.d2.buffers ++ r.x1.buffers ++ r.y1.buffers ++ r.param.buffers
  mem_kind := Buf.kind
  host_loop _ v := v

/-- The statements executed by `testing_rotmg_strided_batched_bad_arg`. -/
def testing_rotmg_strided_batched_bad_arg {T : Type} (arg : Arguments T) :
    List (Stmt Buf Call RefCall T) :=
  let batch_count : Int := 2
  let stride_d1 : Int := 5
  let stride_d2 : Int := 5
  let stride_x1 : Int := 5
  let stride_y1 : Int := 5
  let stride_param : Int := 10
  let v : Call :=
    { handle := .handle, d1 := .to .d1, stride_d1 := stride_d1, d2 := .to .d2,
      stride_d2 := stride_d2, x1 := .to .x1, stride_x1 := stride_x1, y1 := .to .y1,
      stride_y1 := stride_y1, param := .to .param, stride_param := stride_param,
      batch_count := batch_count }
  [ .create_handle,
    .device_alloc .d1 [1, 1, stride_d1, batch_count],
    .device_alloc .d2 [1, 1, stride_d2, batch_count],
    .device_alloc .x1 [1, 1, stride_x1, batch_count],
    .device_alloc .y1 [1, 1, stride_y1, batch_count],
    .device_alloc .param [1, 1, stride_param, batch_count],
    DAPI_EXPECT arg .HIPBLAS_STATUS_NOT_INITIALIZED { v with handle := .nullptr },
    DAPI_EXPECT arg .HIPBLAS_STATUS_INVALID_VALUE { v with d1 := .nullptr },
    DAPI_EXPECT arg .HIPBLAS_STATUS_INVALID_VALUE { v with d2 := .nullptr },
    DAPI_EXPECT arg .HIPBLAS_STATUS_INVALID_VALUE { v with x1 := .nullptr },
    DAPI_EXPECT arg .HIPBLAS_STATUS_INVALID_VALUE { v with y1 := .nullptr },
    DAPI_EXPECT arg .HIPBLAS_STATUS_INVALID_VALUE { v with param := .nullptr } ]

/-- The value of `stride_d1`, `stride_d2`, `stride_x1` and `stride_y1`. -/
def stride_1 {T : Type} (arg : Arguments T) : Int := double_to_int64 arg.stride_scale

/-- The value of `stride_param`, from `5 * stride_scale`. -/
def stride_param {T : Type} (arg : Arguments T) : Int :=
  double_to_int64 (fl (5 * arg.stride_scale))

/-- The value of `rel_error`, from `epsilon * 1000`. -/
def rel_error (epsilon : ℚ) : ℚ := epsilon * 1000

/-- The call of the functional routine on the given five arrays. -/
def mk_call {T : Type} (arg : Arguments T) (b1 b2 b3 b4 b5 : Buf) : Call :=
  { handle := .handle, d1 := .to b1, stride_d1 := stride_1 arg, d2 := .to b2,
    stride_d2 := stride_1 arg, x1 := .to b3, stride_x1 := stride_1 arg, y1 := .to b4,
    stride_y1 := stride_1 arg, param := .to b5, stride_param := stride_param arg,
    batch_count := arg.batch_count }

/-- The reference invocation for slot `b`. -/
def ref_call {T : Type} (arg : Arguments T) (b : Nat) : RefCall :=
  { d1 := slot .cd1 (stride_1 arg) b, d2 := slot .cd2 (stride_1 arg) b,
    x1 := slot .cx1 (stride_1 arg) b, y1 := slot .cy1 (stride_1 arg) b,
    param := slot .cparams (stride_param arg) b }

/-- Allocation, data generation and transfers (source lines 176 to 229). -/
def setup {T : Type} (arg : Arguments T) : List (Stmt Buf Call RefCall T) :=
  let one := [1, 1, stride_1 arg, arg.batch_count]
  let five := [5, 1, stride_param arg, arg.batch_count]
  [ .create_handle,
    .host_alloc .hd1 one, .host_alloc .hd2 one, .host_alloc .hx1 one, .host_alloc .hy1 one,
    .host_alloc .hparams five,
    .host_alloc .hd1_d one, .host_alloc .hd2_d one, .host_alloc .hx1_d one,
    .host_alloc .hy1_d one, .host_alloc .hparams_d five,
    .host_alloc .cd1 one, .host_alloc .cd2 one, .host_alloc .cx1 one, .host_alloc .cy1 one,
    .host_alloc .cparams five,
    .init .hparams five, .init .hd1 one, .init .hd2 one, .init .hx1 one, .init .hy1 one,
    .copy .cd1 .hd1, .copy .cd2 .hd2, .copy .cx1 .hx1, .copy .cy1 .hy1,
    .copy .cparams .hparams,
    .device_alloc .dd1 one, .device_alloc .dd2 one, .device_alloc .dx1 one,
    .device_alloc .dy1 one, .device_alloc .dparams five,
    .copy .dd1 .hd1, .copy .dd2 .hd2, .copy .dx1 .hx1, .copy .dy1 .hy1,
    .copy .dparams .hparams ]

/-- The two device invocations of the correctness phase (source lines 233 to 267). -/
def device_phase {T : Type} (arg : Arguments T) : List (Stmt Buf Call RefCall T) :=
  [ .set_pointer_mode .HIPBLAS_POINTER_MODE_HOST,
    DAPI_CHECK arg (mk_call arg .hd1 .hd2 .hx1 .hy1 .hparams),
    .set_pointer_mode .HIPBLAS_POINTER_MODE_DEVICE,
    DAPI_CHECK arg (mk_call arg .dd1 .dd2 .dx1 .dy1 .dparams),
    .copy .hd1_d .dd1, .copy .hd2_d .dd2, .copy .hx1_d .dx1, .copy .hy1_d .dy1,
    .copy .hparams_d .dparams ]

/-- The reference loop (source lines 269 to 272). -/
def ref_phase {T : Type} (arg : Arguments T) : List (Stmt Buf Call RefCall T) :=
  (List.range arg.batch_count.toNat).map fun b => .ref (ref_call arg b)

/-- The ten `near_check_general` comparisons (source lines 276 to 287). -/
def near_checks {T : Type} (epsilon : ℚ) (arg : Arguments T) : List (Stmt Buf Call RefCall T) :=
  let tol := some (rel_error epsilon)
  let bc := arg.batch_count
  [ .check ⟨.near_check_general, [1, 1, bc, 1, stride_1 arg], .cd1, .hd1, tol⟩,
    .check ⟨.near_check_general, [1, 1, bc, 1, stride_1 arg], .cd2, .hd2, tol⟩,
    .check ⟨.near_check_general, [1, 1, bc, 1, stride_1 arg], .cx1, .hx1, tol⟩,
    .check ⟨.near_check_general, [1, 1, bc, 1, stride_1 arg], .cy1, .hy1, tol⟩,
    .check ⟨.near_check_general, [1, 5, bc, 1, stride_param arg], .cparams, .hparams, tol⟩,
    .check ⟨.near_check_general, [1, 1, bc, 1, stride_1 arg], .cd1, .hd1_d, tol⟩,
    .check ⟨.near_check_general, [1, 1, bc, 1, stride_1 arg], .cd2, .hd2_d, tol⟩,
    .check ⟨.near_check_general, [1, 1, bc, 1, stride_1 arg], .cx1, .hx1_d, tol⟩,
    .check ⟨.near_check_general, [1, 1, bc, 1, stride_1 arg], .cy1, .hy1_d, tol⟩,
    .check ⟨.near_check_general, [1, 5, bc, 1, stride_param arg], .cparams, .hparams_d, tol⟩ ]

/-- The ten `norm_check_general` computations (source lines 290 to 312). -/
def norm_checks {T : Type} (arg : Arguments T) : List (Stmt Buf Call RefCall T) :=
  let bc := arg.batch_count
  [ .check ⟨.norm_check_general, [1, 1, 1, stride_1 arg, bc], .cd1, .hd1, none⟩,
    .check ⟨.norm_check_general, [1, 1, 1, stride_1 arg, bc], .cd2, .hd2, none⟩,
    .check ⟨.norm_check_general, [1, 1, 1, stride_1 arg, bc], .cx1, .hx1, none⟩,
    .check ⟨.norm_check_general, [1, 1, 1, stride_1 arg, bc], .cy1, .hy1, none⟩,
    .check ⟨.norm_check_general, [1, 5, 1, stride_param arg, bc], .cparams, .hparams, none⟩,
    .check ⟨.norm_check_general, [1, 1, 1, stride_1 arg, bc], .cd1, .hd1_d, none⟩,
    .check ⟨.norm_check_general, [1, 1, 1, stride_1 arg, bc], .cd2, .hd2_d, none⟩,
    .check ⟨.norm_check_general, [1, 1, 1, stride_1 arg, bc], .cx1, .hx1_d, none⟩,
    .check ⟨.norm_check_general, [1, 1, 1, stride_1 arg, bc], .cy1, .hy1_d, none⟩,
    .check ⟨.norm_check_general, [1, 5, 1, stride_param arg, bc], .cparams, .hparams_d, none⟩ ]

/-- The comparisons (source lines 274 to 313). -/
def comparisons {T : Type} (epsilon : ℚ) (arg : Arguments T) : List (Stmt Buf Call RefCall T) :=
  (if arg.unit_check then near_checks epsilon arg else []) ++
  (if arg.norm_check then norm_checks arg else [])

/-- The timing phase (source lines 316 to 351). -/
def timing_phase {T : Type} (arg : Arguments T) : List (Stmt Buf Call RefCall T) :=
  [ .get_stream, .set_pointer_mode .HIPBLAS_POINTER_MODE_DEVICE ] ++
  timing_loop arg.cold_iters arg.iters
    (DAPI_CHECK arg (mk_call arg .dd1 .dd2 .dx1 .dy1 .dparams)) ++
  [ .get_time, .log ]

/-- The statements executed by `testing_rotmg_strided_batched`; `epsilon` is
`std::numeric_limits<T>::epsilon()`. -/
def testing_rotmg_strided_batched {T : Type} (epsilon : ℚ) (arg : Arguments T) :
    List (Stmt Buf Call RefCall T) :=
  if arg.batch_count ≤ 0 then []
  else
    setup arg ++
    (if arg.unit_check || arg.norm_check then
      device_phase arg ++ ref_phase arg ++ comparisons epsilon arg
    else []) ++
    (if arg.timing then timing_phase arg else [])

end rotmg

/-! ## hemm -/

namespace hemm

/-- The buffers of `testing_hemm`. -/
inductive Buf where
  | hA
  | hB
  | hC_host
  | hC_device
  | hC_gold
  | dA
  | dB
  | dC
  | d_alpha
  | d_beta
  | h_alpha
  | h_beta
  deriving DecidableEq, Repr

/-- Residence of each buffer. -/
def Buf.kind : Buf → MemKind
  | .dA | .dB | .dC | .d_alpha | .d_beta => .device
  | _ => .host

/-- Arguments of `hipblasHemm`, in source order. -/
structure Call where
  handle : HandleArg
  side : Enumerator
  uplo : Enumerator
  M : Int
  N : Int
  alpha : Ptr Buf
  A : Ptr Buf
  lda : Int
  B : Ptr Buf
  ldb : Int
  beta : Ptr Buf
  C : Ptr Buf
  ldc : Int
  deriving DecidableEq

/-- Arguments of `cblas_hemm`, in source order (the scalars are passed by value). -/
structure RefCall (T : Type) where
  side : Enumerator
  uplo : Enumerator
  M : Int
  N : Int
  alpha : T
  A : Ptr Buf
  lda : Int
  B : Ptr Buf
  ldb : Int
  beta : T
  C : Ptr Buf
  ldc : Int
  deriving DecidableEq

/-- Pointer arguments of the entry point and of the reference; both write `C` only. -/
def sig (T : Type) : Sig Buf Call (RefCall T) T where
  call_ptrs c := [c.alpha, c.A, c.B, c.beta, c.C]
  call_scalars c := [c.alpha, c.beta]
  call_outputs c := c.C.buffers
  ref_ptrs r := [r.A, r.B, r.C]
  ref_outputs r := r.C.buffers
  mem_kind := Buf.kind
  host_loop _ v := v

/-- The value of `rows`. -/
def rows {T : Type} (cv : Conv) (arg : Arguments T) : Int :=
  size_t (if cv.char2hipblas_side arg.side = .HIPBLAS_SIDE_LEFT then arg.N else arg.M)

/-- The value of `K`. -/
def K {T : Type} (cv : Conv) (arg : Arguments T) : Int :=
  if cv.char2hipblas_side arg.side = .HIPBLAS_SIDE_LEFT then arg.M else arg.N

/-- The value of `A_size`. -/
def A_size {T : Type} (cv : Conv) (arg : Arguments T) : Int :=
  size_t (size_t arg.lda * size_t (K cv arg))

/-- The value of `B_size`. -/
def B_size {T : Type} (arg : Arguments T) : Int := size_t (size_t arg.ldb * size_t arg.N)

/-- The value of `C_size`. -/
def C_size {T : Type} (arg : Arguments T) : Int := size_t (size_t arg.ldc * size_t arg.N)

/-- The call of `testing_hemm`, up to its two scalar pointers. -/
def mk_call {T : Type} (cv : Conv) (arg : Arguments T) (alpha beta : Ptr Buf) : Call :=
  { handle := .handle, side := cv.char2hipblas_side arg.side,
    uplo := cv.char2hipblas_fill arg.uplo, M := arg.M, N := arg.N,
    alpha := alpha, A := .to .dA, lda := arg.lda, B := .to .dB, ldb := arg.ldb,
    beta := beta, C := .to .dC, ldc := arg.ldc }

/-- The reference invocation. -/
def ref_call {T : Type} (cv : Conv) (arg : Arguments T) : RefCall T :=
  { side := cv.char2hipblas_side arg.side, uplo := cv.char2hipblas_fill arg.uplo,
    M := arg.M, N := arg.N, alpha := arg.alpha, A := .to .hA, lda := arg.lda,
    B := .to .hB, ldb := arg.ldb, beta := arg.beta, C := .to .hC_gold, ldc := arg.ldc }

/-- Allocation, data generation and host-to-device transfer (source lines 67 to 99). -/
def setup {T : Type} (cv : Conv) (arg : Arguments T) : List (Stmt Buf Call (RefCall T) T) :=
  [ .host_alloc .hA [A_size cv arg], .host_alloc .hB [B_size arg],
    .host_alloc .hC_host [C_size arg], .host_alloc .hC_device [C_size arg],
    .host_alloc .hC_gold [C_size arg],
    .device_alloc .dA [A_size cv arg], .device_alloc .dB [B_size arg],
    .device_alloc .dC [C_size arg], .device_alloc .d_alpha [1], .device_alloc .d_beta [1],
    .create_handle,
    .init .hA [rows cv arg, K cv arg, arg.lda, 0, 1],
    .init .hB [arg.M, arg.N, arg.ldb, 0, 1],
    .init .hC_host [arg.M, arg.N, arg.ldc, 0, 1],
    .copy .hC_gold .hC_host, .copy .hC_device .hC_host,
    .copy .dA .hA, .copy .dB .hB, .copy .dC .hC_host,
    .copy .d_alpha .h_alpha, .copy .d_beta .h_beta ]

/-- The two device invocations and the reference invocation (source lines 106 to 124). -/
def invocations {T : Type} (cv : Conv) (arg : Arguments T) :
    List (Stmt Buf Call (RefCall T) T) :=
  [ .set_pointer_mode .HIPBLAS_POINTER_MODE_HOST,
    CHECK_HIPBLAS_ERROR arg.fortran (mk_call cv arg (.to .h_alpha) (.to .h_beta)),
    .copy .hC_host .dC,
    .copy .dC .hC_device,
    .set_pointer_mode .HIPBLAS_POINTER_MODE_DEVICE,
    CHECK_HIPBLAS_ERROR arg.fortran (mk_call cv arg (.to .d_alpha) (.to .d_beta)),
    .copy .hC_device .dC,
    .ref (ref_call cv arg) ]

/-- The comparisons (source lines 128 to 138). -/
def comparisons {T : Type} (arg : Arguments T) : List (Stmt Buf Call (RefCall T) T) :=
  (if arg.unit_check then
    [ .check ⟨.unit_check_general, [arg.M, arg.N, arg.ldc], .hC_gold, .hC_host, none⟩,
      .check ⟨.unit_check_general, [arg.M, arg.N, arg.ldc], .hC_gold, .hC_device, none⟩ ]
  else []) ++
  (if arg.norm_check then
    [ .check ⟨.norm_check_general, [arg.M, arg.N, arg.ldc], .hC_gold, .hC_host, none⟩,
      .check ⟨.norm_check_general, [arg.M, arg.N, arg.ldc], .hC_gold, .hC_device, none⟩ ]
  else [])

/-- The correctness phase (source lines 101 to 139). -/
def check_phase {T : Type} (cv : Conv) (arg : Arguments T) :
    List (Stmt Buf Call (RefCall T) T) :=
  invocations cv arg ++ comparisons arg

/-- The timing phase (source lines 141 to 165). -/
def timing_phase {T : Type} (cv : Conv) (arg : Arguments T) :
    List (Stmt Buf Call (RefCall T) T) :=
  [ .get_stream, .set_pointer_mode .HIPBLAS_POINTER_MODE_DEVICE ] ++
  timing_loop arg.cold_iters arg.iters
    (CHECK_HIPBLAS_ERROR arg.fortran (mk_call cv arg (.to .d_alpha) (.to .d_beta))) ++
  [ .get_time, .log ]

/-- The statements executed by `testing_hemm`. -/
def testing_hemm {T : Type} (cv : Conv) (arg : Arguments T) :
    List (Stmt Buf Call (RefCall T) T) :=
  [ .store .h_alpha [arg.alpha], .store .h_beta [arg.beta] ] ++
  if arg.M < 0 ∨ arg.N < 0 ∨ arg.ldc < arg.M ∨ arg.ldb < arg.M ∨ arg.lda < K cv arg then []
  else
    setup cv arg ++
    (if arg.unit_check || arg.norm_check then check_phase cv arg else []) ++
    (if arg.timing then timing_phase cv arg else [])

end hemm

/-! ## In-place host loops -/

/-- The compound assignment `A[k] op= ...` on a host array (`f` maps the old element to the
new one); an index outside the array is outside the model and leaves the array alone. -/
def update_at {T : Type} (A : List T) (k : Nat) (f : T → T) : List T :=
  match A[k]? with
  | some v => A.set k (f v)
  | none => A

/-! ## trtri -/

namespace trtri

/-- The buffers of the two trtri routines. -/
inductive Buf where
  | hA
  | hB
  | dA
  | dinvA
  deriving DecidableEq, Repr

/-- Residence of each buffer. -/
def Buf.kind : Buf → MemKind
  | .dA | .dinvA => .device
  | _ => .host

/-- Arguments of `hipblasTrtri`, in source order. -/
structure Call where
  handle : HandleArg
  uplo : Enumerator
  diag : Enumerator
  N : Int
  A : Ptr Buf
  lda : Int
  invA : Ptr Buf
  ldinvA : Int
  deriving DecidableEq

/-- Arguments of `ref_trtri`, in source order. -/
structure RefCall where
  uplo : Char
  diag : Char
  N : Int
  A : Ptr Buf
  lda : Int
  deriving DecidableEq

/-- The body of the preprocessing loop for one `(i, j)` (source lines 129 to 140). -/
def preprocess_elem {T : Type} [Field T] (diag : Enumerator) (lda : Int) (A : List T)
    (i j : Nat) : List T :=
  let k := ((i : Int) + j * lda).toNat
  let A1 := update_at A k fun a => a * (1 / 100)
  let A2 := if j % 2 ≠ 0 then update_at A1 k fun a => a * (-1) else A1
  if i = j then
    if diag = .HIPBLAS_DIAG_UNIT then update_at A2 k fun _ => 1
    else update_at A2 k fun a => a * 100
  else A2

/-- The preprocessing loop nest (source lines 125 to 142). -/
def preprocess {T : Type} [Field T] (diag : Enumerator) (N lda : Int) (A : List T) : List T :=
  (List.range N.toNat).foldl
    (fun A1 i => (List.range N.toNat).foldl (fun A2 j => preprocess_elem diag lda A2 i j) A1) A

/-- The entry point reads `A` and writes `invA`; the reference works in place; the host loop
preprocesses `hA`. -/
def sig {T : Type} [Field T] (cv : Conv) (arg : Arguments T) : Sig Buf Call RefCall T where
  call_ptrs c := [c.A, c.invA]
  call_scalars _ := []
  call_outputs c := c.invA.buffers
  ref_ptrs r := [r.A]
  ref_outputs r := r.A.buffers
  mem_kind := Buf.kind
  host_loop b v :=
    if b = .hA then preprocess (cv.char2hipblas_diagonal arg.diag) arg.N arg.lda v else v

/-- The statements executed by `testing_trtri_bad_arg`. -/
def testing_trtri_bad_arg {T : Type} (arg : Arguments T) : List (Stmt Buf Call RefCall T) :=
  let FORTRAN : Bool := arg.api == .FORTRAN
  let N : Int := 100
  let lda : Int := 102
  let uplo := Enumerator.HIPBLAS_FILL_MODE_LOWER
  let diag := Enumerator.HIPBLAS_DIAG_NON_UNIT
  let v : Call :=
    { handle := .handle, uplo := uplo, diag := diag, N := N, A := .to .dA, lda := lda,
      invA := .to .dinvA, ldinvA := lda }
  [ .create_handle,
    .device_alloc .dA [N, N, lda], .device_alloc .dinvA [N, N, lda],
    EXPECT_HIPBLAS_STATUS FORTRAN { v with handle := .nullptr } .HIPBLAS_STATUS_NOT_INITIALIZED,
    EXPECT_HIPBLAS_STATUS FORTRAN { v with uplo := .HIPBLAS_FILL_MODE_FULL }
      .HIPBLAS_STATUS_INVALID_VALUE,
    EXPECT_HIPBLAS_STATUS FORTRAN { v with uplo := .HIPBLAS_OP_N } .HIPBLAS_STATUS_INVALID_ENUM,
    EXPECT_HIPBLAS_STATUS FORTRAN { v with diag := .HIPBLAS_OP_N } .HIPBLAS_STATUS_INVALID_ENUM ]
  ++
  (if arg.bad_arg_all then
    [ EXPECT_HIPBLAS_STATUS FORTRAN { v with A := .nullptr } .HIPBLAS_STATUS_INVALID_VALUE,
      EXPECT_HIPBLAS_STATUS FORTRAN { v with A := .nullptr, invA := .nullptr }
        .HIPBLAS_STATUS_INVALID_VALUE ]
  else []) ++
  [ CHECK_HIPBLAS_ERROR FORTRAN { v with N := 0, A := .nullptr, invA := .nullptr } ]

/-- The call of `testing_trtri`. -/
def mk_call {T : Type} (cv : Conv) (arg : Arguments T) : Call :=
  { handle := .handle, uplo := cv.char2hipblas_fill arg.uplo,
    diag := cv.char2hipblas_diagonal arg.diag, N := arg.N, A := .to .dA, lda := arg.lda,
    invA := .to .dinvA, ldinvA := arg.lda }

/-- The value of `rel_error`, from `get_epsilon<T>() * 1000`. -/
def rel_error (epsilon : ℚ) : ℚ := epsilon * 1000

/-- The statements executed by `testing_trtri`; `epsilon` is `get_epsilon<T>()`. -/
def testing_trtri {T : Type} (cv : Conv) (epsilon : ℚ) (arg : Arguments T) :
    List (Stmt Buf Call RefCall T) :=
  let FORTRAN : Bool := arg.api == .FORTRAN
  let N := arg.N
  let lda := arg.lda
  if N < 0 ∨ lda < 0 ∨ lda < N then []
  else
    [ .host_alloc .hA [N, N, lda], .host_alloc .hB [N, N, lda],
      .device_alloc .dA [N, N, lda], .device_alloc .dinvA [N, N, lda],
      .create_handle,
      .init .hA [N, N, lda],
      .host_loop .hA,
      .copy .hB .hA,
      .copy .dA .hA, .copy .dinvA .hA ] ++
    (if arg.unit_check || arg.norm_check then
      [ CHECK_HIPBLAS_ERROR FORTRAN (mk_call cv arg),
        .copy .hA .dinvA,
        .ref { uplo := arg.uplo, diag := arg.diag, N := N, A := .to .hB, lda := lda } ] ++
      (if arg.unit_check then
        [ .check ⟨.near_check_general, [N, N, lda], .hB, .hA, some (rel_error epsilon)⟩ ]
      else []) ++
      (if arg.norm_check then
        [ .check ⟨.norm_check_general, [N, N, lda], .hB, .hA, none⟩ ]
      else [])
    else []) ++
    (if arg.timing then
      [ .get_stream ] ++
      timing_loop arg.cold_iters arg.iters (CHECK_HIPBLAS_ERROR FORTRAN (mk_call cv arg)) ++
      [ .get_time, .log ]
    else [])

end trtri

/-! ## getrf_strided_batched -/

namespace getrf

/-- The buffers of the two getrf routines. -/
inductive Buf where
  | hA
  | hA1
  | hIpiv
  | hIpiv1
  | hInfo
  | hInfo1
  | dA
  | dIpiv
  | dInfo
  deriving DecidableEq, Repr

/-- Residence of each buffer. -/
def Buf.kind : Buf → MemKind
  | .dA | .dIpiv | .dInfo => .device
  | _ => .host

/-- Arguments of `hipblasGetrfStridedBatched`, in source order. -/
structure Call where
  handle : HandleArg
  N : Int
  A : Ptr Buf
  lda : Int
  strideA : Int
  ipiv : Ptr Buf
  strideP : Int
  info : Ptr Buf
  batch_count : Int
  deriving DecidableEq

/-- Arguments of `ref_getrf`, in source order, followed by the element of `hInfo` that
receives its return value. -/
structure RefCall where
  M : Int
  N : Int
  A : Ptr Buf
  lda : Int
  ipiv : Ptr Buf
  info : Ptr Buf
  deriving DecidableEq

/-- The value of `strideA`, from `size_t(lda) * N * stride_scale`. -/
def strideA {T : Type} (arg : Arguments T) : Int :=
  scaled_stride (size_t (size_t arg.lda * size_t arg.N)) arg.stride_scale

/-- The value of `strideP`, from `std::min(M, N) * stride_scale` with `M = N`. -/
def strideP {T : Type} (arg : Arguments T) : Int :=
  scaled_stride (min arg.N arg.N) arg.stride_scale

/-- The value of `Ipiv_size`. -/
def Ipiv_size {T : Type} (arg : Arguments T) : Int := size_t (strideP arg * arg.batch_count)

/-- The scaling loop nest (source lines 147 to 161); batch element `b` of `hA` starts
`b * strideA` elements into the allocation. -/
def scale {T : Type} [Ring T] (M N lda strideA batch_count : Int) (A : List T) : List T :=
  (List.range batch_count.toNat).foldl
    (fun A1 b => (List.range M.toNat).foldl
      (fun A2 i => (List.range N.toNat).foldl
        (fun A3 j =>
          let k := ((b : Int) * strideA + i + j * lda).toNat
          if i = j then update_at A3 k fun a => a + 400 else update_at A3 k fun a => a - 4)
        A2)
      A1)
    A

/-- The entry point factors `A` in place and writes the pivots and the info values; so does
the reference; the host loop scales `hA`. -/
def sig {T : Type} [Ring T] (arg : Arguments T) : Sig Buf Call RefCall T where
  call_ptrs c := [c.A, c.ipiv, c.info]
  call_scalars _ := []
  call_outputs c := c.A.buffers ++ c.ipiv.buffers ++ c.info.buffers
  ref_ptrs r := [r.A, r.ipiv, r.info]
  ref_outputs r := r.A.buffers ++ r.ipiv.buffers ++ r.info.buffers
  mem_kind := Buf.kind
  host_loop b v :=
    if b = .hA then scale arg.N arg.N arg.lda (strideA arg) arg.batch_count v else v

/-- The statements executed by `testing_getrf_strided_batched_bad_arg`. -/
def testing_getrf_strided_batched_bad_arg {T : Type} (arg : Arguments T) :
    List (Stmt Buf Call RefCall T) :=
  let FORTRAN : Bool := arg.api == .FORTRAN
  let N : Int := 101
  let M : Int := N
  let lda : Int := 102
  let batch_count : Int := 2
  let strideA : Int := N * lda
  let strideP : Int := min M N
  let v : Call :=
    { handle := .handle, N := N, A := .to .dA, lda := lda, strideA := strideA,
      ipiv := .to .dIpiv, strideP := strideP, info := .to .dInfo, batch_count := batch_count }
  [ .create_handle,
    .device_alloc .dA [M, N, lda, strideA, batch_count],
    .device_alloc .dIpiv [strideP * batch_count],
    .device_alloc .dInfo [batch_count],
    EXPECT_HIPBLAS_STATUS FORTRAN { v with handle := .nullptr } .HIPBLAS_STATUS_NOT_INITIALIZED,
    EXPECT_HIPBLAS_STATUS FORTRAN { v with N := -1 } .HIPBLAS_STATUS_INVALID_VALUE,
    EXPECT_HIPBLAS_STATUS FORTRAN { v with lda := N - 1 } .HIPBLAS_STATUS_INVALID_VALUE,
    EXPECT_HIPBLAS_STATUS FORTRAN { v with batch_count := -1 } .HIPBLAS_STATUS_INVALID_VALUE,
    CHECK_HIPBLAS_ERROR FORTRAN { v with N := 0, A := .nullptr, ipiv := .nullptr } ] ++
  (if arg.bad_arg_all then
    [ EXPECT_HIPBLAS_STATUS FORTRAN { v with A := .nullptr } .HIPBLAS_STATUS_INVALID_VALUE,
      EXPECT_HIPBLAS_STATUS FORTRAN { v with info := .nullptr } .HIPBLAS_STATUS_INVALID_VALUE ]
  else [])

/-- The call of `testing_getrf_strided_batched`. -/
def mk_call {T : Type} (arg : Arguments T) : Call :=
  { handle := .handle, N := arg.N, A := .to .dA, lda := arg.lda, strideA := strideA arg,
    ipiv := .to .dIpiv, strideP := strideP arg, info := .to .dInfo,
    batch_count := arg.batch_count }

/-- The reference invocation for batch element `b`. -/
def ref_call {T : Type} (arg : Arguments T) (b : Nat) : RefCall :=
  { M := arg.N, N := arg.N, A := .addr .hA (b * strideA arg), lda := arg.lda,
    ipiv := .addr .hIpiv (b * strideP arg), info := .addr .hInfo b }

/-- The value of `tolerance`, from `eps * 2000`. -/
def tolerance (eps : ℚ) : ℚ := eps * 2000

/-- The statements executed by `testing_getrf_strided_batched`; `eps` is
`std::numeric_limits<U>::epsilon()` for the real type `U` underlying `T`. -/
def testing_getrf_strided_batched {T : Type} [Zero T] (eps : ℚ) (arg : Arguments T) :
    List (Stmt Buf Call RefCall T) :=
  let FORTRAN : Bool := arg.api == .FORTRAN
  let M := arg.N
  let N := arg.N
  let lda := arg.lda
  let batch_count := arg.batch_count
  if M < 0 ∨ N < 0 ∨ lda < M ∨ batch_count < 0 then []
  else if batch_count = 0 then []
  else
    [ .host_alloc .hA [M, N, lda, strideA arg, batch_count],
      .host_alloc .hA1 [M, N, lda, strideA arg, batch_count],
      .host_alloc .hIpiv [Ipiv_size arg], .host_alloc .hIpiv1 [Ipiv_size arg],
      .host_alloc .hInfo [batch_count], .host_alloc .hInfo1 [batch_count],
      .device_alloc .dA [M, N, lda, strideA arg, batch_count],
      .device_alloc .dIpiv [Ipiv_size arg], .device_alloc .dInfo [batch_count],
      .create_handle,
      .init .hA [M, N, lda, strideA arg, batch_count],
      .host_loop .hA,
      .copy .dA .hA,
      .store .dIpiv (List.replicate (Ipiv_size arg).toNat 0),
      .store .dInfo (List.replicate batch_count.toNat 0) ] ++
    (if arg.unit_check || arg.norm_check then
      [ CHECK_HIPBLAS_ERROR FORTRAN (mk_call arg),
        .copy .hA1 .dA, .copy .hIpiv1 .dIpiv, .copy .hInfo1 .dInfo ] ++
      ((List.range batch_count.toNat).map fun b => .ref (ref_call arg b)) ++
      [ .check ⟨.norm_check_general, [M, N, lda, strideA arg, batch_count], .hA, .hA1, none⟩ ] ++
      (if arg.unit_check then
        [ .check ⟨.unit_check_error, [], .hA, .hA1, some (tolerance eps)⟩ ]
      else [])
    else []) ++
    (if arg.timing then
      [ .get_stream ] ++
      timing_loop arg.cold_iters arg.iters (CHECK_HIPBLAS_ERROR FORTRAN (mk_call arg)) ++
      [ .get_time, .log ]
    else [])

end getrf

/-! ## dot -/

namespace dot

/-- The buffers of `testing_dot`; `rocblas_result` and `cpu_result` are host scalars. -/
inductive Buf where
  | hx
  | hy
  | dx
  | dy
  | d_rocblas_result
  | rocblas_result
  | cpu_result
  deriving DecidableEq, Repr

/-- Residence of each buffer. -/
def Buf.kind : Buf → MemKind
  | .dx | .dy | .d_rocblas_result => .device
  | _ => .host

/-- Arguments of `hipblasDot`, in source order. -/
structure Call where
  handle : HandleArg
  N : Int
  x : Ptr Buf
  incx : Int
  y : Ptr Buf
  incy : Int
  result : Ptr Buf
  deriving DecidableEq

/-- Arguments of `cblas_dot`, in source order. -/
structure RefCall where
  N : Int
  x : Ptr Buf
  incx : Int
  y : Ptr Buf
  incy : Int
  result : Ptr Buf
  deriving DecidableEq

/-- The scalar of dot is its result, which is the only thing written. -/
def sig (T : Type) : Sig Buf Call RefCall T where
  call_ptrs c := [c.x, c.y, c.result]
  call_scalars c := [c.result]
  call_outputs c := c.result.buffers
  ref_ptrs r := [r.x, r.y, r.result]
  ref_outputs r := r.result.buffers
  mem_kind := Buf.kind
  host_loop _ v := v

/-- The local `int device_pointer = 1;`. -/
def device_pointer : Int := 1

/-- Everything `testing_dot` executes up to and including the `hipblasDot` call
(source lines 46 to 96). -/
def setup {T : Type} (argus : Arguments T) : List (Stmt Buf Call RefCall T) :=
  let N := argus.N
  let incx := argus.incx
  let incy := argus.incy
  let sizeX := N * incx
  let sizeY := N * incy
  [ .host_alloc .hx [sizeX], .host_alloc .hy [sizeY],
    .create_handle,
    .device_alloc .dx [sizeX], .device_alloc .dy [sizeY], .device_alloc .d_rocblas_result [1],
    .srand 1,
    .init .hx [1, N, incx], .init .hy [1, N, incy],
    .copy .dx .hx, .copy .dy .hy,
    (if device_pointer ≠ 0 then
      .call none ⟨false, false⟩
        { handle := .handle, N := N, x := .to .dx, incx := incx, y := .to .dy, incy := incy,
          result := .to .d_rocblas_result }
    else
      .call none ⟨false, false⟩
        { handle := .handle, N := N, x := .to .dx, incx := incx, y := .to .dy, incy := incy,
          result := .to .rocblas_result }) ]

/-- The release sequence written before each late return. -/
def cleanup {T : Type} : List (Stmt Buf Call RefCall T) :=
  [ .free .dx, .free .dy, .free .d_rocblas_result, .destroy_handle ]

/-- The statements executed by `testing_dot` and its return value, given the status that the
`hipblasDot` call returns. -/
def testing_dot {T : Type} (status : hipblasStatus_t) (argus : Arguments T) :
    List (Stmt Buf Call RefCall T) × hipblasStatus_t :=
  let N := argus.N
  let incx := argus.incx
  let incy := argus.incy
  if N < 0 then ([], .HIPBLAS_STATUS_INVALID_VALUE)
  else if incx < 0 then ([], .HIPBLAS_STATUS_INVALID_VALUE)
  else if incy < 0 then ([], .HIPBLAS_STATUS_INVALID_VALUE)
  else if status ≠ .HIPBLAS_STATUS_SUCCESS then (setup argus ++ cleanup, status)
  else
    (setup argus ++
      (if device_pointer ≠ 0 then [ .copy .rocblas_result .d_rocblas_result ] else []) ++
      (if argus.unit_check || argus.norm_check then
        [ .ref { N := N, x := .to .hx, incx := incx, y := .to .hy, incy := incy,
                 result := .to .cpu_result } ] ++
        (if argus.unit_check then
          [ .check ⟨.unit_check_general, [1, 1, 1], .cpu_result, .rocblas_result, none⟩ ]
        else [])
      else []) ++
      cleanup,
     .HIPBLAS_STATUS_SUCCESS)

end dot

/-! ## spr2_batched -/

namespace spr2_batched

/-- The buffers of `testing_spr2_batched`: the per-batch host vectors `hA[b]`, `hA_cpu[b]`,
`hx[b]`, `hy[b]`, the per-batch device vectors `bA[b]`, `bx[b]`, `by[b]` with the pointer
tables of their containers, the device pointer arrays `dA`, `dx`, `dy`, and the host scalar
`alpha`. -/
inductive Buf where
  | hA (b : Nat)
  | hA_cpu (b : Nat)
  | hx (b : Nat)
  | hy (b : Nat)
  | bA (b : Nat)
  | bx (b : Nat)
  | by_ (b : Nat)
  | bA_ptrs
  | bx_ptrs
  | by_ptrs
  | dA
  | dx
  | dy
  | alpha
  deriving DecidableEq, Repr

/-- Residence of each buffer. -/
def Buf.kind : Buf → MemKind
  | .bA _ | .bx _ | .by_ _ | .dA | .dx | .dy => .device
  | _ => .host

/-- Arguments of `hipblasSpr2Batched`, in source order. -/
structure Call where
  handle : HandleArg
  uplo : Enumerator
  N : Int
  alpha : Ptr Buf
  x : Ptr Buf
  incx : Int
  y : Ptr Buf
  incy : Int
  A : Ptr Buf
  batch_count : Int
  deriving DecidableEq

/-- Arguments of `cblas_spr2`, in source order (the scalar is passed by value). -/
structure RefCall (T : Type) where
  uplo : Enumerator
  N : Int
  alpha : T
  x : Ptr Buf
  incx : Int
  y : Ptr Buf
  incy : Int
  A : Ptr Buf
  deriving DecidableEq

/-- The entry point reaches the per-batch vectors through the three pointer arrays and
updates every `bA[b]`; the reference updates its `A`. -/
def sig (T : Type) : Sig Buf Call (RefCall T) T where
  call_ptrs c :=
    c.alpha :: (List.range c.batch_count.toNat).flatMap fun b =>
      [Ptr.to (.bx b), Ptr.to (.by_ b), Ptr.to (.bA b)]
  call_scalars c := [c.alpha]
  call_outputs c := (List.range c.batch_count.toNat).map fun b => .bA b
  ref_ptrs r := [r.x, r.y, r.A]
  ref_outputs r := r.A.buffers
  mem_kind := Buf.kind
  host_loop _ v := v

/-- The value of `A_size`, from `N * (N + 1) / 2`. -/
def A_size {T : Type} (argus : Arguments T) : Int := Int.tdiv (argus.N * (argus.N + 1)) 2

/-- The value of `x_size`. -/
def x_size {T : Type} (argus : Arguments T) : Int :=
  (if argus.incx < 0 then -argus.incx else argus.incx) * argus.N

/-- The value of `y_size`. -/
def y_size {T : Type} (argus : Arguments T) : Int :=
  (if argus.incy < 0 then -argus.incy else argus.incy) * argus.N

/-- Handle creation and device allocation (source lines 56 to 71). -/
def allocation {T : Type} (argus : Arguments T) : List (Stmt Buf Call (RefCall T) T) :=
  [ .create_handle,
    .device_alloc .bA_ptrs [argus.batch_count, A_size argus],
    .device_alloc .bx_ptrs [argus.batch_count, x_size argus],
    .device_alloc .by_ptrs [argus.batch_count, y_size argus],
    .device_alloc .dA [argus.batch_count], .device_alloc .dx [argus.batch_count],
    .device_alloc .dy [argus.batch_count] ]

/-- The allocation test of source line 74; `is_null` tells which device pointers came back
null. -/
def alloc_failed {T : Type} (is_null : Buf → Bool) (argus : Arguments T) : Bool :=
  let last := (argus.batch_count - 1).toNat
  is_null .dA || is_null .dx || is_null .dy
    || (is_null (.bA last) && A_size argus != 0)
    || (is_null (.bx last) && x_size argus != 0)
    || (is_null (.by_ last) && y_size argus != 0)

/-- One iteration of the per-batch initialisation loop (source lines 84 to 97). -/
def init_batch {T : Type} (argus : Arguments T) (b : Nat) : List (Stmt Buf Call (RefCall T) T) :=
  let abs_incx := if argus.incx < 0 then -argus.incx else argus.incx
  let abs_incy := if argus.incy < 0 then -argus.incy else argus.incy
  [ .host_alloc (.hA b) [A_size argus], .host_alloc (.hA_cpu b) [A_size argus],
    .host_alloc (.hx b) [x_size argus], .host_alloc (.hy b) [y_size argus],
    .srand 1,
    .init (.hA b) [1, A_size argus, 1],
    .init (.hx b) [1, argus.N, abs_incx],
    .init (.hy b) [1, argus.N, abs_incy],
    .copy (.hA_cpu b) (.hA b),
    .copy (.bA b) (.hA b), .copy (.bx b) (.hx b), .copy (.by_ b) (.hy b) ]

/-- The `hipblasSpr2Batched` call (source lines 113 and 114). -/
def the_call {T : Type} (cv : Conv) (argus : Arguments T) : Stmt Buf Call (RefCall T) T :=
  .call none ⟨argus.fortran, false⟩
    { handle := .handle, uplo := cv.char2hipblas_fill argus.uplo, N := argus.N,
      alpha := .to .alpha, x := .to .dx, incx := argus.incx, y := .to .dy,
      incy := argus.incy, A := .to .dA, batch_count := argus.batch_count }

/-- Data generation, transfers and the `hipblasSpr2Batched` call (source lines 80 to 114). -/
def generate_and_call {T : Type} (cv : Conv) (argus : Arguments T) :
    List (Stmt Buf Call (RefCall T) T) :=
  [ .srand 1 ] ++
  (List.range argus.batch_count.toNat).flatMap (init_batch argus) ++
  [ .copy .dA .bA_ptrs, .copy .dx .bx_ptrs, .copy .dy .by_ptrs ] ++
  (if argus.timing then [ .get_time ] else []) ++
  [ the_call cv argus ]

/-- The device-to-host copies of the results (source lines 124 to 127). -/
def copy_back {T : Type} (argus : Arguments T) : List (Stmt Buf Call (RefCall T) T) :=
  (List.range argus.batch_count.toNat).map fun b => .copy (.hA b) (.bA b)

/-- The reference loop (source lines 134 to 137). -/
def ref_phase {T : Type} (cv : Conv) (argus : Arguments T) : List (Stmt Buf Call (RefCall T) T) :=
  (List.range argus.batch_count.toNat).map fun b =>
    .ref { uplo := cv.char2hipblas_fill argus.uplo, N := argus.N, alpha := argus.alpha,
           x := .to (.hx b), incx := argus.incx, y := .to (.hy b), incy := argus.incy,
           A := .to (.hA_cpu b) }

/-- The comparison (source line 143). -/
def compare {T : Type} (argus : Arguments T) : Stmt Buf Call (RefCall T) T :=
  .check ⟨.unit_check_general, [1, A_size argus, argus.batch_count, 1], .hA 0, .hA_cpu 0, none⟩

/-- Result transfer, reference and comparison (source lines 123 to 145). -/
def verify {T : Type} (cv : Conv) (argus : Arguments T) : List (Stmt Buf Call (RefCall T) T) :=
  copy_back argus ++
  (if argus.unit_check then
    ref_phase cv argus ++ (if argus.unit_check then [ compare argus ] else [])
  else [])

/-- The statements executed by `testing_spr2_batched` and its return value, given which
device allocations failed and the status that the `hipblasSpr2Batched` call returns.  The
arrays `hA` and `hA_cpu` are passed to the comparison as pointers to their first vectors. -/
def testing_spr2_batched {T : Type} (cv : Conv) (is_null : Buf → Bool)
    (status : hipblasStatus_t) (argus : Arguments T) :
    List (Stmt Buf Call (RefCall T) T) × hipblasStatus_t :=
  let start : List (Stmt Buf Call (RefCall T) T) := [ .store .alpha [argus.alpha] ]
  if argus.N < 0 ∨ argus.incx = 0 ∨ argus.incy = 0 ∨ argus.batch_count < 0 then
    (start, .HIPBLAS_STATUS_INVALID_VALUE)
  else if argus.batch_count = 0 then (start, .HIPBLAS_STATUS_SUCCESS)
  else if alloc_failed is_null argus then
    (start ++ allocation argus ++ [ .destroy_handle ], .HIPBLAS_STATUS_ALLOC_FAILED)
  else if status ≠ .HIPBLAS_STATUS_SUCCESS then
    (start ++ allocation argus ++ generate_and_call cv argus ++ [ .destroy_handle ], status)
  else
    (start ++ allocation argus ++ generate_and_call cv argus ++ verify cv argus ++
      [ .destroy_handle ], .HIPBLAS_STATUS_SUCCESS)

end spr2_batched

/-! ## Trace observations -/

/-- The statements executed before the first comparison against the reference. -/
def before_compare {B C R T : Type} (p : List (Stmt B C R T)) : List (Stmt B C R T) :=
  p.takeWhile fun s => !s.isCheck

/-- A sample argument record: a 3 by 2 problem, two batches, unit check on, timing off. -/
def sample_args : Arguments Int :=
  { M := 3, N := 2, K := 2, KL := 1, KU := 1, lda := 3, ldb := 3, ldc := 3, incx := 1,
    incy := 1, batch_count := 2, stride_scale := 1, alpha := 2, beta := 3,
    transA := 'N', side := 'L', uplo := 'U', diag := 'N',
    unit_check := true, norm_check := false, timing := false, cold_iters := 2, iters := 10,
    api := .C, fortran := false, bad_arg_all := false }

/-- A sample conversion table, following the usual BLAS letters. -/
def sample_conv : Conv :=
  { char2hipblas_operation := fun c =>
      if c = 'T' then .HIPBLAS_OP_T else if c = 'C' then .HIPBLAS_OP_C else .HIPBLAS_OP_N
    char2hipblas_side := fun c => if c = 'R' then .HIPBLAS_SIDE_RIGHT else .HIPBLAS_SIDE_LEFT
    char2hipblas_fill := fun c =>
      if c = 'L' then .HIPBLAS_FILL_MODE_LOWER else .HIPBLAS_FILL_MODE_UPPER
    char2hipblas_diagonal := fun c =>
      if c = 'U' then .HIPBLAS_DIAG_UNIT else .HIPBLAS_DIAG_NON_UNIT }

/-- How often, before the first comparison, the operation is invoked with its scalars passed
by host address, with its scalars passed by device address, and in total. -/
def scalar_mode_counts {B C R T : Type} (sg : Sig B C R T) (p : List (Stmt B C R T)) :
    Nat × Nat × Nat :=
  ((before_compare p).countP (host_scalars sg), (before_compare p).countP (device_scalars sg),
    (before_compare p).countP Stmt.isCall)

/-- The device invocations of a trace, with the contents they received. -/
def calls_of {B C R T : Type} (tr : List (Event B C R T)) : List (Event B C R T) :=
  tr.filter fun e => e.stmt.isCall

/-- The reference invocations of a trace, with the contents they received. -/
def refs_of {B C R T : Type} (tr : List (Event B C R T)) : List (Event B C R T) :=
  tr.filter fun e => e.stmt.isRef

/-- Two environments that differ at most in the behaviour of the device operation. -/
def same_but_device {B C R T : Type} (env env1 : Env B C R T) : Prop :=
  env1.seed = env.seed ∧ env1.gen = env.gen ∧ env1.reference = env.reference

/-- Isolation of the inputs in `testing_gbmv_strided_batched`: the first two device
invocations (host, then device pointer mode) receive the scalars and the generated arrays, the
first reference invocation receives the generated arrays, and no reference invocation
depends on what the device operation wrote. -/
def gbmv.isolated {T : Type} (env : Env gbmv.Buf gbmv.Call (gbmv.RefCall T) T)
    (s0 : State gbmv.Buf T) (cv : Conv) (arg : Arguments T) : Prop :=
    ∃ a x y,
      generated .hA (exec (gbmv.sig T) env s0 (gbmv.testing_gbmv_strided_batched cv arg))
        = some a ∧
      generated .hx (exec (gbmv.sig T) env s0 (gbmv.testing_gbmv_strided_batched cv arg))
        = some x ∧
      generated .hy (exec (gbmv.sig T) env s0 (gbmv.testing_gbmv_strided_batched cv arg))
        = some y ∧
      (calls_of (exec (gbmv.sig T) env s0 (gbmv.testing_gbmv_strided_batched cv arg))).take 2 =
        [ ⟨DAPI_CHECK arg
            (gbmv.mk_call cv arg (.to .h_alpha) (.to .dA) (.to .dx) (.to .h_beta) (.to .dy)),
            [[arg.alpha], a, x, [arg.beta], y]⟩,
          ⟨DAPI_CHECK arg
            (gbmv.mk_call cv arg (.to .d_alpha) (.to .dA) (.to .dx) (.to .d_beta) (.to .dy)),
            [[arg.alpha], a, x, [arg.beta], y]⟩ ] ∧
      (refs_of (exec (gbmv.sig T) env s0 (gbmv.testing_gbmv_strided_batched cv arg))).head? =
        some ⟨.ref (gbmv.ref_call cv arg 0), [a, x, y]⟩ ∧
      ∀ env1, same_but_device env env1 →
        refs_of (exec (gbmv.sig T) env1 s0 (gbmv.testing_gbmv_strided_batched cv arg)) =
        refs_of (exec (gbmv.sig T) env s0 (gbmv.testing_gbmv_strided_batched cv arg))

/-- Isolation of the inputs in `testing_rotmg_strided_batched`: the first two device
invocations (host arrays, then device arrays) receive the generated data, the first reference
invocation receives the generated data, and no reference invocation depends on what the
device operation wrote. -/
def rotmg.isolated {T : Type} (env : Env rotmg.Buf rotmg.Call rotmg.RefCall T)
    (s0 : State rotmg.Buf T) (epsilon : ℚ) (arg : Arguments T) : Prop :=
    ∃ d1 d2 x1 y1 param,
      generated .hd1 (exec (rotmg.sig T) env s0 (rotmg.testing_rotmg_strided_batched epsilon arg))
        = some d1 ∧
      generated .hd2 (exec (rotmg.sig T) env s0 (rotmg.testing_rotmg_strided_batched epsilon arg))
        = some d2 ∧
      generated .hx1 (exec (rotmg.sig T) env s0 (rotmg.testing_rotmg_strided_batched epsilon arg))
        = some x1 ∧
      generated .hy1 (exec (rotmg.sig T) env s0 (rotmg.testing_rotmg_strided_batched epsilon arg))
        = some y1 ∧
      generated .hparams
        (exec (rotmg.sig T) env s0 (rotmg.testing_rotmg_strided_batched epsilon arg))
        = some param ∧
      (calls_of (exec (rotmg.sig T) env s0
          (rotmg.testing_rotmg_strided_batched epsilon arg))).take 2 =
        [ ⟨DAPI_CHECK arg (rotmg.mk_call arg .hd1 .hd2 .hx1 .hy1 .hparams),
            [d1, d2, x1, y1, param]⟩,
          ⟨DAPI_CHECK arg (rotmg.mk_call arg .dd1 .dd2 .dx1 .dy1 .dparams),
            [d1, d2, x1, y1, param]⟩ ] ∧
      (refs_of (exec (rotmg.sig T) env s0
          (rotmg.testing_rotmg_strided_batched epsilon arg))).head? =
        some ⟨.ref (rotmg.ref_call arg 0), [d1, d2, x1, y1, param]⟩ ∧
      ∀ env1, same_but_device env env1 →
        refs_of (exec (rotmg.sig T) env1 s0 (rotmg.testing_rotmg_strided_batched epsilon arg)) =
        refs_of (exec (rotmg.sig T) env s0 (rotmg.testing_rotmg_strided_batched epsilon arg))

/-- Isolation of the inputs in `testing_hemm`: the first two device invocations (host, then
device pointer mode) receive the scalars and the generated matrices, and the one reference
invocation receives the generated matrices. -/
def hemm.isolated {T : Type} (env : Env hemm.Buf hemm.Call (hemm.RefCall T) T)
    (s0 : State hemm.Buf T) (cv : Conv) (arg : Arguments T) : Prop :=
    ∃ a b c,
      generated .hA (exec (hemm.sig T) env s0 (hemm.testing_hemm cv arg)) = some a ∧
      generated .hB (exec (hemm.sig T) env s0 (hemm.testing_hemm cv arg)) = some b ∧
      generated .hC_host (exec (hemm.sig T) env s0 (hemm.testing_hemm cv arg)) = some c ∧
      (calls_of (exec (hemm.sig T) env s0 (hemm.testing_hemm cv arg))).take 2 =
        [ ⟨CHECK_HIPBLAS_ERROR arg.fortran (hemm.mk_call cv arg (.to .h_alpha) (.to .h_beta)),
            [[arg.alpha], a, b, [arg.beta], c]⟩,
          ⟨CHECK_HIPBLAS_ERROR arg.fortran (hemm.mk_call cv arg (.to .d_alpha) (.to .d_beta)),
            [[arg.alpha], a, b, [arg.beta], c]⟩ ] ∧
      refs_of (exec (hemm.sig T) env s0 (hemm.testing_hemm cv arg)) =
        [ ⟨.ref (hemm.ref_call cv arg), [a, b, c]⟩ ]

/-- A sample environment: the generator returns its state and the number of shape
arguments and advances, the n-th device invocation writes `[n]`, the reference writes `[7]`. -/
def sample_env (B C R : Type) : Env B C R Int :=
  { seed := fun _ => 0
    gen := fun g shape => ([(g : Int), (shape.length : Int)], g + 1)
    device := fun n _ _ _ => [(n : Int)]
    reference := fun _ _ _ => [7] }

/-- A sample initial state: every buffer empty. -/
def sample_state (B : Type) : State B Int := { mem := fun _ => [], rng := 0, calls := 0 }

/-- The routine neither invokes the operation or the reference nor compares anything. -/
def quiet {B C R T : Type} (p : List (Stmt B C R T)) : Bool :=
  p.all fun s => !s.isCall && !s.isRef && !s.isCheck

/-- The status expectations of a statement list, in order: expected status and call. -/
def expectations {B C R T : Type} (p : List (Stmt B C R T)) : List (hipblasStatus_t × C) :=
  p.filterMap fun s =>
    match s with
    | .call (some e) _ c => some (e, c)
    | _ => none

/-- The sizes of `testing_gbmv_strided_batched` at which no computed quantity falls below its
mathematical value: the increments are `int64_t` values; the three products that are converted
to `double` are at most `2 ^ 53`; the three buffer sizes, each the product of two `int64_t`
values, are within the `int64_t` range. -/
def gbmv.in_range {T : Type} (cv : Conv) (arg : Arguments T) : Prop :=
  -(2 ^ 63) ≤ arg.incx ∧ arg.incx < 2 ^ 63 ∧ -(2 ^ 63) ≤ arg.incy ∧ arg.incy < 2 ^ 63 ∧
  arg.lda * arg.N ≤ 2 ^ 53 ∧
  gbmv.dim_x cv arg * gbmv.abs_incx arg ≤ 2 ^ 53 ∧
  gbmv.dim_y cv arg * gbmv.abs_incy arg ≤ 2 ^ 53 ∧
  gbmv.stride_A arg * arg.batch_count < 2 ^ 63 ∧
  gbmv.stride_x cv arg * arg.batch_count < 2 ^ 63 ∧
  gbmv.stride_y cv arg * arg.batch_count < 2 ^ 63

/-- A record whose product `lda * N` is `2 ^ 53 + 1`: a 1 by 1 band matrix with
`lda = 2 ^ 53 + 1`, one batch, stride scale 1, unit check set. -/
def sample_args_54_bits : Arguments Int :=
  { sample_args with M := 1, N := 1, KL := 0, KU := 0, lda := 2 ^ 53 + 1, batch_count := 1 }

/-- The sample record with `2 ^ 62` batches. -/
def sample_args_many_batches : Arguments Int := { sample_args with batch_count := 2 ^ 62 }

/-- The reference loop of `testing_gbmv_strided_batched` stays inside the buffers: one
reference invocation per `b < batch_count` at element offsets `b * stride_A`, `b * stride_x`,
`b * stride_y`; each stride covers one sub-problem; every sub-problem ends inside its buffer;
the regions of distinct batch elements do not overlap. -/
def gbmv.batches_within {T : Type} (cv : Conv) (arg : Arguments T) : Prop :=
  (gbmv.testing_gbmv_strided_batched cv arg).filter Stmt.isRef =
    ((List.range arg.batch_count.toNat).map fun b =>
      Stmt.ref
        { transA := cv.char2hipblas_operation arg.transA, M := arg.M, N := arg.N,
          KL := arg.KL, KU := arg.KU, alpha := arg.alpha,
          A := .addr .hA (b * gbmv.stride_A arg), lda := arg.lda,
          x := .addr .hx (b * gbmv.stride_x cv arg), incx := arg.incx, beta := arg.beta,
          y := .addr .hy_cpu (b * gbmv.stride_y cv arg), incy := arg.incy }) ∧
  arg.lda * arg.N ≤ gbmv.stride_A arg ∧
  gbmv.dim_x cv arg * gbmv.abs_incx arg ≤ gbmv.stride_x cv arg ∧
  gbmv.dim_y cv arg * gbmv.abs_incy arg ≤ gbmv.stride_y cv arg ∧
  (∀ b : Nat, (b : Int) < arg.batch_count →
    b * gbmv.stride_A arg + arg.lda * arg.N ≤ gbmv.A_size arg ∧
    b * gbmv.stride_x cv arg + 1 + (gbmv.dim_x cv arg - 1) * gbmv.abs_incx arg
      ≤ gbmv.X_size cv arg ∧
    b * gbmv.stride_y cv arg + 1 + (gbmv.dim_y cv arg - 1) * gbmv.abs_incy arg
      ≤ gbmv.Y_size cv arg) ∧
  (∀ b c : Nat, b < c →
    b * gbmv.stride_A arg + arg.lda * arg.N ≤ c * gbmv.stride_A arg ∧
    b * gbmv.stride_x cv arg + 1 + (gbmv.dim_x cv arg - 1) * gbmv.abs_incx arg
      ≤ c * gbmv.stride_x cv arg ∧
    b * gbmv.stride_y cv arg + 1 + (gbmv.dim_y cv arg - 1) * gbmv.abs_incy arg
      ≤ c * gbmv.stride_y cv arg)

/-- The sample record with both check flags cleared. -/
def sample_args_unchecked : Arguments Int :=
  { sample_args with unit_check := false, norm_check := false }

/-- The sample record with a zero dimension: `N = 0`. -/
def sample_args_zero_N : Arguments Int := { sample_args with N := 0 }

/-! ## Observed bad-argument tables -/

/-- One row of the gbmv bad-argument table as observed in a run: the expected status, the
call, and what the alpha and the beta pointer refer to at the call (nothing for null). -/
structure gbmv.Row (T : Type) where
  expect : Option hipblasStatus_t
  call : gbmv.Call
  alpha : List T
  beta : List T

/-- The rows of a trace of the gbmv bad-argument routine. -/
def gbmv.rows {T : Type} (tr : List (Event gbmv.Buf gbmv.Call (gbmv.RefCall T) T)) :
    List (gbmv.Row T) :=
  tr.filterMap fun e =>
    match e.stmt with
    | .call expect _ c => some ⟨expect, c, e.data.getD 0 [], e.data.getD 3 []⟩
    | _ => none

/-- The rows observed when the loop body runs in the given pointer mode. -/
def gbmv.table {T : Type} [NatCast T] (env : Env gbmv.Buf gbmv.Call (gbmv.RefCall T) T)
    (s0 : State gbmv.Buf T) (arg : Arguments T) (pointer_mode : hipblasPointerMode_t) :
    List (gbmv.Row T) :=
  gbmv.rows (exec (gbmv.sig T) env s0 (gbmv.bad_arg_body arg pointer_mode))

/-- Which of alpha, A, x, beta, y are null in a call. -/
def gbmv.Call.nulls (c : gbmv.Call) : List Bool :=
  [c.alpha.isNull, c.A.isNull, c.x.isNull, c.beta.isNull, c.y.isNull]

/-- A valid handle and exactly one null pointer among alpha, A, x, beta, y. -/
def gbmv.Row.single_null {T : Type} (r : gbmv.Row T) : Bool :=
  r.call.handle == .handle && r.call.nulls.count true == 1

/-- Conversion of a 64-bit value to `int`, as happens when it is passed to a 32-bit entry
point: reduction modulo `2 ^ 32` into the signed range. -/
def to_int32 (x : Int) : Int := (x + 2 ^ 31) % 2 ^ 32 - 2 ^ 31

/-- Which of d1, d2, x1, y1, param are null in a call. -/
def rotmg.Call.nulls (c : rotmg.Call) : List Bool :=
  [c.d1.isNull, c.d2.isNull, c.x1.isNull, c.y1.isNull, c.param.isNull]

/-- The sample record with timing switched on (2 cold and 10 timed iterations). -/
def sample_args_timing : Arguments Int := { sample_args with timing := true }

/-- The buffers a statement may write. -/
def Stmt.writes {B C R T : Type} (sg : Sig B C R T) : Stmt B C R T → List B
  | .store b _ => [b]
  | .init b _ => [b]
  | .host_loop b => [b]
  | .copy dst _ => [dst]
  | .call _ _ c => sg.call_outputs c
  | .ref r => sg.ref_outputs r
  | _ => []

/-- The statement leaves buffer `b` alone. -/
def Stmt.keeps {B C R T : Type} [DecidableEq B] (sg : Sig B C R T) (b : B)
    (st : Stmt B C R T) : Bool :=
  decide (b ∉ st.writes sg)

/-- The query of the stream, which opens every timing block. -/
def Stmt.isGetStream {B C R T : Type} : Stmt B C R T → Bool
  | .get_stream => true
  | _ => false

/-- The device invocations of the timing block: those after the query of the stream. -/
def timed_calls {B C R T : Type} (tr : List (Event B C R T)) : List (Event B C R T) :=
  calls_of (tr.dropWhile fun e => !e.stmt.isGetStream)

/-- The first invocation of the timing loop of `testing_gbmv_strided_batched` receives the
scalars and the three generated arrays: `dy` holds the generated `hy`. -/
def gbmv.timing_reset {T : Type} (env : Env gbmv.Buf gbmv.Call (gbmv.RefCall T) T)
    (s0 : State gbmv.Buf T) (cv : Conv) (arg : Arguments T) : Prop :=
  ∃ a x y,
    generated .hA (exec (gbmv.sig T) env s0 (gbmv.testing_gbmv_strided_batched cv arg))
      = some a ∧
    generated .hx (exec (gbmv.sig T) env s0 (gbmv.testing_gbmv_strided_batched cv arg))
      = some x ∧
    generated .hy (exec (gbmv.sig T) env s0 (gbmv.testing_gbmv_strided_batched cv arg))
      = some y ∧
    (timed_calls (exec (gbmv.sig T) env s0 (gbmv.testing_gbmv_strided_batched cv arg))).head? =
      some ⟨DAPI_DISPATCH arg
          (gbmv.mk_call cv arg (.to .d_alpha) (.to .dA) (.to .dx) (.to .d_beta) (.to .dy)),
        [[arg.alpha], a, x, [arg.beta], y]⟩

/-- What the first invocation of the timing loop of `testing_hemm` receives: the generated
data when the correctness phase did not run; when it ran, `dC` holds what the invocation in
device pointer mode (the second invocation of the run) wrote there. -/
def hemm.timing_inputs {T : Type} (env : Env hemm.Buf hemm.Call (hemm.RefCall T) T)
    (s0 : State hemm.Buf T) (cv : Conv) (arg : Arguments T) : Prop :=
  ∃ a b c,
    generated .hA (exec (hemm.sig T) env s0 (hemm.testing_hemm cv arg)) = some a ∧
    generated .hB (exec (hemm.sig T) env s0 (hemm.testing_hemm cv arg)) = some b ∧
    generated .hC_host (exec (hemm.sig T) env s0 (hemm.testing_hemm cv arg)) = some c ∧
    ((arg.unit_check || arg.norm_check) = false →
      (timed_calls (exec (hemm.sig T) env s0 (hemm.testing_hemm cv arg))).head? =
        some ⟨CHECK_HIPBLAS_ERROR arg.fortran (hemm.mk_call cv arg (.to .d_alpha) (.to .d_beta)),
          [[arg.alpha], a, b, [arg.beta], c]⟩) ∧
    ((arg.unit_check || arg.norm_check) = true →
      (timed_calls (exec (hemm.sig T) env s0 (hemm.testing_hemm cv arg))).head? =
        some ⟨CHECK_HIPBLAS_ERROR arg.fortran (hemm.mk_call cv arg (.to .d_alpha) (.to .d_beta)),
          [[arg.alpha], a, b, [arg.beta],
            env.device (s0.calls + 1) (hemm.mk_call cv arg (.to .d_alpha) (.to .d_beta))
              [[arg.alpha], a, b, [arg.beta], c] .dC]⟩)

/-- What the first invocation of the timing loop of `testing_rotmg_strided_batched`
receives: the generated data when the correctness phase did not run; when it ran, the five
device arrays hold what the invocation on the device arrays (the second invocation of the
run) wrote there. -/
def rotmg.timing_inputs {T : Type} (env : Env rotmg.Buf rotmg.Call rotmg.RefCall T)
    (s0 : State rotmg.Buf T) (epsilon : ℚ) (arg : Arguments T) : Prop :=
  ∃ d1 d2 x1 y1 param,
    generated .hd1 (exec (rotmg.sig T) env s0 (rotmg.testing_rotmg_strided_batched epsilon arg))
      = some d1 ∧
    generated .hd2 (exec (rotmg.sig T) env s0 (rotmg.testing_rotmg_strided_batched epsilon arg))
      = some d2 ∧
    generated .hx1 (exec (rotmg.sig T) env s0 (rotmg.testing_rotmg_strided_batched epsilon arg))
      = some x1 ∧
    generated .hy1 (exec (rotmg.sig T) env s0 (rotmg.testing_rotmg_strided_batched epsilon arg))
      = some y1 ∧
    generated .hparams
      (exec (rotmg.sig T) env s0 (rotmg.testing_rotmg_strided_batched epsilon arg))
      = some param ∧
    ((arg.unit_check || arg.norm_check) = false →
      (timed_calls (exec (rotmg.sig T) env s0
          (rotmg.testing_rotmg_strided_batched epsilon arg))).head? =
        some ⟨DAPI_CHECK arg (rotmg.mk_call arg .dd1 .dd2 .dx1 .dy1 .dparams),
          [d1, d2, x1, y1, param]⟩) ∧
    ((arg.unit_check || arg.norm_check) = true →
      (timed_calls (exec (rotmg.sig T) env s0
          (rotmg.testing_rotmg_strided_batched epsilon arg))).head? =
        some ⟨DAPI_CHECK arg (rotmg.mk_call arg .dd1 .dd2 .dx1 .dy1 .dparams),
          [ env.device (s0.calls + 1) (rotmg.mk_call arg .dd1 .dd2 .dx1 .dy1 .dparams)
              [d1, d2, x1, y1, param] .dd1,
            env.device (s0.calls + 1) (rotmg.mk_call arg .dd1 .dd2 .dx1 .dy1 .dparams)
              [d1, d2, x1, y1, param] .dd2,
            env.device (s0.calls + 1) (rotmg.mk_call arg .dd1 .dd2 .dx1 .dy1 .dparams)
              [d1, d2, x1, y1, param] .dx1,
            env.device (s0.calls + 1) (rotmg.mk_call arg .dd1 .dd2 .dx1 .dy1 .dparams)
              [d1, d2, x1, y1, param] .dy1,
            env.device (s0.calls + 1) (rotmg.mk_call arg .dd1 .dd2 .dx1 .dy1 .dparams)
              [d1, d2, x1, y1, param] .dparams ]⟩)

/-- What the first invocation of the timing loop of `testing_getrf_strided_batched`
receives: the generated and scaled matrices and the zeroed pivots and info values when the
correctness phase did not run; when it ran, what its invocation (the first of the run) wrote
to `dA`, `dIpiv` and `dInfo`. -/
def getrf.timing_inputs {T : Type} [Ring T] (env : Env getrf.Buf getrf.Call getrf.RefCall T)
    (s0 : State getrf.Buf T) (eps : ℚ) (arg : Arguments T) : Prop :=
  ∃ a,
    generated .hA (exec (getrf.sig arg) env s0 (getrf.testing_getrf_strided_batched eps arg))
      = some a ∧
    ((arg.unit_check || arg.norm_check) = false →
      (timed_calls (exec (getrf.sig arg) env s0
          (getrf.testing_getrf_strided_batched eps arg))).head? =
        some ⟨CHECK_HIPBLAS_ERROR (arg.api == .FORTRAN) (getrf.mk_call arg),
          [ getrf.scale arg.N arg.N arg.lda (getrf.strideA arg) arg.batch_count a,
            List.replicate (getrf.Ipiv_size arg).toNat 0,
            List.replicate arg.batch_count.toNat 0 ]⟩) ∧
    ((arg.unit_check || arg.norm_check) = true →
      (timed_calls (exec (getrf.sig arg) env s0
          (getrf.testing_getrf_strided_batched eps arg))).head? =
        some ⟨CHECK_HIPBLAS_ERROR (arg.api == .FORTRAN) (getrf.mk_call arg),
          [ env.device s0.calls (getrf.mk_call arg)
              [ getrf.scale arg.N arg.N arg.lda (getrf.strideA arg) arg.batch_count a,
                List.replicate (getrf.Ipiv_size arg).toNat 0,
                List.replicate arg.batch_count.toNat 0 ] .dA,
            env.device s0.calls (getrf.mk_call arg)
              [ getrf.scale arg.N arg.N arg.lda (getrf.strideA arg) arg.batch_count a,
                List.replicate (getrf.Ipiv_size arg).toNat 0,
                List.replicate arg.batch_count.toNat 0 ] .dIpiv,
            env.device s0.calls (getrf.mk_call arg)
              [ getrf.scale arg.N arg.N arg.lda (getrf.strideA arg) arg.batch_count a,
                List.replicate (getrf.Ipiv_size arg).toNat 0,
                List.replicate arg.batch_count.toNat 0 ] .dInfo ]⟩)

/-! ## Handles and device buffers -/

/-- Creation of the library handle. -/
def Stmt.isCreateHandle {B C R T : Type} : Stmt B C R T → Bool
  | .create_handle => true
  | _ => false

/-- Destruction of the library handle. -/
def Stmt.isDestroyHandle {B C R T : Type} : Stmt B C R T → Bool
  | .destroy_handle => true
  | _ => false

/-- Device allocation of buffer `b`. -/
def Stmt.isDeviceAllocOf {B C R T : Type} [DecidableEq B] (b : B) : Stmt B C R T → Bool
  | .device_alloc b1 _ => decide (b1 = b)
  | _ => false

/-- Release of buffer `b`. -/
def Stmt.isFreeOf {B C R T : Type} [DecidableEq B] (b : B) : Stmt B C R T → Bool
  | .free b1 => decide (b1 = b)
  | _ => false

/-! ## Sizes and index ranges -/

/-- The largest index of a `rows`-by-`cols` column-major block with leading dimension `ld`. -/
def last_index (rows cols ld : Int) : Int := (rows - 1) + (cols - 1) * ld

/-- A record accepted by the guard of `testing_hemm` with `side` left and `lda < N`. -/
def sample_args_wide : Arguments Int :=
  { sample_args with M := 1, N := 2, lda := 1, ldb := 1, ldc := 1 }

/-- The local `sizeX` of `testing_dot` (source line 46), without 32-bit wrap-around. -/
def dot.sizeX {T : Type} (argus : Arguments T) : Int := argus.N * argus.incx

/-- The local `sizeY` of `testing_dot` (source line 47), without 32-bit wrap-around. -/
def dot.sizeY {T : Type} (argus : Arguments T) : Int := argus.N * argus.incy

/-! ## Element-wise effect of the host loops -/

/-- The statements of `testing_spr2_batched` up to the end of the per-batch initialisation
loop (source lines 45 to 98). -/
def spr2_batched.through_init {T : Type} (argus : Arguments T) :
    List (Stmt spr2_batched.Buf spr2_batched.Call (spr2_batched.RefCall T) T) :=
  [ .store .alpha [argus.alpha] ] ++ spr2_batched.allocation argus ++ [ .srand 1 ] ++
    (List.range argus.batch_count.toNat).flatMap (spr2_batched.init_batch argus)

/-- After the initialisation loop of `testing_spr2_batched` every batch element holds the
same generated data: `hA[b]`, `hx[b]`, `hy[b]` are what the generator yields from the state
seeded with 1, hence equal to `hA[0]`, `hx[0]`, `hy[0]`, and `hA_cpu[b]` equals `hA[b]`; the
routine runs these statements first. -/
def spr2_batched.batches_identical {T : Type}
    (env : Env spr2_batched.Buf spr2_batched.Call (spr2_batched.RefCall T) T)
    (s0 : State spr2_batched.Buf T) (cv : Conv) (is_null : spr2_batched.Buf → Bool)
    (status : hipblasStatus_t) (argus : Arguments T) : Prop :=
  (∃ rest, (spr2_batched.testing_spr2_batched cv is_null status argus).1 =
    spr2_batched.through_init argus ++ rest) ∧
  ∀ b : Nat, (b : Int) < argus.batch_count →
    (run (spr2_batched.sig T) env s0 (spr2_batched.through_init argus)).1.mem (.hA b) =
      (env.gen (env.seed 1) [1, spr2_batched.A_size argus, 1]).1 ∧
    (run (spr2_batched.sig T) env s0 (spr2_batched.through_init argus)).1.mem (.hA b) =
      (run (spr2_batched.sig T) env s0 (spr2_batched.through_init argus)).1.mem (.hA 0) ∧
    (run (spr2_batched.sig T) env s0 (spr2_batched.through_init argus)).1.mem (.hx b) =
      (run (spr2_batched.sig T) env s0 (spr2_batched.through_init argus)).1.mem (.hx 0) ∧
    (run (spr2_batched.sig T) env s0 (spr2_batched.through_init argus)).1.mem (.hy b) =
      (run (spr2_batched.sig T) env s0 (spr2_batched.through_init argus)).1.mem (.hy 0) ∧
    (run (spr2_batched.sig T) env s0 (spr2_batched.through_init argus)).1.mem (.hA_cpu b) =
      (run (spr2_batched.sig T) env s0 (spr2_batched.through_init argus)).1.mem (.hA b)

/-! ## What the comparisons see -/

/-- The comparisons of a run, each with the contents that its expected and its actual buffer
hold when it is made. -/
def compared {B C R T : Type} [DecidableEq B] (sg : Sig B C R T) (env : Env B C R T) :
    State B T → List (Stmt B C R T) → List (Check B × List T × List T)
  | _, [] => []
  | s, st :: rest =>
      (match st with
        | .check k => [(k, s.mem k.expected, s.mem k.actual)]
        | _ => []) ++ compared sg env (step sg env s st).1 rest

/-- Modelled from the spec: `unit_check_error` of the client header `unit.hpp` (not part of
the listed sources) passes iff the error does not exceed the tolerance. -/
def unit_check_error (error tolerance : ℚ) : Bool := decide (error ≤ tolerance)

/-- The error scalar `hipblas_error` of `testing_getrf_strided_batched`: the value that
`norm_check_general` (not part of the listed sources; `norm` stands for it) computes from its
integer arguments and the two arrays. -/
def getrf.hipblas_error {T : Type} (norm : List Int → List T → List T → ℚ)
    (cs : List (Check getrf.Buf × List T × List T)) : Option ℚ :=
  (cs.find? fun c => c.1.kind == CheckKind.norm_check_general).map fun c =>
    norm c.1.dims c.2.1 c.2.2

/-- The outcome of `unit_check_error(hipblas_error, tolerance)` in
`testing_getrf_strided_batched`, when it is called. -/
def getrf.passes {T : Type} (norm : List Int → List T → List T → ℚ)
    (cs : List (Check getrf.Buf × List T × List T)) : Option Bool :=
  match getrf.hipblas_error norm cs,
    cs.find? (fun c => c.1.kind == CheckKind.unit_check_error) with
  | some error, some c => c.1.tol.map fun t => unit_check_error error t
  | _, _ => none

/-- Two environments whose device operation writes the same matrices `A`, while the pivots
and the info values it writes may differ. -/
def getrf.same_matrices {T : Type} (env env1 : Env getrf.Buf getrf.Call getrf.RefCall T) :
    Prop :=
  env1.seed = env.seed ∧ env1.gen = env.gen ∧ env1.reference = env.reference ∧
  ∀ n c d, env1.device n c d .dA = env.device n c d .dA

/-- The verdict of `testing_getrf_strided_batched` does not depend on the pivots and info
values written by the device: the comparisons see the same contents under both
environments, all of them compare `hA` with `hA1`, the error scalar and the outcome of the
unit check coincide, and with `unit_check` set on a record that passes the guards the unit
check passes iff the error scalar is at most `2000 * eps`. -/
def getrf.verdict_ignores_pivots {T : Type} [Ring T]
    (env env1 : Env getrf.Buf getrf.Call getrf.RefCall T) (s0 : State getrf.Buf T) (eps : ℚ)
    (arg : Arguments T) : Prop :=
  compared (getrf.sig arg) env1 s0 (getrf.testing_getrf_strided_batched eps arg) =
    compared (getrf.sig arg) env s0 (getrf.testing_getrf_strided_batched eps arg) ∧
  (∀ c ∈ compared (getrf.sig arg) env s0 (getrf.testing_getrf_strided_batched eps arg),
    c.1.expected = .hA ∧ c.1.actual = .hA1) ∧
  (∀ norm : List Int → List T → List T → ℚ,
    getrf.hipblas_error norm
        (compared (getrf.sig arg) env1 s0 (getrf.testing_getrf_strided_batched eps arg)) =
      getrf.hipblas_error norm
        (compared (getrf.sig arg) env s0 (getrf.testing_getrf_strided_batched eps arg)) ∧
    getrf.passes norm
        (compared (getrf.sig arg) env1 s0 (getrf.testing_getrf_strided_batched eps arg)) =
      getrf.passes norm
        (compared (getrf.sig arg) env s0 (getrf.testing_getrf_strided_batched eps arg))) ∧
  (¬ (arg.N < 0 ∨ arg.N < 0 ∨ arg.lda < arg.N ∨ arg.batch_count < 0) →
    ¬ arg.batch_count = 0 → arg.unit_check = true →
    ∀ norm : List Int → List T → List T → ℚ, ∃ error,
      getrf.hipblas_error norm
        (compared (getrf.sig arg) env s0 (getrf.testing_getrf_strided_batched eps arg)) =
        some error ∧
      (getrf.passes norm
          (compared (getrf.sig arg) env s0 (getrf.testing_getrf_strided_batched eps arg)) =
          some true ↔ error ≤ 2000 * eps))

/-- A second sample environment: as `sample_env`, except that the device writes other pivots
and info values (the matrices are the same). -/
def sample_env_pivots : Env getrf.Buf getrf.Call getrf.RefCall Int :=
  { seed := fun _ => 0
    gen := fun g shape => ([(g : Int), (shape.length : Int)], g + 1)
    device := fun n _ _ b => if b = .dA then [(n : Int)] else [(n : Int) + 100]
    reference := fun _ _ _ => [7] }

/-- The statements of `testing_getrf_strided_batched` from the allocations to the copies of
the device results (source lines 119 to 180), executed when a check flag is set. -/
def getrf.before_refs {T : Type} [Zero T] (arg : Arguments T) :
    List (Stmt getrf.Buf getrf.Call getrf.RefCall T) :=
  [ .host_alloc .hA [arg.N, arg.N, arg.lda, getrf.strideA arg, arg.batch_count],
    .host_alloc .hA1 [arg.N, arg.N, arg.lda, getrf.strideA arg, arg.batch_count],
    .host_alloc .hIpiv [getrf.Ipiv_size arg], .host_alloc .hIpiv1 [getrf.Ipiv_size arg],
    .host_alloc .hInfo [arg.batch_count], .host_alloc .hInfo1 [arg.batch_count],
    .device_alloc .dA [arg.N, arg.N, arg.lda, getrf.strideA arg, arg.batch_count],
    .device_alloc .dIpiv [getrf.Ipiv_size arg], .device_alloc .dInfo [arg.batch_count],
    .create_handle,
    .init .hA [arg.N, arg.N, arg.lda, getrf.strideA arg, arg.batch_count],
    .host_loop .hA,
    .copy .dA .hA,
    .store .dIpiv (List.replicate (getrf.Ipiv_size arg).toNat 0),
    .store .dInfo (List.replicate arg.batch_count.toNat 0),
    CHECK_HIPBLAS_ERROR (arg.api == .FORTRAN) (getrf.mk_call arg),
    .copy .hA1 .dA, .copy .hIpiv1 .dIpiv, .copy .hInfo1 .dInfo ]

/-- The reference loop of `testing_getrf_strided_batched` (source lines 185 to 188). -/
def getrf.ref_phase {T : Type} (arg : Arguments T) :
    List (Stmt getrf.Buf getrf.Call getrf.RefCall T) :=
  (List.range arg.batch_count.toNat).map fun b => .ref (getrf.ref_call arg b)

/-- The norm computation and the unit check of `testing_getrf_strided_batched`
(source lines 190 to 198). -/
def getrf.checks {T : Type} (eps : ℚ) (arg : Arguments T) :
    List (Stmt getrf.Buf getrf.Call getrf.RefCall T) :=
  [ .check ⟨.norm_check_general, [arg.N, arg.N, arg.lda, getrf.strideA arg, arg.batch_count],
      .hA, .hA1, none⟩ ] ++
  (if arg.unit_check then
    [ .check ⟨.unit_check_error, [], .hA, .hA1, some (getrf.tolerance eps)⟩ ]
  else [])

/-- The sample record with both check flags cleared and `incx = 0`. -/
def sample_args_zero_incx : Arguments Int := { sample_args_unchecked with incx := 0 }

end hipBLAS

/-! # Theorems -/

namespace hipBLAS

open hipblasStatus_t

/-! ## List helpers -/

theorem takeWhile_append_stop {α : Type} (p : α → Bool) (l₁ l₂ : List α) (a : α)
    (h₁ : ∀ x ∈ l₁, p x = true) (ha : p a = false) :
    (l₁ ++ a :: l₂).takeWhile p = l₁ := by
  induction l₁ with
  | nil => simp [List.takeWhile, ha]
  | cons x xs ih =>
    have hx := h₁ x (List.mem_cons_self _ _)
    simp [List.takeWhile_cons, hx, ih (fun y hy => h₁ y (List.mem_cons_of_mem _ hy))]

theorem takeWhile_all {α : Type} (p : α → Bool) (l : List α) (h : ∀ x ∈ l, p x = true) :
    l.takeWhile p = l := by
  induction l with
  | nil => rfl
  | cons x xs ih =>
    have hx := h x (List.mem_cons_self _ _)
    simp [List.takeWhile_cons, hx, ih (fun y hy => h y (List.mem_cons_of_mem _ hy))]

theorem before_compare_stop {B C R T : Type} (l₁ l₂ : List (Stmt B C R T)) (c : Stmt B C R T)
    (h₁ : ∀ x ∈ l₁, x.isCheck = false) (hc : c.isCheck = true) :
    before_compare (l₁ ++ c :: l₂) = l₁ := by
  unfold before_compare
  apply takeWhile_append_stop
  · intro x hx
    simp [h₁ x hx]
  · simp [hc]

theorem before_compare_all {B C R T : Type} (l : List (Stmt B C R T))
    (h : ∀ x ∈ l, x.isCheck = false) : before_compare l = l := by
  unfold before_compare
  apply takeWhile_all
  intro x hx
  simp [h x hx]

theorem countP_map_ref {B C R T A : Type} (q : Stmt B C R T → Bool) (f : A → R) (l : List A)
    (hq : ∀ r, q (.ref r) = false) :
    (l.map fun b => (Stmt.ref (f b) : Stmt B C R T)).countP q = 0 := by
  rw [List.countP_eq_zero]
  intro x hx
  obtain ⟨b, -, rfl⟩ := List.mem_map.mp hx
  simp [hq]

theorem host_scalars_ref {B C R T : Type} (sg : Sig B C R T) (r : R) :
    host_scalars sg (.ref r) = false := rfl

theorem device_scalars_ref {B C R T : Type} (sg : Sig B C R T) (r : R) :
    device_scalars sg (.ref r) = false := rfl

theorem no_check_of_all {B C R T : Type} (l : List (Stmt B C R T))
    (h : l.all (fun s => !s.isCheck) = true) : ∀ x ∈ l, x.isCheck = false := by
  intro x hx
  have := List.all_eq_true.mp h x hx
  simpa using this

theorem all_map_ref {B C R T A : Type} (f : A → R) (l : List A) :
    (l.map fun b => (Stmt.ref (f b) : Stmt B C R T)).all (fun s => !s.isCheck) = true := by
  rw [List.all_eq_true]
  intro x hx
  obtain ⟨b, -, rfl⟩ := List.mem_map.mp hx
  rfl

/-! ## The correctness phases -/

theorem gbmv_check_phase_head {T : Type} (cv : Conv) (arg : Arguments T)
    (h : (arg.unit_check || arg.norm_check) = true) :
    ∃ c rest, gbmv.check_phase cv arg = c :: rest ∧ c.isCheck = true := by
  unfold gbmv.check_phase
  cases hu : arg.unit_check
  · have hn : arg.norm_check = true := by simpa [hu] using h
    simp [hn, Stmt.isCheck]
  · simp [Stmt.isCheck]

theorem gbmv_before_compare_eq {T : Type} (cv : Conv) (arg : Arguments T)
    (hq : gbmv.quick_return arg = false)
    (h : (arg.unit_check || arg.norm_check) = true) :
    before_compare (gbmv.testing_gbmv_strided_batched cv arg) =
      Stmt.create_handle :: (gbmv.setup cv arg ++ gbmv.device_phase cv arg
        ++ gbmv.ref_phase cv arg) := by
  obtain ⟨c, rest, hc, hck⟩ := gbmv_check_phase_head cv arg h
  have hp : gbmv.testing_gbmv_strided_batched cv arg =
      (Stmt.create_handle :: (gbmv.setup cv arg ++ gbmv.device_phase cv arg
        ++ gbmv.ref_phase cv arg)) ++ c ::
        (rest ++ if arg.timing then gbmv.timing_phase cv arg else []) := by
    unfold gbmv.testing_gbmv_strided_batched
    simp only [hq, h, if_true, Bool.false_eq_true, if_false, hc, List.cons_append,
      List.append_assoc]
  rw [hp]
  apply before_compare_stop _ _ _ _ hck
  apply no_check_of_all
  rw [List.all_cons, List.all_append, List.all_append, gbmv.ref_phase, all_map_ref]
  rfl

theorem gbmv_counts {T : Type} (cv : Conv) (arg : Arguments T)
    (hq : gbmv.quick_return arg = false)
    (h : (arg.unit_check || arg.norm_check) = true) :
    scalar_mode_counts (gbmv.sig T) (gbmv.testing_gbmv_strided_batched cv arg) = (1, 1, 2) := by
  unfold scalar_mode_counts
  rw [gbmv_before_compare_eq cv arg hq h]
  simp only [List.countP_cons, List.countP_append, gbmv.ref_phase]
  rw [countP_map_ref _ _ _ (host_scalars_ref _), countP_map_ref _ _ _ (device_scalars_ref _),
    countP_map_ref _ _ _ (fun _ => rfl)]
  rfl

theorem rotmg_comparisons_head {T : Type} (epsilon : ℚ) (arg : Arguments T)
    (h : (arg.unit_check || arg.norm_check) = true) :
    ∃ c rest, rotmg.comparisons epsilon arg = c :: rest ∧ c.isCheck = true := by
  unfold rotmg.comparisons
  cases hu : arg.unit_check
  · have hn : arg.norm_check = true := by simpa [hu] using h
    simp [hn, rotmg.norm_checks, Stmt.isCheck]
  · simp [rotmg.near_checks, Stmt.isCheck]

theorem rotmg_before_compare_eq {T : Type} (epsilon : ℚ) (arg : Arguments T)
    (hb : 1 ≤ arg.batch_count) (h : (arg.unit_check || arg.norm_check) = true) :
    before_compare (rotmg.testing_rotmg_strided_batched epsilon arg) =
      rotmg.setup arg ++ rotmg.device_phase arg ++ rotmg.ref_phase arg := by
  have hnb : ¬ arg.batch_count ≤ 0 := by omega
  obtain ⟨c, rest, hc, hck⟩ := rotmg_comparisons_head epsilon arg h
  have hp : rotmg.testing_rotmg_strided_batched epsilon arg =
      (rotmg.setup arg ++ rotmg.device_phase arg ++ rotmg.ref_phase arg) ++ c ::
        (rest ++ if arg.timing then rotmg.timing_phase arg else []) := by
    unfold rotmg.testing_rotmg_strided_batched
    rw [if_neg hnb]
    simp only [h, if_true, hc, List.append_assoc, List.cons_append]
  rw [hp]
  apply before_compare_stop _ _ _ _ hck
  apply no_check_of_all
  rw [List.all_append, List.all_append, rotmg.ref_phase, all_map_ref]
  rfl

theorem rotmg_counts {T : Type} (epsilon : ℚ) (arg : Arguments T)
    (hb : 1 ≤ arg.batch_count) (h : (arg.unit_check || arg.norm_check) = true) :
    scalar_mode_counts (rotmg.sig T) (rotmg.testing_rotmg_strided_batched epsilon arg)
      = (1, 1, 2) := by
  unfold scalar_mode_counts
  rw [rotmg_before_compare_eq epsilon arg hb h]
  simp only [List.countP_append, rotmg.ref_phase]
  rw [countP_map_ref _ _ _ (host_scalars_ref _), countP_map_ref _ _ _ (device_scalars_ref _),
    countP_map_ref _ _ _ (fun _ => rfl)]
  rfl

theorem hemm_comparisons_head {T : Type} (arg : Arguments T)
    (h : (arg.unit_check || arg.norm_check) = true) :
    ∃ c rest, hemm.comparisons arg = c :: rest ∧ c.isCheck = true := by
  unfold hemm.comparisons
  cases hu : arg.unit_check
  · have hn : arg.norm_check = true := by simpa [hu] using h
    simp [hn, Stmt.isCheck]
  · simp [Stmt.isCheck]

theorem hemm_before_compare_eq {T : Type} (cv : Conv) (arg : Arguments T)
    (hg : ¬ (arg.M < 0 ∨ arg.N < 0 ∨ arg.ldc < arg.M ∨ arg.ldb < arg.M ∨ arg.lda < hemm.K cv arg))
    (h : (arg.unit_check || arg.norm_check) = true) :
    before_compare (hemm.testing_hemm cv arg) =
      [Stmt.store .h_alpha [arg.alpha], Stmt.store .h_beta [arg.beta]] ++ hemm.setup cv arg ++
        hemm.invocations cv arg := by
  obtain ⟨c, rest, hc, hck⟩ := hemm_comparisons_head arg h
  have hp : hemm.testing_hemm cv arg =
      ([Stmt.store .h_alpha [arg.alpha], Stmt.store .h_beta [arg.beta]] ++ hemm.setup cv arg ++
        hemm.invocations cv arg) ++ c ::
        (rest ++ if arg.timing then hemm.timing_phase cv arg else []) := by
    unfold hemm.testing_hemm hemm.check_phase
    rw [if_neg hg]
    simp only [h, if_true, hc, List.append_assoc, List.cons_append, List.nil_append]
  rw [hp]
  apply before_compare_stop _ _ _ _ hck
  apply no_check_of_all
  rfl

theorem hemm_counts {T : Type} (cv : Conv) (arg : Arguments T)
    (hg : ¬ (arg.M < 0 ∨ arg.N < 0 ∨ arg.ldc < arg.M ∨ arg.ldb < arg.M ∨ arg.lda < hemm.K cv arg))
    (h : (arg.unit_check || arg.norm_check) = true) :
    scalar_mode_counts (hemm.sig T) (hemm.testing_hemm cv arg) = (1, 1, 2) := by
  unfold scalar_mode_counts
  rw [hemm_before_compare_eq cv arg hg h]
  rfl

theorem countP_map_zero {A S : Type} (q : S → Bool) (g : A → S) (l : List A)
    (h : ∀ a, q (g a) = false) : (l.map g).countP q = 0 := by
  rw [List.countP_eq_zero]
  intro x hx
  obtain ⟨b, -, rfl⟩ := List.mem_map.mp hx
  simp [h]

theorem countP_flatMap_zero {A S : Type} (q : S → Bool) (g : A → List S) (l : List A)
    (h : ∀ a, (g a).countP q = 0) : (l.flatMap g).countP q = 0 := by
  rw [List.countP_eq_zero]
  intro x hx
  obtain ⟨b, -, hb⟩ := List.mem_flatMap.mp hx
  exact List.countP_eq_zero.mp (h b) x hb

theorem all_map_true {A S : Type} (q : S → Bool) (g : A → S) (l : List A)
    (h : ∀ a, q (g a) = true) : (l.map g).all q = true := by
  rw [List.all_eq_true]
  intro x hx
  obtain ⟨b, -, rfl⟩ := List.mem_map.mp hx
  exact h b

theorem all_flatMap_true {A S : Type} (q : S → Bool) (g : A → List S) (l : List A)
    (h : ∀ a, (g a).all q = true) : (l.flatMap g).all q = true := by
  rw [List.all_eq_true]
  intro x hx
  obtain ⟨b, -, hb⟩ := List.mem_flatMap.mp hx
  exact List.all_eq_true.mp (h b) x hb

theorem dot_counts {T : Type} (status : hipblasStatus_t) (argus : Arguments T)
    (hN : ¬ argus.N < 0) (hx : ¬ argus.incx < 0) (hy : ¬ argus.incy < 0) :
    scalar_mode_counts (dot.sig T) (dot.testing_dot status argus).1 = (0, 1, 1) := by
  unfold dot.testing_dot
  simp only [if_neg hN, if_neg hx, if_neg hy]
  by_cases hs : status ≠ HIPBLAS_STATUS_SUCCESS
  · rw [if_pos hs]
    rfl
  · rw [if_neg hs]
    cases hu : argus.unit_check <;> cases hn : argus.norm_check <;> rfl

theorem spr2_batched_generate_all {T : Type} (cv : Conv) (argus : Arguments T) :
    (spr2_batched.generate_and_call (T := T) cv argus).all (fun s => !s.isCheck) = true := by
  unfold spr2_batched.generate_and_call
  rw [List.all_append, List.all_append, List.all_append, List.all_append,
    all_flatMap_true (fun s : Stmt spr2_batched.Buf spr2_batched.Call (spr2_batched.RefCall T) T =>
      !s.isCheck) (spr2_batched.init_batch argus) _ (by intro b; rfl)]
  cases argus.timing <;> rfl

theorem spr2_batched_generate_countP {T : Type} (cv : Conv) (argus : Arguments T)
    (q : Stmt spr2_batched.Buf spr2_batched.Call (spr2_batched.RefCall T) T → Bool)
    (h1 : ∀ b, (spr2_batched.init_batch argus b).countP q = 0) (h2 : q .get_time = false)
    (h3 : ∀ d s, q (.copy d s) = false) (h4 : q (.srand 1) = false) :
    (spr2_batched.generate_and_call cv argus).countP q =
      if q (spr2_batched.the_call cv argus) then 1 else 0 := by
  unfold spr2_batched.generate_and_call
  simp only [List.countP_append, List.countP_cons, List.countP_nil,
    countP_flatMap_zero q _ _ h1, h3, h4]
  cases argus.timing <;> simp [h2]

theorem spr2_batched_before_compare_eq {T : Type} (cv : Conv)
    (is_null : spr2_batched.Buf → Bool) (status : hipblasStatus_t) (argus : Arguments T)
    (hg : ¬ (argus.N < 0 ∨ argus.incx = 0 ∨ argus.incy = 0 ∨ argus.batch_count < 0))
    (hb : argus.batch_count ≠ 0) (ha : spr2_batched.alloc_failed is_null argus = false) :
    ∃ tail, before_compare (spr2_batched.testing_spr2_batched cv is_null status argus).1 =
      [Stmt.store .alpha [argus.alpha]] ++ spr2_batched.allocation argus ++
        spr2_batched.generate_and_call cv argus ++ tail ∧
        tail.countP (host_scalars (spr2_batched.sig T)) = 0 ∧
        tail.countP (device_scalars (spr2_batched.sig T)) = 0 ∧
        tail.countP Stmt.isCall = 0 := by
  have hall := spr2_batched_generate_all (T := T) cv argus
  have hcopy : (spr2_batched.copy_back (T := T) argus).all (fun s => !s.isCheck) = true :=
    all_map_true _ _ _ (fun _ => rfl)
  have href : (spr2_batched.ref_phase (T := T) cv argus).all (fun s => !s.isCheck) = true :=
    all_map_true _ _ _ (fun _ => rfl)
  have ccopy : ∀ q : Stmt spr2_batched.Buf spr2_batched.Call (spr2_batched.RefCall T) T → Bool,
      (∀ d s, q (.copy d s) = false) → (spr2_batched.copy_back argus).countP q = 0 :=
    fun q hq => countP_map_zero q _ _ (fun _ => hq _ _)
  have cref : ∀ q : Stmt spr2_batched.Buf spr2_batched.Call (spr2_batched.RefCall T) T → Bool,
      (∀ r, q (.ref r) = false) → (spr2_batched.ref_phase cv argus).countP q = 0 :=
    fun q hq => countP_map_zero q _ _ (fun _ => hq _)
  unfold spr2_batched.testing_spr2_batched
  simp only [if_neg hg, if_neg hb, ha, Bool.false_eq_true, if_false]
  by_cases hs : status ≠ HIPBLAS_STATUS_SUCCESS
  · rw [if_pos hs]
    refine ⟨[Stmt.destroy_handle], ?_, rfl, rfl, rfl⟩
    apply before_compare_all
    apply no_check_of_all
    rw [List.all_append, List.all_append, List.all_append, hall]
    rfl
  · rw [if_neg hs]
    unfold spr2_batched.verify
    cases hu : argus.unit_check
    · refine ⟨spr2_batched.copy_back argus ++ [Stmt.destroy_handle], ?_, ?_, ?_, ?_⟩
      · simp only [Bool.false_eq_true, if_false, List.append_nil, List.append_assoc]
        apply before_compare_all
        apply no_check_of_all
        rw [List.all_append, List.all_append, List.all_append, List.all_append, hall, hcopy]
        rfl
      · rw [List.countP_append, ccopy _ (fun _ _ => rfl)]
        rfl
      · rw [List.countP_append, ccopy _ (fun _ _ => rfl)]
        rfl
      · rw [List.countP_append, ccopy _ (fun _ _ => rfl)]
        rfl
    · refine ⟨spr2_batched.copy_back argus ++ spr2_batched.ref_phase cv argus, ?_, ?_, ?_, ?_⟩
      · have := before_compare_stop
          ([Stmt.store .alpha [argus.alpha]] ++ spr2_batched.allocation argus ++
            spr2_batched.generate_and_call cv argus ++
            (spr2_batched.copy_back argus ++ spr2_batched.ref_phase cv argus))
          [Stmt.destroy_handle] (spr2_batched.compare argus)
          (by
            apply no_check_of_all
            rw [List.all_append, List.all_append, List.all_append, List.all_append, hall,
              hcopy, href]
            rfl)
          rfl
        simpa only [if_true, List.append_assoc, List.singleton_append, List.cons_append,
          List.nil_append] using this
      · rw [List.countP_append, ccopy _ (fun _ _ => rfl), cref _ (fun _ => rfl)]
      · rw [List.countP_append, ccopy _ (fun _ _ => rfl), cref _ (fun _ => rfl)]
      · rw [List.countP_append, ccopy _ (fun _ _ => rfl), cref _ (fun _ => rfl)]

theorem spr2_batched_counts {T : Type} (cv : Conv) (is_null : spr2_batched.Buf → Bool)
    (status : hipblasStatus_t) (argus : Arguments T)
    (hg : ¬ (argus.N < 0 ∨ argus.incx = 0 ∨ argus.incy = 0 ∨ argus.batch_count < 0))
    (hb : argus.batch_count ≠ 0) (ha : spr2_batched.alloc_failed is_null argus = false) :
    scalar_mode_counts (spr2_batched.sig T)
      (spr2_batched.testing_spr2_batched cv is_null status argus).1 = (1, 0, 1) := by
  obtain ⟨tail, hbc, h1, h2, h3⟩ :=
    spr2_batched_before_compare_eq cv is_null status argus hg hb ha
  unfold scalar_mode_counts
  rw [hbc]
  simp only [List.countP_append, h1, h2, h3, Nat.add_zero]
  rw [spr2_batched_generate_countP cv argus (host_scalars (spr2_batched.sig T))
      (by intro b; rfl) rfl (fun _ _ => rfl) rfl,
    spr2_batched_generate_countP cv argus (device_scalars (spr2_batched.sig T))
      (by intro b; rfl) rfl (fun _ _ => rfl) rfl,
    spr2_batched_generate_countP cv argus Stmt.isCall (by intro b; rfl) rfl (fun _ _ => rfl) rfl]
  rfl


/-- The size predicate, as a proposition. -/
theorem gbmv_invalid_size_iff (M N KL KU lda incx incy batch_count : Int) :
    gbmv.invalid_size M N KL KU lda incx incy batch_count = true ↔
      (M < 0 ∨ N < 0 ∨ lda < KL + KU + 1 ∨ incx = 0 ∨ incy = 0 ∨ KL < 0 ∨ KU < 0
        ∨ batch_count < 0) := by
  simp [gbmv.invalid_size, or_assoc]

/-- C1: `testing_gbmv_strided_batched` takes the quick-return path (handle creation followed
by a single expectation and nothing else) exactly when `invalid_size` holds or `M`, `N` or
`batch_count` is zero; on that path the single call passes null for alpha, A, x, beta and y,
expects INVALID_VALUE when `invalid_size` holds (also when a dimension is zero as well) and
SUCCESS otherwise, and no data generation, reference invocation or comparison occurs. -/
theorem gbmv_quick_return_path {T : Type} (cv : Conv) (arg : Arguments T) :
    let invalid : Prop := arg.M < 0 ∨ arg.N < 0 ∨ arg.lda < arg.KL + arg.KU + 1 ∨ arg.incx = 0
      ∨ arg.incy = 0 ∨ arg.KL < 0 ∨ arg.KU < 0 ∨ arg.batch_count < 0
    let quick : Prop := invalid ∨ arg.M = 0 ∨ arg.N = 0 ∨ arg.batch_count = 0
    let p := gbmv.testing_gbmv_strided_batched cv arg
    (quick ↔ ∃ e c, p = [Stmt.create_handle, DAPI_EXPECT arg e c]) ∧
    (quick →
      (p.filter Stmt.isCall).length = 1 ∧
      (∀ e fn c, Stmt.call e fn c ∈ p →
        c.handle = HandleArg.handle ∧
        c.alpha = Ptr.nullptr ∧ c.A = Ptr.nullptr ∧ c.x = Ptr.nullptr ∧ c.beta = Ptr.nullptr ∧
        c.y = Ptr.nullptr ∧
        (invalid → e = some HIPBLAS_STATUS_INVALID_VALUE) ∧
        (¬ invalid → e = some HIPBLAS_STATUS_SUCCESS)) ∧
      (∀ s ∈ p, s.isInit = false ∧ s.isRef = false ∧ s.isCheck = false)) := by
  intro invalid quick p
  have hinv := gbmv_invalid_size_iff arg.M arg.N arg.KL arg.KU arg.lda arg.incx arg.incy
    arg.batch_count
  have hq : quick ↔ gbmv.quick_return arg = true := by
    simp only [gbmv.quick_return, Bool.or_eq_true, hinv, beq_iff_eq, quick, invalid, or_assoc]
  have hp : quick → p = [Stmt.create_handle, DAPI_EXPECT arg
      (if gbmv.invalid_size arg.M arg.N arg.KL arg.KU arg.lda arg.incx arg.incy
        arg.batch_count = true then HIPBLAS_STATUS_INVALID_VALUE else HIPBLAS_STATUS_SUCCESS)
      (gbmv.mk_call cv arg .nullptr .nullptr .nullptr .nullptr .nullptr)] := by
    intro h
    show gbmv.testing_gbmv_strided_batched cv arg = _
    unfold gbmv.testing_gbmv_strided_batched
    simp only [if_pos (hq.mp h)]
  constructor
  · constructor
    · intro h
      exact ⟨_, _, hp h⟩
    · rintro ⟨e, c, h⟩
      by_contra hn
      have hlen := congrArg List.length h
      have hf : ¬ (gbmv.quick_return arg = true) := fun hb => hn (hq.mpr hb)
      simp only [p, gbmv.testing_gbmv_strided_batched, if_neg hf, gbmv.setup, List.length_cons,
        List.length_append, List.length_nil] at hlen
      omega
  · intro h
    rw [hp h]
    refine ⟨by simp [DAPI_EXPECT, Stmt.isCall], ?_, ?_⟩
    · intro e fn c hmem
      simp only [DAPI_EXPECT, List.mem_cons, List.mem_singleton, Stmt.call.injEq, false_or,
        List.mem_nil_iff, or_false, reduceCtorEq] at hmem
      obtain ⟨he, -, hc⟩ := hmem
      subst hc
      refine ⟨rfl, rfl, rfl, rfl, rfl, rfl, ?_, ?_⟩
      · intro hi
        rw [he, if_pos (hinv.mpr hi)]
      · intro hi
        rw [he, if_neg (fun hb => hi (hinv.mp hb))]
    · intro s hs
      simp only [DAPI_EXPECT, List.mem_cons, List.mem_singleton, List.mem_nil_iff,
        or_false] at hs
      rcases hs with rfl | rfl <;> simp [Stmt.isInit, Stmt.isRef, Stmt.isCheck]

/-! ## Execution lemmas -/

theorem run_append {B C R T : Type} [DecidableEq B] (sg : Sig B C R T) (env : Env B C R T)
    (s : State B T) (l₁ l₂ : List (Stmt B C R T)) :
    run sg env s (l₁ ++ l₂) =
      ((run sg env (run sg env s l₁).1 l₂).1,
        (run sg env s l₁).2 ++ (run sg env (run sg env s l₁).1 l₂).2) := by
  induction l₁ generalizing s with
  | nil => rfl
  | cons x xs ih =>
    rw [List.cons_append]
    simp only [run]
    rw [ih]
    rfl

theorem exec_append {B C R T : Type} [DecidableEq B] (sg : Sig B C R T) (env : Env B C R T)
    (s : State B T) (l₁ l₂ : List (Stmt B C R T)) :
    exec sg env s (l₁ ++ l₂) = exec sg env s l₁ ++ exec sg env (run sg env s l₁).1 l₂ := by
  simp only [exec, run_append]

theorem step_stmt {B C R T : Type} [DecidableEq B] (sg : Sig B C R T) (env : Env B C R T)
    (s : State B T) (st : Stmt B C R T) : (step sg env s st).2.stmt = st := by
  cases st <;> rfl

theorem exec_stmts {B C R T : Type} [DecidableEq B] (sg : Sig B C R T) (env : Env B C R T)
    (s : State B T) (p : List (Stmt B C R T)) :
    (exec sg env s p).map (fun e => e.stmt) = p := by
  induction p generalizing s with
  | nil => rfl
  | cons x xs ih =>
    have := ih (step sg env s x).1
    simp only [exec] at this
    simp only [exec, run, List.map_cons, step_stmt, this]

theorem mem_exec_stmt {B C R T : Type} [DecidableEq B] (sg : Sig B C R T) (env : Env B C R T)
    (s : State B T) (p : List (Stmt B C R T)) (e : Event B C R T) (he : e ∈ exec sg env s p) :
    e.stmt ∈ p := by
  have h := exec_stmts sg env s p
  rw [← h]
  exact List.mem_map_of_mem _ he

theorem filter_exec_nil {B C R T : Type} [DecidableEq B] (sg : Sig B C R T) (env : Env B C R T)
    (s : State B T) (p : List (Stmt B C R T)) (q : Stmt B C R T → Bool)
    (h : ∀ x ∈ p, q x = false) : (exec sg env s p).filter (fun e => q e.stmt) = [] := by
  rw [List.filter_eq_nil_iff]
  intro e he
  simp [h _ (mem_exec_stmt sg env s p e he)]

theorem filter_exec_all {B C R T : Type} [DecidableEq B] (sg : Sig B C R T) (env : Env B C R T)
    (s : State B T) (p : List (Stmt B C R T)) (q : Stmt B C R T → Bool)
    (h : ∀ x ∈ p, q x = true) :
    (exec sg env s p).filter (fun e => q e.stmt) = exec sg env s p := by
  rw [List.filter_eq_self]
  intro e he
  exact h _ (mem_exec_stmt sg env s p e he)

theorem write_all_apply {B T : Type} [DecidableEq B] (mem w : B → List T) (outs : List B)
    (b : B) : write_all mem w outs b = if b ∈ outs then w b else mem b := by
  unfold write_all
  induction outs generalizing mem with
  | nil => simp
  | cons x xs ih =>
    rw [List.foldl_cons, ih]
    by_cases hb : b ∈ xs
    · simp [hb]
    · by_cases hx : b = x
      · subst hx
        simp [hb]
      · simp [hb, hx, Function.update_noteq hx]

/-- Reference invocations see only the buffers in `S`: two runs whose memories agree on `S`
and whose reference routines coincide produce the same reference events. -/
theorem exec_refs_congr {B C R T : Type} [DecidableEq B] (sg : Sig B C R T)
    (env env1 : Env B C R T) (href : env1.reference = env.reference) (S : B → Prop)
    (l : List R)
    (hl : ∀ r ∈ l, (∀ p ∈ sg.ref_ptrs r, ∀ b ∈ p.buffers, S b) ∧ ∀ b ∈ sg.ref_outputs r, S b)
    (s s1 : State B T) (hm : ∀ b, S b → s1.mem b = s.mem b) :
    exec sg env1 s1 (l.map Stmt.ref) = exec sg env s (l.map Stmt.ref) := by
  induction l generalizing s s1 with
  | nil => rfl
  | cons r rs ih =>
    have hr := hl r (List.mem_cons_self _ _)
    have hd : (sg.ref_ptrs r).map (received s1.mem) = (sg.ref_ptrs r).map (received s.mem) := by
      apply List.map_congr_left
      intro p hp
      cases p with
      | nullptr => rfl
      | addr b o =>
        have := hm b (hr.1 _ hp b (by simp [Ptr.buffers]))
        simp only [received, this]
    have ht := ih (fun r' hr' => hl r' (List.mem_cons_of_mem _ hr'))
      (step sg env s (.ref r)).1 (step sg env1 s1 (.ref r)).1
      (by
        intro b hb
        simp only [step, write_all_apply, hd, href]
        by_cases hbo : b ∈ sg.ref_outputs r
        · simp [hbo]
        · simp [hbo, hm b hb])
    simp only [exec] at ht
    simp only [List.map_cons, exec, run, ht]
    simp only [step, hd, href]

theorem exec_map_ref_head {B C R T : Type} [DecidableEq B] (sg : Sig B C R T)
    (env : Env B C R T) (s : State B T) (f : Nat → R) (n : Nat) (hn : 0 < n) :
    (exec sg env s ((List.range n).map fun b => Stmt.ref (f b))).head? =
      some ⟨.ref (f 0), (sg.ref_ptrs (f 0)).map (received s.mem)⟩ := by
  obtain ⟨m, rfl⟩ : ∃ m, n = m + 1 := ⟨n - 1, by omega⟩
  rw [List.range_succ_eq_map]
  rfl

theorem head?_append_of_head? {α : Type} (l₁ l₂ : List α) (a : α) (h : l₁.head? = some a) :
    (l₁ ++ l₂).head? = some a := by
  cases l₁ with
  | nil => simp at h
  | cons x xs => simpa using h

theorem all_ref_map {B C R T A : Type} (f : A → R) (l : List A) :
    ∀ x ∈ (l.map fun b => (Stmt.ref (f b) : Stmt B C R T)), x.isRef = true := by
  intro x hx
  obtain ⟨b, -, rfl⟩ := List.mem_map.mp hx
  rfl

theorem no_ref_of_all {B C R T : Type} (l : List (Stmt B C R T))
    (h : l.all (fun s => !s.isRef) = true) : ∀ x ∈ l, x.isRef = false := by
  intro x hx
  have := List.all_eq_true.mp h x hx
  simpa using this

theorem timing_loop_all {B C R T : Type} (q : Stmt B C R T → Bool) (cold_iters iters : Int)
    (body : Stmt B C R T) (h1 : q .get_time = true) (h2 : q body = true) :
    (timing_loop cold_iters iters body).all q = true := by
  unfold timing_loop
  apply all_flatMap_true
  intro a
  by_cases h : (a : Int) = cold_iters <;> simp [h, h1, h2]

/-! ## Data flow of the correctness phases -/

theorem gbmv_program_split {T : Type} (cv : Conv) (arg : Arguments T)
    (hq : gbmv.quick_return arg = false) (h : (arg.unit_check || arg.norm_check) = true) :
    gbmv.testing_gbmv_strided_batched cv arg =
      (Stmt.create_handle :: (gbmv.setup cv arg ++ gbmv.device_phase cv arg)) ++
        (gbmv.ref_phase cv arg ++
          (gbmv.check_phase cv arg ++ if arg.timing then gbmv.timing_phase cv arg else [])) := by
  unfold gbmv.testing_gbmv_strided_batched
  simp only [hq, h, if_true, Bool.false_eq_true, if_false, List.cons_append, List.append_assoc]

theorem gbmv_tail_no_ref {T : Type} (cv : Conv) (arg : Arguments T) :
    ∀ x ∈ (gbmv.check_phase cv arg ++ if arg.timing then gbmv.timing_phase cv arg else []),
      x.isRef = false := by
  apply no_ref_of_all
  rw [List.all_append]
  have h1 : (gbmv.check_phase cv arg).all (fun s => !s.isRef) = true := by
    unfold gbmv.check_phase
    cases arg.unit_check <;> cases arg.norm_check <;> rfl
  have h2 : (gbmv.timing_phase cv arg).all (fun s => !s.isRef) = true := by
    unfold gbmv.timing_phase
    rw [List.all_append, List.all_append, timing_loop_all _ _ _ _ rfl rfl]
    rfl
  rw [h1]
  cases arg.timing
  · rfl
  · simpa using h2

theorem gbmv_refs_eq {T : Type} (env : Env gbmv.Buf gbmv.Call (gbmv.RefCall T) T)
    (s0 : State gbmv.Buf T) (cv : Conv) (arg : Arguments T)
    (hq : gbmv.quick_return arg = false) (h : (arg.unit_check || arg.norm_check) = true) :
    refs_of (exec (gbmv.sig T) env s0 (gbmv.testing_gbmv_strided_batched cv arg)) =
      exec (gbmv.sig T) env
        (run (gbmv.sig T) env s0
          (Stmt.create_handle :: (gbmv.setup cv arg ++ gbmv.device_phase cv arg))).1
        (gbmv.ref_phase cv arg) := by
  rw [gbmv_program_split cv arg hq h, exec_append, exec_append]
  unfold refs_of
  rw [List.filter_append, List.filter_append,
    filter_exec_nil _ _ _ _ Stmt.isRef (gbmv_tail_no_ref cv arg),
    filter_exec_all _ _ _ (gbmv.ref_phase cv arg) Stmt.isRef
      (by unfold gbmv.ref_phase; exact all_ref_map _ _), List.append_nil]
  have : (exec (gbmv.sig T) env s0
      (Stmt.create_handle :: (gbmv.setup cv arg ++ gbmv.device_phase cv arg))).filter
      (fun e => e.stmt.isRef) = [] := rfl
  rw [this, List.nil_append]

theorem gbmv_batch_pos {T : Type} (arg : Arguments T) (hq : gbmv.quick_return arg = false) :
    0 < arg.batch_count.toNat := by
  simp only [gbmv.quick_return, gbmv.invalid_size, Bool.or_eq_false_iff, decide_eq_false_iff_not,
    beq_eq_false_iff_ne] at hq
  omega

theorem gbmv_isolation {T : Type} (env : Env gbmv.Buf gbmv.Call (gbmv.RefCall T) T)
    (s0 : State gbmv.Buf T) (cv : Conv) (arg : Arguments T)
    (hq : gbmv.quick_return arg = false) (h : (arg.unit_check || arg.norm_check) = true) :
    gbmv.isolated env s0 cv arg := by
  unfold gbmv.isolated
  refine ⟨(env.gen s0.rng [arg.M, arg.N, arg.lda, gbmv.stride_A arg, arg.batch_count]).1,
    (env.gen (env.gen s0.rng [arg.M, arg.N, arg.lda, gbmv.stride_A arg, arg.batch_count]).2
      [gbmv.dim_x cv arg, gbmv.abs_incx arg, gbmv.stride_x cv arg, arg.batch_count]).1,
    (env.gen (env.gen (env.gen s0.rng
      [arg.M, arg.N, arg.lda, gbmv.stride_A arg, arg.batch_count]).2
      [gbmv.dim_x cv arg, gbmv.abs_incx arg, gbmv.stride_x cv arg, arg.batch_count]).2
      [gbmv.dim_y cv arg, gbmv.abs_incy arg, gbmv.stride_y cv arg, arg.batch_count]).1,
    ?_, ?_, ?_, ?_, ?_, ?_⟩
  · rw [gbmv_program_split cv arg hq h, exec_append]
    rfl
  · rw [gbmv_program_split cv arg hq h, exec_append]
    rfl
  · rw [gbmv_program_split cv arg hq h, exec_append]
    rfl
  · rw [gbmv_program_split cv arg hq h, exec_append]
    rfl
  · rw [gbmv_refs_eq env s0 cv arg hq h]
    unfold gbmv.ref_phase
    rw [exec_map_ref_head _ _ _ _ _ (gbmv_batch_pos arg hq)]
    simp only [gbmv.ref_call, Nat.cast_zero, zero_mul]
    rfl
  · intro env1 hsame
    obtain ⟨seed1, gen1, dev1, ref1⟩ := env1
    obtain ⟨hs, hg, hr⟩ := hsame
    simp only at hs hg hr
    subst hs hg hr
    rw [gbmv_refs_eq _ s0 cv arg hq h, gbmv_refs_eq _ s0 cv arg hq h]
    unfold gbmv.ref_phase
    have hmap : (List.range arg.batch_count.toNat).map
        (fun b => (Stmt.ref (gbmv.ref_call cv arg b) : Stmt gbmv.Buf gbmv.Call (gbmv.RefCall T) T))
        = ((List.range arg.batch_count.toNat).map (gbmv.ref_call cv arg)).map Stmt.ref := by
      rw [List.map_map]
      rfl
    rw [hmap]
    apply exec_refs_congr (gbmv.sig T) env
      { seed := env.seed, gen := env.gen, device := dev1, reference := env.reference } rfl
      (fun b => b = gbmv.Buf.hA ∨ b = gbmv.Buf.hx ∨ b = gbmv.Buf.hy_cpu)
    · intro r hr
      obtain ⟨b, -, rfl⟩ := List.mem_map.mp hr
      constructor
      · intro p hp b' hb'
        simp only [gbmv.sig, gbmv.ref_call, List.mem_cons, List.mem_singleton,
          List.mem_nil_iff, or_false] at hp
        rcases hp with rfl | rfl | rfl <;> simp [Ptr.buffers] at hb' <;> simp [hb']
      · intro b' hb'
        simp [gbmv.sig, gbmv.ref_call, Ptr.buffers] at hb'
        simp [hb']
    · intro b hb
      rcases hb with rfl | rfl | rfl <;> rfl

theorem rotmg_program_split {T : Type} (epsilon : ℚ) (arg : Arguments T)
    (hb : 1 ≤ arg.batch_count) (h : (arg.unit_check || arg.norm_check) = true) :
    rotmg.testing_rotmg_strided_batched epsilon arg =
      (rotmg.setup arg ++ rotmg.device_phase arg) ++
        (rotmg.ref_phase arg ++
          (rotmg.comparisons epsilon arg ++
            if arg.timing then rotmg.timing_phase arg else [])) := by
  have hnb : ¬ arg.batch_count ≤ 0 := by omega
  unfold rotmg.testing_rotmg_strided_batched
  rw [if_neg hnb]
  simp only [h, if_true, List.append_assoc]

theorem rotmg_tail_no_ref {T : Type} (epsilon : ℚ) (arg : Arguments T) :
    ∀ x ∈ (rotmg.comparisons epsilon arg ++ if arg.timing then rotmg.timing_phase arg else []),
      x.isRef = false := by
  apply no_ref_of_all
  rw [List.all_append]
  have h1 : (rotmg.comparisons epsilon arg).all (fun s => !s.isRef) = true := by
    unfold rotmg.comparisons
    cases arg.unit_check <;> cases arg.norm_check <;> rfl
  have h2 : (rotmg.timing_phase arg).all (fun s => !s.isRef) = true := by
    unfold rotmg.timing_phase
    rw [List.all_append, List.all_append, timing_loop_all _ _ _ _ rfl rfl]
    rfl
  rw [h1]
  cases arg.timing
  · rfl
  · simpa using h2

theorem rotmg_refs_eq {T : Type} (env : Env rotmg.Buf rotmg.Call rotmg.RefCall T)
    (s0 : State rotmg.Buf T) (epsilon : ℚ) (arg : Arguments T)
    (hb : 1 ≤ arg.batch_count) (h : (arg.unit_check || arg.norm_check) = true) :
    refs_of (exec (rotmg.sig T) env s0 (rotmg.testing_rotmg_strided_batched epsilon arg)) =
      exec (rotmg.sig T) env
        (run (rotmg.sig T) env s0 (rotmg.setup arg ++ rotmg.device_phase arg)).1
        (rotmg.ref_phase arg) := by
  rw [rotmg_program_split epsilon arg hb h, exec_append, exec_append _ _ _ (rotmg.ref_phase arg)]
  unfold refs_of
  rw [List.filter_append, List.filter_append,
    filter_exec_nil _ _ _ _ Stmt.isRef (rotmg_tail_no_ref epsilon arg),
    filter_exec_all _ _ _ (rotmg.ref_phase arg) Stmt.isRef
      (by unfold rotmg.ref_phase; exact all_ref_map _ _), List.append_nil]
  have : (exec (rotmg.sig T) env s0 (rotmg.setup arg ++ rotmg.device_phase arg)).filter
      (fun e => e.stmt.isRef) = [] := rfl
  rw [this, List.nil_append]

theorem rotmg_isolation {T : Type} (env : Env rotmg.Buf rotmg.Call rotmg.RefCall T)
    (s0 : State rotmg.Buf T) (epsilon : ℚ) (arg : Arguments T)
    (hb : 1 ≤ arg.batch_count) (h : (arg.unit_check || arg.norm_check) = true) :
    rotmg.isolated env s0 epsilon arg := by
  unfold rotmg.isolated
  have hpos : 0 < arg.batch_count.toNat := by omega
  refine ⟨(env.gen (env.gen s0.rng [5, 1, rotmg.stride_param arg, arg.batch_count]).2
      [1, 1, rotmg.stride_1 arg, arg.batch_count]).1,
    (env.gen (env.gen (env.gen s0.rng [5, 1, rotmg.stride_param arg, arg.batch_count]).2
      [1, 1, rotmg.stride_1 arg, arg.batch_count]).2
      [1, 1, rotmg.stride_1 arg, arg.batch_count]).1,
    (env.gen (env.gen (env.gen (env.gen s0.rng
      [5, 1, rotmg.stride_param arg, arg.batch_count]).2
      [1, 1, rotmg.stride_1 arg, arg.batch_count]).2
      [1, 1, rotmg.stride_1 arg, arg.batch_count]).2
      [1, 1, rotmg.stride_1 arg, arg.batch_count]).1,
    (env.gen (env.gen (env.gen (env.gen (env.gen s0.rng
      [5, 1, rotmg.stride_param arg, arg.batch_count]).2
      [1, 1, rotmg.stride_1 arg, arg.batch_count]).2
      [1, 1, rotmg.stride_1 arg, arg.batch_count]).2
      [1, 1, rotmg.stride_1 arg, arg.batch_count]).2
      [1, 1, rotmg.stride_1 arg, arg.batch_count]).1,
    (env.gen s0.rng [5, 1, rotmg.stride_param arg, arg.batch_count]).1,
    ?_, ?_, ?_, ?_, ?_, ?_, ?_, ?_⟩
  · rw [rotmg_program_split epsilon arg hb h, exec_append]
    rfl
  · rw [rotmg_program_split epsilon arg hb h, exec_append]
    rfl
  · rw [rotmg_program_split epsilon arg hb h, exec_append]
    rfl
  · rw [rotmg_program_split epsilon arg hb h, exec_append]
    rfl
  · rw [rotmg_program_split epsilon arg hb h, exec_append]
    rfl
  · rw [rotmg_program_split epsilon arg hb h, exec_append]
    rfl
  · rw [rotmg_refs_eq env s0 epsilon arg hb h]
    unfold rotmg.ref_phase
    rw [exec_map_ref_head _ _ _ _ _ hpos]
    simp only [rotmg.ref_call, rotmg.slot, Nat.cast_zero, zero_mul]
    rfl
  · intro env1 hsame
    obtain ⟨seed1, gen1, dev1, ref1⟩ := env1
    obtain ⟨hs, hg, hr⟩ := hsame
    simp only at hs hg hr
    subst hs hg hr
    rw [rotmg_refs_eq _ s0 epsilon arg hb h, rotmg_refs_eq _ s0 epsilon arg hb h]
    unfold rotmg.ref_phase
    have hmap : (List.range arg.batch_count.toNat).map
        (fun b => (Stmt.ref (rotmg.ref_call arg b) : Stmt rotmg.Buf rotmg.Call rotmg.RefCall T))
        = ((List.range arg.batch_count.toNat).map (rotmg.ref_call arg)).map Stmt.ref := by
      rw [List.map_map]
      rfl
    rw [hmap]
    apply exec_refs_congr (rotmg.sig T) env
      { seed := env.seed, gen := env.gen, device := dev1, reference := env.reference } rfl
      (fun b => b = rotmg.Buf.cd1 ∨ b = rotmg.Buf.cd2 ∨ b = rotmg.Buf.cx1 ∨ b = rotmg.Buf.cy1
        ∨ b = rotmg.Buf.cparams)
    · intro r hr
      obtain ⟨b, -, rfl⟩ := List.mem_map.mp hr
      constructor
      · intro p hp b' hb'
        simp only [rotmg.sig, rotmg.ref_call, rotmg.slot, List.mem_cons, List.mem_singleton,
          List.mem_nil_iff, or_false] at hp
        rcases hp with rfl | rfl | rfl | rfl | rfl <;> simp [Ptr.buffers] at hb' <;> simp [hb']
      · intro b' hb'
        simp [rotmg.sig, rotmg.ref_call, rotmg.slot, Ptr.buffers] at hb'
        rcases hb' with rfl | rfl | rfl | rfl | rfl <;> simp
    · intro b hb
      have k1 : ∀ e : Env rotmg.Buf rotmg.Call rotmg.RefCall T,
          (run (rotmg.sig T) e s0 (rotmg.setup arg ++ rotmg.device_phase arg)).1.mem .cd1 =
            (e.gen (e.gen s0.rng [5, 1, rotmg.stride_param arg, arg.batch_count]).2
              [1, 1, rotmg.stride_1 arg, arg.batch_count]).1 := fun _ => rfl
      have k2 : ∀ e : Env rotmg.Buf rotmg.Call rotmg.RefCall T,
          (run (rotmg.sig T) e s0 (rotmg.setup arg ++ rotmg.device_phase arg)).1.mem .cd2 =
            (e.gen (e.gen (e.gen s0.rng [5, 1, rotmg.stride_param arg, arg.batch_count]).2
              [1, 1, rotmg.stride_1 arg, arg.batch_count]).2
              [1, 1, rotmg.stride_1 arg, arg.batch_count]).1 := fun _ => rfl
      have k3 : ∀ e : Env rotmg.Buf rotmg.Call rotmg.RefCall T,
          (run (rotmg.sig T) e s0 (rotmg.setup arg ++ rotmg.device_phase arg)).1.mem .cx1 =
            (e.gen (e.gen (e.gen (e.gen s0.rng
              [5, 1, rotmg.stride_param arg, arg.batch_count]).2
              [1, 1, rotmg.stride_1 arg, arg.batch_count]).2
              [1, 1, rotmg.stride_1 arg, arg.batch_count]).2
              [1, 1, rotmg.stride_1 arg, arg.batch_count]).1 := fun _ => rfl
      have k4 : ∀ e : Env rotmg.Buf rotmg.Call rotmg.RefCall T,
          (run (rotmg.sig T) e s0 (rotmg.setup arg ++ rotmg.device_phase arg)).1.mem .cy1 =
            (e.gen (e.gen (e.gen (e.gen (e.gen s0.rng
              [5, 1, rotmg.stride_param arg, arg.batch_count]).2
              [1, 1, rotmg.stride_1 arg, arg.batch_count]).2
              [1, 1, rotmg.stride_1 arg, arg.batch_count]).2
              [1, 1, rotmg.stride_1 arg, arg.batch_count]).2
              [1, 1, rotmg.stride_1 arg, arg.batch_count]).1 := fun _ => rfl
      have k5 : ∀ e : Env rotmg.Buf rotmg.Call rotmg.RefCall T,
          (run (rotmg.sig T) e s0 (rotmg.setup arg ++ rotmg.device_phase arg)).1.mem .cparams =
            (e.gen s0.rng [5, 1, rotmg.stride_param arg, arg.batch_count]).1 := fun _ => rfl
      rcases hb with rfl | rfl | rfl | rfl | rfl
      · rw [k1, k1]
      · rw [k2, k2]
      · rw [k3, k3]
      · rw [k4, k4]
      · rw [k5, k5]

theorem hemm_program_split {T : Type} (cv : Conv) (arg : Arguments T)
    (hg : ¬ (arg.M < 0 ∨ arg.N < 0 ∨ arg.ldc < arg.M ∨ arg.ldb < arg.M ∨ arg.lda < hemm.K cv arg))
    (h : (arg.unit_check || arg.norm_check) = true) :
    hemm.testing_hemm cv arg =
      ([Stmt.store .h_alpha [arg.alpha], Stmt.store .h_beta [arg.beta]] ++ hemm.setup cv arg ++
        hemm.invocations cv arg) ++
        (hemm.comparisons arg ++ if arg.timing then hemm.timing_phase cv arg else []) := by
  unfold hemm.testing_hemm hemm.check_phase
  rw [if_neg hg]
  simp only [h, if_true, List.append_assoc]

theorem hemm_tail_no_call_ref {T : Type} (cv : Conv) (arg : Arguments T) :
    ∀ x ∈ (hemm.comparisons arg ++ if arg.timing then hemm.timing_phase cv arg else []),
      x.isRef = false := by
  apply no_ref_of_all
  rw [List.all_append]
  have h1 : (hemm.comparisons arg).all (fun s => !s.isRef) = true := by
    unfold hemm.comparisons
    cases arg.unit_check <;> cases arg.norm_check <;> rfl
  have h2 : (hemm.timing_phase cv arg).all (fun s => !s.isRef) = true := by
    unfold hemm.timing_phase
    rw [List.all_append, List.all_append, timing_loop_all _ _ _ _ rfl rfl]
    rfl
  rw [h1]
  cases arg.timing
  · rfl
  · simpa using h2

theorem hemm_isolation {T : Type} (env : Env hemm.Buf hemm.Call (hemm.RefCall T) T)
    (s0 : State hemm.Buf T) (cv : Conv) (arg : Arguments T)
    (hg : ¬ (arg.M < 0 ∨ arg.N < 0 ∨ arg.ldc < arg.M ∨ arg.ldb < arg.M ∨ arg.lda < hemm.K cv arg))
    (h : (arg.unit_check || arg.norm_check) = true) :
    hemm.isolated env s0 cv arg := by
  unfold hemm.isolated
  refine ⟨(env.gen s0.rng [hemm.rows cv arg, hemm.K cv arg, arg.lda, 0, 1]).1,
    (env.gen (env.gen s0.rng [hemm.rows cv arg, hemm.K cv arg, arg.lda, 0, 1]).2
      [arg.M, arg.N, arg.ldb, 0, 1]).1,
    (env.gen (env.gen (env.gen s0.rng [hemm.rows cv arg, hemm.K cv arg, arg.lda, 0, 1]).2
      [arg.M, arg.N, arg.ldb, 0, 1]).2 [arg.M, arg.N, arg.ldc, 0, 1]).1, ?_, ?_, ?_, ?_, ?_⟩
  · rw [hemm_program_split cv arg hg h, exec_append]
    rfl
  · rw [hemm_program_split cv arg hg h, exec_append]
    rfl
  · rw [hemm_program_split cv arg hg h, exec_append]
    rfl
  · rw [hemm_program_split cv arg hg h, exec_append]
    rfl
  · rw [hemm_program_split cv arg hg h, exec_append]
    unfold refs_of
    rw [List.filter_append, filter_exec_nil _ _ _ _ Stmt.isRef (hemm_tail_no_call_ref cv arg),
      List.append_nil]
    rfl


/-! ## Claims -/

/-- C2 (amended): with a check flag set and non-degenerate sizes, the rotmg, gbmv and hemm
routines invoke the operation exactly twice before the first comparison, once with the
scalars passed by host address and once by device address; `testing_dot` invokes it exactly
once, with the result scalar passed by device address and never by host address;
`testing_spr2_batched` invokes it exactly once, with alpha passed by host address and never
by device address. -/
theorem scalar_modes_before_compare {T : Type} (cv : Conv) (epsilon : ℚ) (arg : Arguments T) :
    (1 ≤ arg.batch_count → (arg.unit_check || arg.norm_check) = true →
      scalar_mode_counts (rotmg.sig T) (rotmg.testing_rotmg_strided_batched epsilon arg)
        = (1, 1, 2)) ∧
    (gbmv.quick_return arg = false → (arg.unit_check || arg.norm_check) = true →
      scalar_mode_counts (gbmv.sig T) (gbmv.testing_gbmv_strided_batched cv arg) = (1, 1, 2)) ∧
    (¬ (arg.M < 0 ∨ arg.N < 0 ∨ arg.ldc < arg.M ∨ arg.ldb < arg.M ∨ arg.lda < hemm.K cv arg) →
      (arg.unit_check || arg.norm_check) = true →
      scalar_mode_counts (hemm.sig T) (hemm.testing_hemm cv arg) = (1, 1, 2)) ∧
    (∀ status, ¬ arg.N < 0 → ¬ arg.incx < 0 → ¬ arg.incy < 0 →
      scalar_mode_counts (dot.sig T) (dot.testing_dot status arg).1 = (0, 1, 1)) ∧
    (∀ is_null status,
      ¬ (arg.N < 0 ∨ arg.incx = 0 ∨ arg.incy = 0 ∨ arg.batch_count < 0) →
      arg.batch_count ≠ 0 → spr2_batched.alloc_failed is_null arg = false →
      scalar_mode_counts (spr2_batched.sig T)
        (spr2_batched.testing_spr2_batched cv is_null status arg).1 = (1, 0, 1)) :=
  ⟨rotmg_counts epsilon arg, gbmv_counts cv arg, hemm_counts cv arg,
    fun status => dot_counts status arg,
    fun is_null status => spr2_batched_counts cv is_null status arg⟩

/-- C2, at the sample record: rotmg, gbmv and hemm give (1, 1, 2), dot gives (0, 1, 1). -/
theorem scalar_modes_before_compare_witness :
    scalar_mode_counts (rotmg.sig Int) (rotmg.testing_rotmg_strided_batched 1 sample_args)
      = (1, 1, 2) ∧
    scalar_mode_counts (gbmv.sig Int) (gbmv.testing_gbmv_strided_batched sample_conv sample_args)
      = (1, 1, 2) ∧
    scalar_mode_counts (hemm.sig Int) (hemm.testing_hemm sample_conv sample_args) = (1, 1, 2) ∧
    scalar_mode_counts (dot.sig Int) (dot.testing_dot HIPBLAS_STATUS_SUCCESS sample_args).1
      = (0, 1, 1) :=
  have h := scalar_modes_before_compare sample_conv 1 sample_args
  ⟨h.1 (by decide) (by decide), h.2.1 (by decide) (by decide),
    h.2.2.1 (by decide) (by decide),
    h.2.2.2.1 HIPBLAS_STATUS_SUCCESS (by decide) (by decide) (by decide)⟩

/-- C2 as stated fails for `testing_dot`: at the sample record (unit check set, N = 2,
successful call) the operation is invoked exactly once, with its result scalar passed by
device address, and never with a scalar passed by host address. -/
theorem dot_no_host_scalar_call :
    (sample_args.unit_check || sample_args.norm_check) = true ∧ 0 < sample_args.N ∧
    ((dot.testing_dot HIPBLAS_STATUS_SUCCESS sample_args).1.any Stmt.isCheck) = true ∧
    ¬ ((before_compare (dot.testing_dot HIPBLAS_STATUS_SUCCESS sample_args).1).countP
          (host_scalars (dot.sig Int)) = 1 ∧
       (before_compare (dot.testing_dot HIPBLAS_STATUS_SUCCESS sample_args).1).countP
          (device_scalars (dot.sig Int)) = 1) := by
  decide

/-- C3: in `testing_rotmg_strided_batched`, `testing_gbmv_strided_batched` and `testing_hemm`,
whatever the device invocations write to their output buffers, the host-pointer-mode
invocation, the device-pointer-mode invocation and the reference routine all receive the
initially generated data, and the reference invocations do not depend on the device output. -/
theorem first_output_never_an_input {T : Type} (cv : Conv) (epsilon : ℚ) (arg : Arguments T) :
    (∀ env s0, 1 ≤ arg.batch_count → (arg.unit_check || arg.norm_check) = true →
      rotmg.isolated env s0 epsilon arg) ∧
    (∀ env s0, gbmv.quick_return arg = false → (arg.unit_check || arg.norm_check) = true →
      gbmv.isolated env s0 cv arg) ∧
    (∀ env s0,
      ¬ (arg.M < 0 ∨ arg.N < 0 ∨ arg.ldc < arg.M ∨ arg.ldb < arg.M ∨ arg.lda < hemm.K cv arg) →
      (arg.unit_check || arg.norm_check) = true → hemm.isolated env s0 cv arg) :=
  ⟨fun env s0 => rotmg_isolation env s0 epsilon arg,
    fun env s0 => gbmv_isolation env s0 cv arg,
    fun env s0 => hemm_isolation env s0 cv arg⟩

/-- C3, at the sample record, environment and state. -/
theorem first_output_never_an_input_witness :
    rotmg.isolated (sample_env _ _ _) (sample_state _) 1 sample_args ∧
    gbmv.isolated (sample_env _ _ _) (sample_state _) sample_conv sample_args ∧
    hemm.isolated (sample_env _ _ _) (sample_state _) sample_conv sample_args :=
  have h := first_output_never_an_input sample_conv 1 sample_args
  ⟨h.1 _ _ (by decide) (by decide), h.2.1 _ _ (by decide) (by decide),
    h.2.2 _ _ (by decide) (by decide)⟩

theorem filter_nil_of_all {α : Type} (q : α → Bool) (l : List α)
    (h : l.all (fun s => !q s) = true) : l.filter q = [] := by
  rw [List.filter_eq_nil_iff]
  intro x hx
  have := List.all_eq_true.mp h x hx
  simpa using this

theorem filter_self_of_all {α : Type} (q : α → Bool) (l : List α)
    (h : l.all q = true) : l.filter q = l := by
  rw [List.filter_eq_self]
  exact List.all_eq_true.mp h

theorem double_to_int64_eq_floor (q : ℚ) (hq : 0 ≤ q) : double_to_int64 q = ⌊q⌋ := by
  unfold double_to_int64
  rw [Rat.floor_def, Int.tdiv_eq_ediv (Rat.num_nonneg.mpr hq) (by exact_mod_cast Nat.zero_le _)]

theorem double_to_int64_intCast (n : Int) : double_to_int64 (n : ℚ) = n := by
  simp [double_to_int64]

theorem floor_le_round_even (q : ℚ) : ⌊q⌋ ≤ round_even q := by
  unfold round_even
  split
  · exact le_refl _
  · split
    · omega
    · split <;> omega

theorem le_round_even (k : Int) (q : ℚ) (h : (k : ℚ) ≤ q) : k ≤ round_even q :=
  le_trans (Int.le_floor.mpr h) (floor_le_round_even q)

theorem round_even_intCast (k : Int) : round_even (k : ℚ) = k := by
  unfold round_even
  rw [Int.floor_intCast, sub_self, if_pos (by norm_num)]

/-- At the midpoint above an even integer the rounding goes down. -/
theorem round_even_tie (k : Int) (hk : k % 2 = 0) : round_even ((k : ℚ) + 1 / 2) = k := by
  have hf : ⌊(k : ℚ) + 1 / 2⌋ = k := by
    rw [Int.floor_eq_iff]
    constructor <;> linarith
  unfold round_even
  rw [hf, if_neg (by norm_num), if_neg (by norm_num), if_pos hk]

theorem binade_spec (q : ℚ) (hq : 0 < q) :
    (2 : ℚ) ^ binade q ≤ q ∧ q < (2 : ℚ) ^ (binade q + 1) := by
  unfold binade
  rw [abs_of_pos hq]
  exact ⟨by exact_mod_cast Int.zpow_log_le_self (b := 2) (by norm_num) hq,
    by exact_mod_cast Int.lt_zpow_succ_log_self (b := 2) (by norm_num) q⟩

theorem binade_eq (q : ℚ) (e : Int) (h1 : (2 : ℚ) ^ e ≤ q) (h2 : q < (2 : ℚ) ^ (e + 1)) :
    binade q = e := by
  have hq : 0 < q := lt_of_lt_of_le (by positivity) h1
  obtain ⟨b1, b2⟩ := binade_spec q hq
  have c1 : e < binade q + 1 :=
    (zpow_lt_zpow_iff_right₀ (by norm_num : (1 : ℚ) < 2)).mp (lt_of_le_of_lt h1 b2)
  have c2 : binade q < e + 1 :=
    (zpow_lt_zpow_iff_right₀ (by norm_num : (1 : ℚ) < 2)).mp (lt_of_le_of_lt b1 h2)
  omega

/-- The rounding of a positive rational whose binary exponent and significand are known. -/
theorem fl_eq (q : ℚ) (e k : Int) (h1 : (2 : ℚ) ^ e ≤ q) (h2 : q < (2 : ℚ) ^ (e + 1))
    (hk : round_even (q / 2 ^ (e - 52)) = k) : fl q = (k : ℚ) * 2 ^ (e - 52) := by
  have hq : q ≠ 0 := ne_of_gt (lt_of_lt_of_le (by positivity) h1)
  unfold fl
  rw [if_neg hq, binade_eq q e h1 h2, hk]

theorem cast_two_pow (n : Nat) : (((2 : Int) ^ n : Int) : ℚ) = (2 : ℚ) ^ (n : Int) := by
  rw [zpow_natCast]
  push_cast
  rfl

theorem two_zpow_split (e : Int) :
    (((2 : Int) ^ 52 : Int) : ℚ) * 2 ^ (e - 52) = (2 : ℚ) ^ e := by
  rw [cast_two_pow, ← zpow_add₀ (by norm_num : (2 : ℚ) ≠ 0)]
  congr 1
  omega

theorem cast_le_two_pow (x : Int) (n : Nat) (h : x ≤ 2 ^ n) : (x : ℚ) ≤ (2 : ℚ) ^ (n : Int) := by
  rw [← cast_two_pow]
  exact_mod_cast h

/-- A nonnegative integer not above `2 ^ 53` is a lower bound of the rounding of anything
above it. -/
theorem le_fl (x : Int) (p : ℚ) (hx0 : 0 ≤ x) (hx : x ≤ 2 ^ 53) (hp : (x : ℚ) ≤ p) :
    (x : ℚ) ≤ fl p := by
  have hx0' : (0 : ℚ) ≤ (x : ℚ) := by exact_mod_cast hx0
  by_cases hp0 : p = 0
  · rw [hp0, fl, if_pos rfl]
    rw [hp0] at hp
    exact hp
  · have hpos : 0 < p := lt_of_le_of_ne (le_trans hx0' hp) (Ne.symm hp0)
    obtain ⟨b1, b2⟩ := binade_spec p hpos
    rw [fl, if_neg hp0]
    have hu : (0 : ℚ) < 2 ^ (binade p - 52) := by positivity
    by_cases he : binade p ≤ 52
    · obtain ⟨n, hn⟩ : ∃ n : Nat, (52 - binade p) = n := ⟨(52 - binade p).toNat, by omega⟩
      have hu' : (2 : ℚ) ^ (binade p - 52) = ((2 : ℚ) ^ n)⁻¹ := by
        rw [show binade p - 52 = -(n : Int) by omega, zpow_neg, zpow_natCast]
      have hk : ((x * 2 ^ n : Int) : ℚ) ≤ p / 2 ^ (binade p - 52) := by
        rw [hu', div_inv_eq_mul]
        push_cast
        exact mul_le_mul_of_nonneg_right hp (by positivity)
      have := le_round_even _ _ hk
      calc (x : ℚ) = ((x * 2 ^ n : Int) : ℚ) * 2 ^ (binade p - 52) := by
            rw [hu']
            push_cast
            field_simp
        _ ≤ (round_even (p / 2 ^ (binade p - 52)) : ℚ) * 2 ^ (binade p - 52) :=
            mul_le_mul_of_nonneg_right (by exact_mod_cast this) hu.le
    · have he' : 53 ≤ binade p := by omega
      have hk : (((2 : Int) ^ 52 : Int) : ℚ) ≤ p / 2 ^ (binade p - 52) := by
        rw [le_div_iff₀ hu, two_zpow_split]
        exact b1
      have := le_round_even _ _ hk
      calc (x : ℚ) ≤ (2 : ℚ) ^ ((53 : Nat) : Int) := cast_le_two_pow x 53 hx
        _ ≤ (2 : ℚ) ^ (binade p) := zpow_le_zpow_right₀ (by norm_num) (by exact_mod_cast he')
        _ = (((2 : Int) ^ 52 : Int) : ℚ) * 2 ^ (binade p - 52) := (two_zpow_split _).symm
        _ ≤ (round_even (p / 2 ^ (binade p - 52)) : ℚ) * 2 ^ (binade p - 52) :=
            mul_le_mul_of_nonneg_right (by exact_mod_cast this) hu.le

/-- A multiple of the unit in the last place of its own binade is its own rounding. -/
theorem fl_of_grid (q : ℚ) (k : Int) (h : q = (k : ℚ) * 2 ^ (binade q - 52)) : fl q = q := by
  by_cases hq : q = 0
  · rw [hq, fl, if_pos rfl]
  · rw [fl, if_neg hq]
    have hu : (2 : ℚ) ^ (binade q - 52) ≠ 0 := by positivity
    have : q / 2 ^ (binade q - 52) = (k : ℚ) := by
      rw [div_eq_iff hu]
      exact h
    rw [this, round_even_intCast, ← h]

/-- The nonnegative integers up to `2 ^ 53` are doubles. -/
theorem fl_intCast (x : Int) (hx0 : 0 ≤ x) (hx : x ≤ 2 ^ 53) : fl (x : ℚ) = x := by
  by_cases h0 : x = 0
  · rw [h0, Int.cast_zero, fl, if_pos rfl]
  · have hpos : (0 : ℚ) < (x : ℚ) := by exact_mod_cast lt_of_le_of_ne hx0 (Ne.symm h0)
    obtain ⟨b1, b2⟩ := binade_spec (x : ℚ) hpos
    have hle : binade (x : ℚ) ≤ 53 := by
      have : (2 : ℚ) ^ binade (x : ℚ) ≤ (2 : ℚ) ^ ((53 : Nat) : Int) :=
        le_trans b1 (cast_le_two_pow x 53 hx)
      exact_mod_cast (zpow_le_zpow_iff_right₀ (by norm_num : (1 : ℚ) < 2)).mp this
    by_cases he : binade (x : ℚ) ≤ 52
    · obtain ⟨n, hn⟩ : ∃ n : Nat, (52 - binade (x : ℚ)) = n :=
        ⟨(52 - binade (x : ℚ)).toNat, by omega⟩
      apply fl_of_grid _ (x * 2 ^ n)
      rw [show binade (x : ℚ) - 52 = -(n : Int) by omega, zpow_neg, zpow_natCast]
      push_cast
      field_simp
    · have he53 : binade (x : ℚ) = 53 := by omega
      have hx53 : x = 2 ^ 53 := by
        rw [he53, show (53 : Int) = ((53 : Nat) : Int) from rfl, ← cast_two_pow] at b1
        have : (2 : Int) ^ 53 ≤ x := by exact_mod_cast b1
        omega
      apply fl_of_grid _ (2 ^ 52)
      rw [he53, hx53]
      norm_num

/-- With a scale of at least 1, the stride of a quantity not above `2 ^ 53` is at least the
quantity: neither rounding goes below it. -/
theorem le_scaled_stride (x : Int) (s : ℚ) (hx : 0 ≤ x) (hx53 : x ≤ 2 ^ 53) (hs : 1 ≤ s) :
    x ≤ scaled_stride x s := by
  have hx' : (0 : ℚ) ≤ (x : ℚ) := by exact_mod_cast hx
  have h1 : (x : ℚ) ≤ fl (x : ℚ) * s := by
    rw [fl_intCast x hx hx53]
    nlinarith
  have h2 : (x : ℚ) ≤ fl (fl (x : ℚ) * s) := le_fl x _ hx hx53 h1
  unfold scaled_stride
  rw [double_to_int64_eq_floor _ (le_trans hx' h2), Int.le_floor]
  exact h2

theorem scaled_stride_one (x : Int) (hx : 0 ≤ x) (hx53 : x ≤ 2 ^ 53) :
    scaled_stride x 1 = x := by
  unfold scaled_stride
  rw [fl_intCast x hx hx53, mul_one, fl_intCast x hx hx53, double_to_int64_intCast]

/-- The stride of `2 ^ 53 + 1` at scale 1: the conversion to `double` is a tie, resolved to
the even significand `2 ^ 52`. -/
theorem scaled_stride_tie : scaled_stride (2 ^ 53 + 1) 1 = 2 ^ 53 := by
  have h : fl (((2 ^ 53 + 1 : Int) : ℚ)) = ((2 ^ 53 : Int) : ℚ) := by
    rw [fl_eq _ 53 (2 ^ 52) (by norm_num) (by norm_num)
      (by
        rw [show (((2 ^ 53 + 1 : Int) : ℚ)) / 2 ^ ((53 : Int) - 52)
          = (((2 ^ 52 : Int) : ℚ)) + 1 / 2 by norm_num]
        exact round_even_tie _ (by decide))]
    norm_num
  unfold scaled_stride
  rw [h, mul_one, fl_intCast _ (by decide) (by decide), double_to_int64_intCast]

theorem size_t_of_range (x : Int) (h0 : 0 ≤ x) (h1 : x < 2 ^ 64) : size_t x = x := by
  unfold size_t
  exact Int.emod_eq_of_lt h0 h1

theorem span_le_stride (d i s : Int) (hi : 1 ≤ i) (hs : d * i ≤ s) :
    1 + (d - 1) * i ≤ s := by
  nlinarith

theorem batch_within (b n s e : Int) (hb : b < n) (he : e ≤ s) (hs : 0 ≤ s) :
    b * s + e ≤ s * n := by
  nlinarith

theorem batch_before (b c s e : Int) (hbc : b + 1 ≤ c) (he : e ≤ s) (hs : 0 ≤ s) :
    b * s + e ≤ c * s := by
  nlinarith

theorem gbmv_refs_filter {T : Type} (cv : Conv) (arg : Arguments T)
    (hq : gbmv.quick_return arg = false) (h : (arg.unit_check || arg.norm_check) = true) :
    (gbmv.testing_gbmv_strided_batched cv arg).filter Stmt.isRef = gbmv.ref_phase cv arg := by
  have h1 : (Stmt.create_handle :: (gbmv.setup cv arg ++ gbmv.device_phase cv arg)).filter
      Stmt.isRef = [] := rfl
  have h2 : (gbmv.ref_phase cv arg).filter Stmt.isRef = gbmv.ref_phase cv arg := by
    apply filter_self_of_all
    unfold gbmv.ref_phase
    exact all_map_true _ _ _ (fun _ => rfl)
  have h3 : (gbmv.check_phase cv arg ++
      if arg.timing then gbmv.timing_phase cv arg else []).filter Stmt.isRef = [] := by
    rw [List.filter_eq_nil_iff]
    intro x hx
    simp [gbmv_tail_no_ref cv arg x hx]
  rw [gbmv_program_split cv arg hq h, List.filter_append, List.filter_append, h1, h2, h3,
    List.nil_append, List.append_nil]

theorem gbmv_positive_sizes {T : Type} (arg : Arguments T)
    (hq : gbmv.quick_return arg = false) :
    1 ≤ arg.M ∧ 1 ≤ arg.N ∧ 1 ≤ arg.lda ∧ arg.incx ≠ 0 ∧ arg.incy ≠ 0 ∧ 1 ≤ arg.batch_count := by
  simp only [gbmv.quick_return, gbmv.invalid_size, Bool.or_eq_false_iff, decide_eq_false_iff_not,
    beq_eq_false_iff_ne] at hq
  omega

theorem size_t_nonneg (x : Int) : 0 ≤ size_t x :=
  Int.emod_nonneg _ (by norm_num)

theorem gbmv_abs_inc_pos (i : Int) (h0 : i ≠ 0) (h1 : -(2 ^ 63) ≤ i) (h2 : i < 2 ^ 63) :
    1 ≤ size_t (if i ≥ 0 then i else -i) := by
  split
  · rw [size_t_of_range _ (by omega) (by omega)]
    omega
  · rw [size_t_of_range _ (by omega) (by omega)]
    omega

/-- C5 (amended): for every argument record that passes the size check, with
`stride_scale >= 1`, with `unit_check` or `norm_check` set, and within range (the products
`lda * N`, `dim_x * |incx|`, `dim_y * |incy|` at most `2 ^ 53`, the buffer sizes
`stride * batch_count` below `2 ^ 63`), the reference routine is invoked once per
`b < batch_count` at offsets `b * stride_A`, `b * stride_x`, `b * stride_y`; the strides, as
computed in `double` arithmetic, are at least `lda * N`, `dim_x * |incx|`, `dim_y * |incy|`;
every sub-problem lies inside its buffer, and the regions of distinct batch elements are
disjoint. -/
theorem gbmv_batches_in_bounds {T : Type} (cv : Conv) (arg : Arguments T)
    (hq : gbmv.quick_return arg = false) (hs : 1 ≤ arg.stride_scale)
    (hc : (arg.unit_check || arg.norm_check) = true) (hr : gbmv.in_range cv arg) :
    gbmv.batches_within cv arg := by
  obtain ⟨_, hN, hlda, hix, hiy, hbc⟩ := gbmv_positive_sizes arg hq
  obtain ⟨rix0, rix1, riy0, riy1, rA, rx, ry, rsA, rsx, rsy⟩ := hr
  have hldaN : 0 ≤ arg.lda * arg.N := by positivity
  have bN : arg.N ≤ 2 ^ 53 := by nlinarith
  have blda : arg.lda ≤ 2 ^ 53 := by nlinarith
  have eN : size_t arg.N = arg.N := size_t_of_range _ (by omega) (by omega)
  have elda : size_t arg.lda = arg.lda := size_t_of_range _ (by omega) (by omega)
  have edx : 0 ≤ gbmv.dim_x cv arg := by
    unfold gbmv.dim_x
    split <;> exact size_t_nonneg _
  have edy : 0 ≤ gbmv.dim_y cv arg := by
    unfold gbmv.dim_y
    split <;> exact size_t_nonneg _
  have eix : 1 ≤ gbmv.abs_incx arg := gbmv_abs_inc_pos _ hix rix0 rix1
  have eiy : 1 ≤ gbmv.abs_incy arg := gbmv_abs_inc_pos _ hiy riy0 riy1
  have hdx : 0 ≤ gbmv.dim_x cv arg * gbmv.abs_incx arg := mul_nonneg edx (by omega)
  have hdy : 0 ≤ gbmv.dim_y cv arg * gbmv.abs_incy arg := mul_nonneg edy (by omega)
  have sA : arg.lda * arg.N ≤ gbmv.stride_A arg := by
    unfold gbmv.stride_A
    rw [elda, eN, size_t_of_range _ hldaN (lt_of_le_of_lt rA (by norm_num))]
    exact le_scaled_stride _ _ hldaN rA hs
  have sx : gbmv.dim_x cv arg * gbmv.abs_incx arg ≤ gbmv.stride_x cv arg := by
    rw [gbmv.stride_x, size_t_of_range _ hdx (lt_of_le_of_lt rx (by norm_num))]
    exact le_scaled_stride _ _ hdx rx hs
  have sy : gbmv.dim_y cv arg * gbmv.abs_incy arg ≤ gbmv.stride_y cv arg := by
    rw [gbmv.stride_y, size_t_of_range _ hdy (lt_of_le_of_lt ry (by norm_num))]
    exact le_scaled_stride _ _ hdy ry hs
  have nA : 0 ≤ gbmv.stride_A arg := le_trans hldaN sA
  have nx : 0 ≤ gbmv.stride_x cv arg := le_trans hdx sx
  have ny : 0 ≤ gbmv.stride_y cv arg := le_trans hdy sy
  have hbc0 : 0 ≤ arg.batch_count := by omega
  have eA : gbmv.A_size arg = gbmv.stride_A arg * arg.batch_count := by
    rw [gbmv.A_size]
    exact size_t_of_range _ (mul_nonneg nA hbc0) (lt_trans rsA (by norm_num))
  have eX : gbmv.X_size cv arg = gbmv.stride_x cv arg * arg.batch_count := by
    rw [gbmv.X_size]
    exact size_t_of_range _ (mul_nonneg nx hbc0) (lt_trans rsx (by norm_num))
  have eY : gbmv.Y_size cv arg = gbmv.stride_y cv arg * arg.batch_count := by
    rw [gbmv.Y_size]
    exact size_t_of_range _ (mul_nonneg ny hbc0) (lt_trans rsy (by norm_num))
  have ex : 1 + (gbmv.dim_x cv arg - 1) * gbmv.abs_incx arg ≤ gbmv.stride_x cv arg :=
    span_le_stride _ _ _ eix sx
  have ey : 1 + (gbmv.dim_y cv arg - 1) * gbmv.abs_incy arg ≤ gbmv.stride_y cv arg :=
    span_le_stride _ _ _ eiy sy
  unfold gbmv.batches_within
  refine ⟨?_, sA, sx, sy, ?_, ?_⟩
  · rw [gbmv_refs_filter cv arg hq hc]
    rfl
  · intro b hb
    rw [eA, eX, eY]
    exact ⟨batch_within _ _ _ _ hb sA nA,
      by rw [add_assoc]; exact batch_within _ _ _ _ hb ex nx,
      by rw [add_assoc]; exact batch_within _ _ _ _ hb ey ny⟩
  · intro b c hbc'
    have hbc1 : (b : Int) + 1 ≤ c := by exact_mod_cast hbc'
    exact ⟨batch_before _ _ _ _ hbc1 sA nA,
      by rw [add_assoc]; exact batch_before _ _ _ _ hbc1 ex nx,
      by rw [add_assoc]; exact batch_before _ _ _ _ hbc1 ey ny⟩

/-- C5, at the sample record (3 by 2, two batches, stride scale 1, unit check set): the
strides are 6, 2 and 3. -/
theorem gbmv_batches_in_bounds_witness : gbmv.batches_within sample_conv sample_args :=
  gbmv_batches_in_bounds sample_conv sample_args (by decide) (by decide) (by decide)
    (by
      unfold gbmv.in_range gbmv.stride_A gbmv.stride_x gbmv.stride_y
      rw [show sample_args.stride_scale = 1 from rfl,
        show size_t (size_t sample_args.lda * size_t sample_args.N) = 6 by decide,
        show size_t (gbmv.dim_x sample_conv sample_args * gbmv.abs_incx sample_args) = 2
          by decide,
        show size_t (gbmv.dim_y sample_conv sample_args * gbmv.abs_incy sample_args) = 3
          by decide,
        scaled_stride_one 6 (by decide) (by decide),
        scaled_stride_one 2 (by decide) (by decide),
        scaled_stride_one 3 (by decide) (by decide)]
      decide)

/-- C5 as stated fails when neither check flag is set: the sample record with both flags
cleared passes the size check with `stride_scale = 1` and `batch_count = 2`, yet the
reference routine is not invoked at all.  The two range conditions of the amended claim are
needed as well.  With `lda = 2 ^ 53 + 1`, `N = 1` and stride scale 1 the conversion of
`size_t(lda) * N` to `double` rounds to `2 ^ 53`, so `stride_A` is below `lda * N`.  With
`2 ^ 62` batches of stride 6 the last sub-problem ends `6 * 2 ^ 62` elements into the buffer,
which is beyond every value of the `size_t` variable `A_size`. -/
theorem gbmv_bounds_need_flag_and_range :
    (gbmv.quick_return sample_args_unchecked = false ∧
      1 ≤ sample_args_unchecked.stride_scale ∧
      sample_args_unchecked.batch_count = 2 ∧
      ((gbmv.testing_gbmv_strided_batched sample_conv sample_args_unchecked).filter
        Stmt.isRef).length = 0) ∧
    (gbmv.quick_return sample_args_54_bits = false ∧
      1 ≤ sample_args_54_bits.stride_scale ∧
      (sample_args_54_bits.unit_check || sample_args_54_bits.norm_check) = true ∧
      gbmv.stride_A sample_args_54_bits = 2 ^ 53 ∧
      gbmv.stride_A sample_args_54_bits < sample_args_54_bits.lda * sample_args_54_bits.N) ∧
    (gbmv.quick_return sample_args_many_batches = false ∧
      1 ≤ sample_args_many_batches.stride_scale ∧
      (sample_args_many_batches.unit_check || sample_args_many_batches.norm_check) = true ∧
      gbmv.stride_A sample_args_many_batches = 6 ∧
      gbmv.A_size sample_args_many_batches < 2 ^ 64 ∧
      2 ^ 64 ≤ (sample_args_many_batches.batch_count - 1) *
          gbmv.stride_A sample_args_many_batches +
        sample_args_many_batches.lda * sample_args_many_batches.N) := by
  have h54 : gbmv.stride_A sample_args_54_bits = 2 ^ 53 := by
    unfold gbmv.stride_A
    rw [show sample_args_54_bits.stride_scale = 1 from rfl,
      show size_t (size_t sample_args_54_bits.lda * size_t sample_args_54_bits.N) = 2 ^ 53 + 1
        by decide]
    exact scaled_stride_tie
  have hmany : gbmv.stride_A sample_args_many_batches = 6 := by
    unfold gbmv.stride_A
    rw [show sample_args_many_batches.stride_scale = 1 from rfl,
      show size_t (size_t sample_args_many_batches.lda * size_t sample_args_many_batches.N) = 6
        by decide]
    exact scaled_stride_one 6 (by decide) (by decide)
  refine ⟨by decide, ⟨by decide, by decide, by decide, h54, ?_⟩,
    ⟨by decide, by decide, by decide, hmany, ?_, ?_⟩⟩
  · rw [h54]
    decide
  · unfold gbmv.A_size size_t
    exact Int.emod_lt_of_pos _ (by norm_num)
  · rw [hmany]
    decide

/-- C6 (amended): in `testing_hemm`, `testing_trtri` and `testing_getrf_strided_batched`, for
every argument record in which a dimension is negative, or (getrf, the one routine with a
batch count) `batch_count <= 0`, the routine returns without invoking the operation under
test, the reference routine or any comparison; trtri and getrf then execute nothing at all,
hemm only the two scalar initialisations that precede its guard. -/
theorem negative_sizes_return_early {T : Type} [Zero T] (cv : Conv) (eps : ℚ)
    (arg : Arguments T) :
    ((arg.M < 0 ∨ arg.N < 0) →
      hemm.testing_hemm cv arg
        = [Stmt.store .h_alpha [arg.alpha], Stmt.store .h_beta [arg.beta]] ∧
      quiet (hemm.testing_hemm cv arg) = true) ∧
    (arg.N < 0 →
      trtri.testing_trtri cv eps arg = [] ∧ quiet (trtri.testing_trtri cv eps arg) = true) ∧
    ((arg.N < 0 ∨ arg.batch_count ≤ 0) →
      getrf.testing_getrf_strided_batched eps arg = [] ∧
      quiet (getrf.testing_getrf_strided_batched eps arg) = true) := by
  refine ⟨?_, ?_, ?_⟩
  · intro h
    have hp : hemm.testing_hemm cv arg
        = [Stmt.store .h_alpha [arg.alpha], Stmt.store .h_beta [arg.beta]] := by
      unfold hemm.testing_hemm
      rw [if_pos (by rcases h with h | h; exact Or.inl h; exact Or.inr (Or.inl h))]
      rfl
    rw [hp]
    exact ⟨rfl, rfl⟩
  · intro h
    have hp : trtri.testing_trtri cv eps arg = [] := by
      unfold trtri.testing_trtri
      simp only [if_pos (Or.inl h : arg.N < 0 ∨ arg.lda < 0 ∨ arg.lda < arg.N)]
    rw [hp]
    exact ⟨rfl, rfl⟩
  · intro h
    have hp : getrf.testing_getrf_strided_batched eps arg = [] := by
      unfold getrf.testing_getrf_strided_batched
      by_cases h1 : arg.N < 0 ∨ arg.N < 0 ∨ arg.lda < arg.N ∨ arg.batch_count < 0
      · simp only [if_pos h1]
      · have h0 : arg.batch_count = 0 := by
          have hN : ¬ arg.N < 0 := fun hn => h1 (Or.inl hn)
          have hb : ¬ arg.batch_count < 0 := fun hb => h1 (Or.inr (Or.inr (Or.inr hb)))
          rcases h with h | h
          · exact absurd h hN
          · omega
        simp only [if_neg h1, if_pos h0]
    rw [hp]
    exact ⟨rfl, rfl⟩

/-- C6, at records with `N = -1` and with `batch_count = 0`. -/
theorem negative_sizes_return_early_witness :
    quiet (hemm.testing_hemm sample_conv { sample_args with N := -1 }) = true ∧
    trtri.testing_trtri sample_conv 1 { sample_args with N := -1 } = [] ∧
    getrf.testing_getrf_strided_batched 1 { sample_args with batch_count := 0 } = [] :=
  ⟨((negative_sizes_return_early sample_conv 1 { sample_args with N := -1 }).1
      (Or.inr (by decide))).2,
    ((negative_sizes_return_early sample_conv 1 { sample_args with N := -1 }).2.1
      (by decide)).1,
    ((negative_sizes_return_early sample_conv 1 { sample_args with batch_count := 0 }).2.2
      (Or.inr (by decide))).1⟩

/-- C6 as stated fails for a zero dimension: with `N = 0` (unit check set) all three routines
pass their guards, and each of them invokes the operation under test, the reference routine
and a comparison. -/
theorem zero_dimension_is_not_a_quick_return :
    sample_args_zero_N.N ≤ 0 ∧
    (hemm.testing_hemm sample_conv sample_args_zero_N).any Stmt.isCall = true ∧
    (hemm.testing_hemm sample_conv sample_args_zero_N).any Stmt.isRef = true ∧
    (hemm.testing_hemm sample_conv sample_args_zero_N).any Stmt.isCheck = true ∧
    (trtri.testing_trtri sample_conv 1 sample_args_zero_N).any Stmt.isCall = true ∧
    (trtri.testing_trtri sample_conv 1 sample_args_zero_N).any Stmt.isRef = true ∧
    (trtri.testing_trtri sample_conv 1 sample_args_zero_N).any Stmt.isCheck = true ∧
    (getrf.testing_getrf_strided_batched 1 sample_args_zero_N).any Stmt.isCall = true ∧
    (getrf.testing_getrf_strided_batched 1 sample_args_zero_N).any Stmt.isCheck = true := by
  decide

/-- C7: `testing_rotmg_strided_batched` executes nothing at all (no handle creation, no
allocation, no invocation of the operation or of the reference, no logging) exactly when
`batch_count <= 0`; for `batch_count >= 1` its first statement is the handle creation. -/
theorem rotmg_quick_return {T : Type} (epsilon : ℚ) (arg : Arguments T) :
    (arg.batch_count ≤ 0 ↔ rotmg.testing_rotmg_strided_batched epsilon arg = []) ∧
    (1 ≤ arg.batch_count →
      (rotmg.testing_rotmg_strided_batched epsilon arg).head? = some Stmt.create_handle) := by
  have hpos : 1 ≤ arg.batch_count →
      (rotmg.testing_rotmg_strided_batched epsilon arg).head? = some Stmt.create_handle := by
    intro h
    unfold rotmg.testing_rotmg_strided_batched
    rw [if_neg (by omega)]
    rfl
  refine ⟨⟨?_, ?_⟩, hpos⟩
  · intro h
    unfold rotmg.testing_rotmg_strided_batched
    rw [if_pos h]
  · intro h
    by_contra hn
    have := hpos (by omega)
    rw [h] at this
    simp at this

/-- C7, at `batch_count = 0` and at the sample record (`batch_count = 2`). -/
theorem rotmg_quick_return_witness :
    rotmg.testing_rotmg_strided_batched 1 { sample_args with batch_count := 0 } = [] ∧
    (rotmg.testing_rotmg_strided_batched 1 sample_args).head? = some Stmt.create_handle :=
  ⟨(rotmg_quick_return 1 { sample_args with batch_count := 0 }).1.mp (by decide),
    (rotmg_quick_return 1 sample_args).2 (by decide)⟩

/-! ## Bad-argument tables -/

theorem gbmv_bad_arg_split {T : Type} [NatCast T] (arg : Arguments T) :
    gbmv.testing_gbmv_strided_batched_bad_arg arg =
      gbmv.bad_arg_body arg .HIPBLAS_POINTER_MODE_HOST ++
        gbmv.bad_arg_body arg .HIPBLAS_POINTER_MODE_DEVICE := by
  simp [gbmv.testing_gbmv_strided_batched_bad_arg]

/-- C8: in each bad-argument routine the first expectation is NOT_INITIALIZED for a call with
a null handle and otherwise valid, non-null arguments; in the gbmv routine this holds for the
host and for the device pointer mode (where the scalar pointers are the device copies). -/
theorem null_handle_checked_first {T : Type} [NatCast T] (arg : Arguments T) :
    (expectations (rotmg.testing_rotmg_strided_batched_bad_arg arg)).head? =
      some (HIPBLAS_STATUS_NOT_INITIALIZED,
        { handle := .nullptr, d1 := .to .d1, stride_d1 := 5, d2 := .to .d2, stride_d2 := 5,
          x1 := .to .x1, stride_x1 := 5, y1 := .to .y1, stride_y1 := 5, param := .to .param,
          stride_param := 10, batch_count := 2 }) ∧
    gbmv.testing_gbmv_strided_batched_bad_arg arg =
      gbmv.bad_arg_body arg .HIPBLAS_POINTER_MODE_HOST ++
        gbmv.bad_arg_body arg .HIPBLAS_POINTER_MODE_DEVICE ∧
    (expectations (gbmv.bad_arg_body arg .HIPBLAS_POINTER_MODE_HOST)).head? =
      some (HIPBLAS_STATUS_NOT_INITIALIZED,
        { handle := .nullptr, transA := .HIPBLAS_OP_N, M := 100, N := 100, KL := 5, KU := 5,
          alpha := .to .h_alpha, A := .to .dA, lda := 100, strideA := 10000, x := .to .dx,
          incx := 1, stridex := 100, beta := .to .h_beta, y := .to .dy, incy := 1,
          stridey := 100, batch_count := 2 }) ∧
    (expectations (gbmv.bad_arg_body arg .HIPBLAS_POINTER_MODE_DEVICE)).head? =
      some (HIPBLAS_STATUS_NOT_INITIALIZED,
        { handle := .nullptr, transA := .HIPBLAS_OP_N, M := 100, N := 100, KL := 5, KU := 5,
          alpha := .to .d_alpha, A := .to .dA, lda := 100, strideA := 10000, x := .to .dx,
          incx := 1, stridex := 100, beta := .to .d_beta, y := .to .dy, incy := 1,
          stridey := 100, batch_count := 2 }) ∧
    gbmv.invalid_size 100 100 5 5 100 1 1 2 = false ∧
    (expectations (trtri.testing_trtri_bad_arg arg)).head? =
      some (HIPBLAS_STATUS_NOT_INITIALIZED,
        { handle := .nullptr, uplo := .HIPBLAS_FILL_MODE_LOWER, diag := .HIPBLAS_DIAG_NON_UNIT,
          N := 100, A := .to .dA, lda := 102, invA := .to .dinvA, ldinvA := 102 }) ∧
    (expectations (getrf.testing_getrf_strided_batched_bad_arg arg)).head? =
      some (HIPBLAS_STATUS_NOT_INITIALIZED,
        { handle := .nullptr, N := 101, A := .to .dA, lda := 102, strideA := 10302,
          ipiv := .to .dIpiv, strideP := 101, info := .to .dInfo, batch_count := 2 }) := by
  refine ⟨rfl, gbmv_bad_arg_split arg, rfl, rfl, by decide, rfl, rfl⟩

theorem gbmv_expectations_host {T : Type} [NatCast T] (arg : Arguments T) :
    (expectations (gbmv.bad_arg_body arg .HIPBLAS_POINTER_MODE_HOST)).map
        (fun ec => (ec.1, ec.2.handle, ec.2.transA)) =
      [ (HIPBLAS_STATUS_NOT_INITIALIZED, .nullptr, .HIPBLAS_OP_N),
        (HIPBLAS_STATUS_INVALID_ENUM, .handle, .HIPBLAS_FILL_MODE_FULL),
        (HIPBLAS_STATUS_INVALID_VALUE, .handle, .HIPBLAS_OP_N),
        (HIPBLAS_STATUS_INVALID_VALUE, .handle, .HIPBLAS_OP_N),
        (HIPBLAS_STATUS_INVALID_VALUE, .handle, .HIPBLAS_OP_N),
        (HIPBLAS_STATUS_INVALID_VALUE, .handle, .HIPBLAS_OP_N),
        (HIPBLAS_STATUS_INVALID_VALUE, .handle, .HIPBLAS_OP_N),
        (if arg.api.is_64 then HIPBLAS_STATUS_SUCCESS else HIPBLAS_STATUS_INVALID_VALUE,
          .handle, .HIPBLAS_OP_N),
        (HIPBLAS_STATUS_SUCCESS, .handle, .HIPBLAS_OP_N),
        (HIPBLAS_STATUS_SUCCESS, .handle, .HIPBLAS_OP_N),
        (HIPBLAS_STATUS_SUCCESS, .handle, .HIPBLAS_OP_N),
        (HIPBLAS_STATUS_SUCCESS, .handle, .HIPBLAS_OP_N),
        (HIPBLAS_STATUS_SUCCESS, .handle, .HIPBLAS_OP_N) ] := rfl

theorem gbmv_expectations_device {T : Type} [NatCast T] (arg : Arguments T) :
    (expectations (gbmv.bad_arg_body arg .HIPBLAS_POINTER_MODE_DEVICE)).map
        (fun ec => (ec.1, ec.2.handle, ec.2.transA)) =
      [ (HIPBLAS_STATUS_NOT_INITIALIZED, .nullptr, .HIPBLAS_OP_N),
        (HIPBLAS_STATUS_INVALID_ENUM, .handle, .HIPBLAS_FILL_MODE_FULL),
        (HIPBLAS_STATUS_INVALID_VALUE, .handle, .HIPBLAS_OP_N),
        (HIPBLAS_STATUS_INVALID_VALUE, .handle, .HIPBLAS_OP_N),
        (HIPBLAS_STATUS_SUCCESS, .handle, .HIPBLAS_OP_N),
        (HIPBLAS_STATUS_SUCCESS, .handle, .HIPBLAS_OP_N),
        (HIPBLAS_STATUS_SUCCESS, .handle, .HIPBLAS_OP_N),
        (HIPBLAS_STATUS_SUCCESS, .handle, .HIPBLAS_OP_N),
        (HIPBLAS_STATUS_SUCCESS, .handle, .HIPBLAS_OP_N) ] := rfl

theorem trtri_expectations_modes {T : Type} (arg : Arguments T) :
    (expectations (trtri.testing_trtri_bad_arg arg)).map
        (fun ec => (ec.1, ec.2.handle, ec.2.uplo, ec.2.diag)) =
      [ (HIPBLAS_STATUS_NOT_INITIALIZED, .nullptr, .HIPBLAS_FILL_MODE_LOWER,
          .HIPBLAS_DIAG_NON_UNIT),
        (HIPBLAS_STATUS_INVALID_VALUE, .handle, .HIPBLAS_FILL_MODE_FULL, .HIPBLAS_DIAG_NON_UNIT),
        (HIPBLAS_STATUS_INVALID_ENUM, .handle, .HIPBLAS_OP_N, .HIPBLAS_DIAG_NON_UNIT),
        (HIPBLAS_STATUS_INVALID_ENUM, .handle, .HIPBLAS_FILL_MODE_LOWER, .HIPBLAS_OP_N) ] ++
      (if arg.bad_arg_all then
        [ (HIPBLAS_STATUS_INVALID_VALUE, .handle, .HIPBLAS_FILL_MODE_LOWER,
            .HIPBLAS_DIAG_NON_UNIT),
          (HIPBLAS_STATUS_INVALID_VALUE, .handle, .HIPBLAS_FILL_MODE_LOWER,
            .HIPBLAS_DIAG_NON_UNIT) ]
      else []) ++
      [ (HIPBLAS_STATUS_SUCCESS, .handle, .HIPBLAS_FILL_MODE_LOWER, .HIPBLAS_DIAG_NON_UNIT) ] := by
  unfold trtri.testing_trtri_bad_arg
  cases arg.bad_arg_all <;> rfl

/-- C9 (amended): every bad-argument table entry that passes, with a valid handle, a value
from outside the argument's own enumeration (gbmv: `transA` = FILL_MODE_FULL cast to an
operation, in both pointer modes; trtri: `uplo` = OP_N cast to a fill mode, `diag` = OP_N cast
to a diagonal type) expects INVALID_ENUM, and such entries are present; the trtri entry with
`uplo` = FILL_MODE_FULL, a fill-mode enumerator that trtri does not accept, expects
INVALID_VALUE. -/
theorem invalid_enum_entries {T : Type} [NatCast T] (arg : Arguments T) :
    (∀ ec ∈ expectations (gbmv.testing_gbmv_strided_batched_bad_arg arg),
      ec.2.handle = .handle → ec.2.transA.isOperation = false →
        ec.1 = HIPBLAS_STATUS_INVALID_ENUM) ∧
    ((expectations (gbmv.testing_gbmv_strided_batched_bad_arg arg)).filter
      (fun ec => !ec.2.transA.isOperation)).map (fun ec => (ec.1, ec.2.handle, ec.2.transA)) =
      [ (HIPBLAS_STATUS_INVALID_ENUM, .handle, .HIPBLAS_FILL_MODE_FULL),
        (HIPBLAS_STATUS_INVALID_ENUM, .handle, .HIPBLAS_FILL_MODE_FULL) ] ∧
    (∀ ec ∈ expectations (trtri.testing_trtri_bad_arg arg),
      ec.2.handle = .handle → (ec.2.uplo.isFillMode = false ∨ ec.2.diag.isDiagType = false) →
        ec.1 = HIPBLAS_STATUS_INVALID_ENUM) ∧
    ((expectations (trtri.testing_trtri_bad_arg arg)).filter
      (fun ec => !ec.2.uplo.isFillMode || !ec.2.diag.isDiagType)).map
        (fun ec => (ec.1, ec.2.handle, ec.2.uplo, ec.2.diag)) =
      [ (HIPBLAS_STATUS_INVALID_ENUM, .handle, .HIPBLAS_OP_N, .HIPBLAS_DIAG_NON_UNIT),
        (HIPBLAS_STATUS_INVALID_ENUM, .handle, .HIPBLAS_FILL_MODE_LOWER, .HIPBLAS_OP_N) ] ∧
    (∀ ec ∈ expectations (trtri.testing_trtri_bad_arg arg),
      ec.2.handle = .handle → ec.2.uplo = .HIPBLAS_FILL_MODE_FULL →
        ec.1 = HIPBLAS_STATUS_INVALID_VALUE) := by
  have hg : ∀ ec ∈ expectations (gbmv.testing_gbmv_strided_batched_bad_arg arg),
      (ec.1, ec.2.handle, ec.2.transA) ∈
        (expectations (gbmv.bad_arg_body arg .HIPBLAS_POINTER_MODE_HOST)).map
          (fun ec => (ec.1, ec.2.handle, ec.2.transA)) ++
        (expectations (gbmv.bad_arg_body arg .HIPBLAS_POINTER_MODE_DEVICE)).map
          (fun ec => (ec.1, ec.2.handle, ec.2.transA)) := by
    intro ec hec
    rw [gbmv_bad_arg_split, expectations, List.filterMap_append] at hec
    rw [← List.map_append]
    exact List.mem_map_of_mem _ hec
  have ht : ∀ ec ∈ expectations (trtri.testing_trtri_bad_arg arg),
      (ec.1, ec.2.handle, ec.2.uplo, ec.2.diag) ∈
        (expectations (trtri.testing_trtri_bad_arg arg)).map
          (fun ec => (ec.1, ec.2.handle, ec.2.uplo, ec.2.diag)) :=
    fun ec hec => List.mem_map_of_mem _ hec
  refine ⟨?_, ?_, ?_, ?_, ?_⟩
  · intro ec hec hh hop
    have := hg ec hec
    rw [gbmv_expectations_host, gbmv_expectations_device] at this
    obtain ⟨e, c⟩ := ec
    simp only at hh hop
    simp only [hh, List.cons_append, List.nil_append, List.mem_cons, Prod.mk.injEq,
      List.mem_nil_iff, or_false, reduceCtorEq, false_and, and_false, true_and, false_or] at this
    rcases this with h | h | h | h | h | h | h | h | h | h | h | h | h | h | h | h | h | h | h
      | h <;>
      first
        | exact h.1
        | (rw [h.2] at hop; simp [Enumerator.isOperation] at hop)
  · rw [gbmv_bad_arg_split, expectations, List.filterMap_append, List.filter_append,
      List.map_append]
    cases arg.api <;> rfl
  · intro ec hec hh hop
    have := ht ec hec
    rw [trtri_expectations_modes] at this
    obtain ⟨e, c⟩ := ec
    simp only at hh hop
    cases hb : arg.bad_arg_all <;>
      simp only [hb, hh, if_true, if_false, Bool.false_eq_true, List.cons_append,
        List.nil_append, List.append_nil, List.mem_cons, Prod.mk.injEq, List.mem_nil_iff,
        or_false, reduceCtorEq, false_and, and_false, true_and, false_or] at this
    · rcases this with h | h | h | h <;>
        first
          | exact h.1
          | (rw [h.2.1, h.2.2] at hop; simp [Enumerator.isFillMode, Enumerator.isDiagType] at hop)
    · rcases this with h | h | h | h | h | h <;>
        first
          | exact h.1
          | (rw [h.2.1, h.2.2] at hop; simp [Enumerator.isFillMode, Enumerator.isDiagType] at hop)
  · unfold trtri.testing_trtri_bad_arg
    cases arg.bad_arg_all <;> rfl
  · intro ec hec hh hop
    have := ht ec hec
    rw [trtri_expectations_modes] at this
    obtain ⟨e, c⟩ := ec
    simp only at hh hop
    cases hb : arg.bad_arg_all <;>
      simp only [hb, hh, hop, if_true, if_false, Bool.false_eq_true, List.cons_append,
        List.nil_append, List.append_nil, List.mem_cons, Prod.mk.injEq, List.mem_nil_iff,
        or_false, reduceCtorEq, false_and, and_false, true_and, false_or, and_true] at this
    · exact this.1
    · exact this.1

/-- C9 as stated fails for trtri's FILL_MODE_FULL entry: the table passes `uplo` =
FILL_MODE_FULL with a valid handle and otherwise valid arguments and expects INVALID_VALUE,
not INVALID_ENUM. -/
theorem trtri_fill_mode_full_expects_invalid_value :
    (HIPBLAS_STATUS_INVALID_VALUE,
      ({ handle := .handle, uplo := .HIPBLAS_FILL_MODE_FULL, diag := .HIPBLAS_DIAG_NON_UNIT,
         N := 100, A := .to .dA, lda := 102, invA := .to .dinvA, ldinvA := 102 } : trtri.Call))
      ∈ expectations (trtri.testing_trtri_bad_arg sample_args) ∧
    HIPBLAS_STATUS_INVALID_VALUE ≠ HIPBLAS_STATUS_INVALID_ENUM := by
  decide

/-- C10 (amended): every zero-dimension entry of the bad-argument tables expects the success
status; the gbmv entries (`M = 0`, `N = 0`, `batch_count = 0`, in both pointer modes) and the
trtri entry (`N = 0`) pass null for every pointer argument; the getrf entry (`N = 0`) passes
null for `A` and `ipiv` and the allocated `dInfo` for `info`. -/
theorem zero_dimension_entries {T : Type} [NatCast T] (arg : Arguments T) :
    ((expectations (gbmv.testing_gbmv_strided_batched_bad_arg arg)).filter
      (fun ec => ec.2.M == 0 || ec.2.N == 0 || ec.2.batch_count == 0)).map
        (fun ec => (ec.1, ec.2.handle, (ec.2.M, ec.2.N, ec.2.batch_count),
          [ec.2.alpha, ec.2.A, ec.2.x, ec.2.beta, ec.2.y])) =
      [ (HIPBLAS_STATUS_SUCCESS, .handle, (0, 100, 2),
          [.nullptr, .nullptr, .nullptr, .nullptr, .nullptr]),
        (HIPBLAS_STATUS_SUCCESS, .handle, (100, 0, 2),
          [.nullptr, .nullptr, .nullptr, .nullptr, .nullptr]),
        (HIPBLAS_STATUS_SUCCESS, .handle, (100, 100, 0),
          [.nullptr, .nullptr, .nullptr, .nullptr, .nullptr]),
        (HIPBLAS_STATUS_SUCCESS, .handle, (0, 100, 2),
          [.nullptr, .nullptr, .nullptr, .nullptr, .nullptr]),
        (HIPBLAS_STATUS_SUCCESS, .handle, (100, 0, 2),
          [.nullptr, .nullptr, .nullptr, .nullptr, .nullptr]),
        (HIPBLAS_STATUS_SUCCESS, .handle, (100, 100, 0),
          [.nullptr, .nullptr, .nullptr, .nullptr, .nullptr]) ] ∧
    ((expectations (trtri.testing_trtri_bad_arg arg)).filter (fun ec => ec.2.N == 0)).map
        (fun ec => (ec.1, ec.2.handle, ec.2.N, [ec.2.A, ec.2.invA])) =
      [ (HIPBLAS_STATUS_SUCCESS, .handle, 0, [.nullptr, .nullptr]) ] ∧
    ((expectations (getrf.testing_getrf_strided_batched_bad_arg arg)).filter
      (fun ec => ec.2.N == 0 || ec.2.batch_count == 0)).map
        (fun ec => (ec.1, ec.2.handle, ec.2.N, [ec.2.A, ec.2.ipiv, ec.2.info])) =
      [ (HIPBLAS_STATUS_SUCCESS, .handle, 0, [.nullptr, .nullptr, .to .dInfo]) ] := by
  refine ⟨?_, ?_, ?_⟩
  · rw [gbmv_bad_arg_split, expectations, List.filterMap_append, List.filter_append,
      List.map_append]
    rfl
  · unfold trtri.testing_trtri_bad_arg
    cases arg.bad_arg_all <;> rfl
  · unfold getrf.testing_getrf_strided_batched_bad_arg
    cases arg.bad_arg_all <;> rfl

/-- C10 as stated fails for getrf: its `N = 0` entry expects success but passes a non-null
`info` pointer (`dInfo`), so not every pointer argument is null. -/
theorem getrf_zero_entry_passes_info :
    (HIPBLAS_STATUS_SUCCESS,
      ({ handle := .handle, N := 0, A := .nullptr, lda := 102, strideA := 10302,
         ipiv := .nullptr, strideP := 101, info := .to .dInfo, batch_count := 2 } : getrf.Call))
      ∈ expectations (getrf.testing_getrf_strided_batched_bad_arg sample_args) ∧
    (Ptr.to getrf.Buf.dInfo) ≠ Ptr.nullptr := by
  decide

theorem gbmv_table_host {T : Type} [NatCast T]
    (env : Env gbmv.Buf gbmv.Call (gbmv.RefCall T) T) (s0 : State gbmv.Buf T)
    (arg : Arguments T) :
    gbmv.table env s0 arg .HIPBLAS_POINTER_MODE_HOST =
      [ ⟨some HIPBLAS_STATUS_NOT_INITIALIZED,
          { gbmv.valid_call (.to .h_alpha) (.to .h_beta) with handle := .nullptr },
          [((1 : Nat) : T)], [((2 : Nat) : T)]⟩,
        ⟨some HIPBLAS_STATUS_INVALID_ENUM,
          { gbmv.valid_call (.to .h_alpha) (.to .h_beta) with transA := .HIPBLAS_FILL_MODE_FULL },
          [((1 : Nat) : T)], [((2 : Nat) : T)]⟩,
        ⟨some HIPBLAS_STATUS_INVALID_VALUE,
          { gbmv.valid_call (.to .h_alpha) (.to .h_beta) with alpha := .nullptr },
          [], [((2 : Nat) : T)]⟩,
        ⟨some HIPBLAS_STATUS_INVALID_VALUE,
          { gbmv.valid_call (.to .h_alpha) (.to .h_beta) with beta := .nullptr },
          [((1 : Nat) : T)], []⟩,
        ⟨some HIPBLAS_STATUS_INVALID_VALUE,
          { gbmv.valid_call (.to .h_alpha) (.to .h_beta) with A := .nullptr },
          [((1 : Nat) : T)], [((2 : Nat) : T)]⟩,
        ⟨some HIPBLAS_STATUS_INVALID_VALUE,
          { gbmv.valid_call (.to .h_alpha) (.to .h_beta) with x := .nullptr },
          [((1 : Nat) : T)], [((2 : Nat) : T)]⟩,
        ⟨some HIPBLAS_STATUS_INVALID_VALUE,
          { gbmv.valid_call (.to .h_alpha) (.to .h_beta) with y := .nullptr },
          [((1 : Nat) : T)], [((2 : Nat) : T)]⟩,
        ⟨some (if arg.api.is_64 then HIPBLAS_STATUS_SUCCESS else HIPBLAS_STATUS_INVALID_VALUE),
          { gbmv.valid_call (.to .h_alpha) (.to .h_beta) with
              M := gbmv.c_i32_overflow, N := gbmv.c_i32_overflow, alpha := .to .h_zero,
              A := .nullptr, lda := gbmv.c_i32_overflow + 1, x := .nullptr,
              beta := .to .h_one, y := .nullptr, batch_count := gbmv.c_i32_overflow },
          [((0 : Nat) : T)], [((1 : Nat) : T)]⟩,
        ⟨some HIPBLAS_STATUS_SUCCESS,
          { gbmv.valid_call (.to .h_alpha) (.to .h_beta) with
              M := 0, alpha := .nullptr, A := .nullptr, x := .nullptr, beta := .nullptr,
              y := .nullptr }, [], []⟩,
        ⟨some HIPBLAS_STATUS_SUCCESS,
          { gbmv.valid_call (.to .h_alpha) (.to .h_beta) with
              N := 0, alpha := .nullptr, A := .nullptr, x := .nullptr, beta := .nullptr,
              y := .nullptr }, [], []⟩,
        ⟨some HIPBLAS_STATUS_SUCCESS,
          { gbmv.valid_call (.to .h_alpha) (.to .h_beta) with
              alpha := .nullptr, A := .nullptr, x := .nullptr, beta := .nullptr,
              y := .nullptr, batch_count := 0 }, [], []⟩,
        ⟨some HIPBLAS_STATUS_SUCCESS,
          { gbmv.valid_call (.to .h_alpha) (.to .h_beta) with
              alpha := .to .h_zero, A := .nullptr, x := .nullptr },
          [((0 : Nat) : T)], [((2 : Nat) : T)]⟩,
        ⟨some HIPBLAS_STATUS_SUCCESS,
          { gbmv.valid_call (.to .h_alpha) (.to .h_beta) with
              alpha := .to .h_zero, A := .nullptr, x := .nullptr, beta := .to .h_one,
              y := .nullptr },
          [((0 : Nat) : T)], [((1 : Nat) : T)]⟩ ] := by
  rfl

theorem gbmv_table_device {T : Type} [NatCast T]
    (env : Env gbmv.Buf gbmv.Call (gbmv.RefCall T) T) (s0 : State gbmv.Buf T)
    (arg : Arguments T) :
    gbmv.table env s0 arg .HIPBLAS_POINTER_MODE_DEVICE =
      [ ⟨some HIPBLAS_STATUS_NOT_INITIALIZED,
          { gbmv.valid_call (.to .d_alpha) (.to .d_beta) with handle := .nullptr },
          [((1 : Nat) : T)], [((2 : Nat) : T)]⟩,
        ⟨some HIPBLAS_STATUS_INVALID_ENUM,
          { gbmv.valid_call (.to .d_alpha) (.to .d_beta) with transA := .HIPBLAS_FILL_MODE_FULL },
          [((1 : Nat) : T)], [((2 : Nat) : T)]⟩,
        ⟨some HIPBLAS_STATUS_INVALID_VALUE,
          { gbmv.valid_call (.to .d_alpha) (.to .d_beta) with alpha := .nullptr },
          [], [((2 : Nat) : T)]⟩,
        ⟨some HIPBLAS_STATUS_INVALID_VALUE,
          { gbmv.valid_call (.to .d_alpha) (.to .d_beta) with beta := .nullptr },
          [((1 : Nat) : T)], []⟩,
        ⟨some HIPBLAS_STATUS_SUCCESS,
          { gbmv.valid_call (.to .d_alpha) (.to .d_beta) with
              M := 0, alpha := .nullptr, A := .nullptr, x := .nullptr, beta := .nullptr,
              y := .nullptr }, [], []⟩,
        ⟨some HIPBLAS_STATUS_SUCCESS,
          { gbmv.valid_call (.to .d_alpha) (.to .d_beta) with
              N := 0, alpha := .nullptr, A := .nullptr, x := .nullptr, beta := .nullptr,
              y := .nullptr }, [], []⟩,
        ⟨some HIPBLAS_STATUS_SUCCESS,
          { gbmv.valid_call (.to .d_alpha) (.to .d_beta) with
              alpha := .nullptr, A := .nullptr, x := .nullptr, beta := .nullptr,
              y := .nullptr, batch_count := 0 }, [], []⟩,
        ⟨some HIPBLAS_STATUS_SUCCESS,
          { gbmv.valid_call (.to .d_alpha) (.to .d_beta) with
              alpha := .to .d_zero, A := .nullptr, x := .nullptr },
          [((0 : Nat) : T)], [((2 : Nat) : T)]⟩,
        ⟨some HIPBLAS_STATUS_SUCCESS,
          { gbmv.valid_call (.to .d_alpha) (.to .d_beta) with
              alpha := .to .d_zero, A := .nullptr, x := .nullptr, beta := .to .d_one,
              y := .nullptr },
          [((0 : Nat) : T)], [((1 : Nat) : T)]⟩ ] := by
  rfl

/-- C11: in `testing_gbmv_strided_batched_bad_arg`, among the entries with a valid handle in
which exactly one of alpha, A, x, beta, y is null (all with the valid sizes and with the
remaining scalar pointers referring to alpha = 1 and beta = 2): under the host pointer mode
there is one entry for each of the five pointers, each expecting INVALID_VALUE; under the
device pointer mode there are only the entries for alpha and for beta, each expecting
INVALID_VALUE; and every device-mode entry with a valid handle that passes a null A, x or y
expects SUCCESS, so no rejection of a null A, x or y is asserted there. -/
theorem gbmv_null_pointer_entries {T : Type} [NatCast T]
    (env : Env gbmv.Buf gbmv.Call (gbmv.RefCall T) T) (s0 : State gbmv.Buf T)
    (arg : Arguments T) :
    (gbmv.table env s0 arg .HIPBLAS_POINTER_MODE_HOST).filter gbmv.Row.single_null =
      [ ⟨some HIPBLAS_STATUS_INVALID_VALUE,
          { gbmv.valid_call (.to .h_alpha) (.to .h_beta) with alpha := .nullptr },
          [], [((2 : Nat) : T)]⟩,
        ⟨some HIPBLAS_STATUS_INVALID_VALUE,
          { gbmv.valid_call (.to .h_alpha) (.to .h_beta) with beta := .nullptr },
          [((1 : Nat) : T)], []⟩,
        ⟨some HIPBLAS_STATUS_INVALID_VALUE,
          { gbmv.valid_call (.to .h_alpha) (.to .h_beta) with A := .nullptr },
          [((1 : Nat) : T)], [((2 : Nat) : T)]⟩,
        ⟨some HIPBLAS_STATUS_INVALID_VALUE,
          { gbmv.valid_call (.to .h_alpha) (.to .h_beta) with x := .nullptr },
          [((1 : Nat) : T)], [((2 : Nat) : T)]⟩,
        ⟨some HIPBLAS_STATUS_INVALID_VALUE,
          { gbmv.valid_call (.to .h_alpha) (.to .h_beta) with y := .nullptr },
          [((1 : Nat) : T)], [((2 : Nat) : T)]⟩ ] ∧
    (gbmv.table env s0 arg .HIPBLAS_POINTER_MODE_DEVICE).filter gbmv.Row.single_null =
      [ ⟨some HIPBLAS_STATUS_INVALID_VALUE,
          { gbmv.valid_call (.to .d_alpha) (.to .d_beta) with alpha := .nullptr },
          [], [((2 : Nat) : T)]⟩,
        ⟨some HIPBLAS_STATUS_INVALID_VALUE,
          { gbmv.valid_call (.to .d_alpha) (.to .d_beta) with beta := .nullptr },
          [((1 : Nat) : T)], []⟩ ] ∧
    (∀ r ∈ gbmv.table env s0 arg .HIPBLAS_POINTER_MODE_DEVICE,
      r.call.handle = .handle →
      (r.call.A = .nullptr ∨ r.call.x = .nullptr ∨ r.call.y = .nullptr) →
      r.expect = some HIPBLAS_STATUS_SUCCESS) ∧
    gbmv.invalid_size 100 100 5 5 100 1 1 2 = false := by
  refine ⟨?_, ?_, ?_, by decide⟩
  · rw [gbmv_table_host]
    rfl
  · rw [gbmv_table_device]
    rfl
  · have hall : (gbmv.table env s0 arg .HIPBLAS_POINTER_MODE_DEVICE).all (fun r =>
        !(r.call.handle == .handle && (r.call.A.isNull || r.call.x.isNull || r.call.y.isNull))
          || r.expect == some HIPBLAS_STATUS_SUCCESS) = true := by
      rw [gbmv_table_device]
      rfl
    intro r hr hh hn
    have h := List.all_eq_true.mp hall r hr
    have hnull : (r.call.A.isNull || r.call.x.isNull || r.call.y.isNull) = true := by
      rcases hn with h1 | h1 | h1 <;> simp [h1, Ptr.isNull]
    simpa [hh, hnull] using h

/-- C12: in `testing_rotmg_strided_batched_bad_arg` the expectations are, in order, the
null-handle entry and then, for each of d1, d2, x1, y1 and param, one entry in which that
argument alone is null (valid handle, `batch_count = 2`), each expecting INVALID_VALUE; no
entry with a valid handle expects any other status. -/
theorem rotmg_null_pointer_entries {T : Type} (arg : Arguments T) :
    (expectations (rotmg.testing_rotmg_strided_batched_bad_arg arg)).map
        (fun ec => (ec.1, ec.2.handle, ec.2.nulls, ec.2.batch_count)) =
      [ (HIPBLAS_STATUS_NOT_INITIALIZED, .nullptr, [false, false, false, false, false], 2),
        (HIPBLAS_STATUS_INVALID_VALUE, .handle, [true, false, false, false, false], 2),
        (HIPBLAS_STATUS_INVALID_VALUE, .handle, [false, true, false, false, false], 2),
        (HIPBLAS_STATUS_INVALID_VALUE, .handle, [false, false, true, false, false], 2),
        (HIPBLAS_STATUS_INVALID_VALUE, .handle, [false, false, false, true, false], 2),
        (HIPBLAS_STATUS_INVALID_VALUE, .handle, [false, false, false, false, true], 2) ] ∧
    (∀ ec ∈ expectations (rotmg.testing_rotmg_strided_batched_bad_arg arg),
      ec.2.handle = .handle → ec.1 = HIPBLAS_STATUS_INVALID_VALUE) ∧
    (rotmg.testing_rotmg_strided_batched_bad_arg arg).countP Stmt.isCall =
      (expectations (rotmg.testing_rotmg_strided_batched_bad_arg arg)).length := by
  refine ⟨rfl, ?_, rfl⟩
  have hall : (expectations (rotmg.testing_rotmg_strided_batched_bad_arg arg)).all (fun ec =>
      !(ec.2.handle == .handle) || ec.1 == HIPBLAS_STATUS_INVALID_VALUE) = true := rfl
  intro ec hec hh
  have h := List.all_eq_true.mp hall ec hec
  simpa [hh] using h

/-- C13: in `testing_gbmv_strided_batched_bad_arg`, for both pointer modes and the valid
sizes, the entries that pass the pointer to zero as alpha are: one with beta referring to 2,
null A and null x and the non-null `dy`, expecting success; and one with beta referring to 1
and null A, x and y, expecting success.  In device pointer mode the scalar pointers are the
device buffers `d_zero`, `d_beta` and `d_one`, which hold the same values 0, 2 and 1. -/
theorem gbmv_alpha_zero_entries {T : Type} [NatCast T]
    (env : Env gbmv.Buf gbmv.Call (gbmv.RefCall T) T) (s0 : State gbmv.Buf T)
    (arg : Arguments T) :
    (gbmv.table env s0 arg .HIPBLAS_POINTER_MODE_HOST).filter
        (fun r => r.call.alpha == .to .h_zero && r.call.M == 100) =
      [ ⟨some HIPBLAS_STATUS_SUCCESS,
          { gbmv.valid_call (.to .h_zero) (.to .h_beta) with A := .nullptr, x := .nullptr },
          [((0 : Nat) : T)], [((2 : Nat) : T)]⟩,
        ⟨some HIPBLAS_STATUS_SUCCESS,
          { gbmv.valid_call (.to .h_zero) (.to .h_one) with
              A := .nullptr, x := .nullptr, y := .nullptr },
          [((0 : Nat) : T)], [((1 : Nat) : T)]⟩ ] ∧
    (gbmv.table env s0 arg .HIPBLAS_POINTER_MODE_DEVICE).filter
        (fun r => r.call.alpha == .to .d_zero && r.call.M == 100) =
      [ ⟨some HIPBLAS_STATUS_SUCCESS,
          { gbmv.valid_call (.to .d_zero) (.to .d_beta) with A := .nullptr, x := .nullptr },
          [((0 : Nat) : T)], [((2 : Nat) : T)]⟩,
        ⟨some HIPBLAS_STATUS_SUCCESS,
          { gbmv.valid_call (.to .d_zero) (.to .d_one) with
              A := .nullptr, x := .nullptr, y := .nullptr },
          [((0 : Nat) : T)], [((1 : Nat) : T)]⟩ ] ∧
    (gbmv.valid_call (.to .h_zero) (.to .h_beta)).y = .to .dy ∧
    gbmv.invalid_size 100 100 5 5 100 1 1 2 = false ∧
    gbmv.Buf.kind .h_zero = .host ∧ gbmv.Buf.kind .h_beta = .host ∧
    gbmv.Buf.kind .h_one = .host ∧
    gbmv.Buf.kind .d_zero = .device ∧ gbmv.Buf.kind .d_beta = .device ∧
    gbmv.Buf.kind .d_one = .device := by
  refine ⟨?_, ?_, rfl, by decide, rfl, rfl, rfl, rfl, rfl, rfl⟩
  · rw [gbmv_table_host]
    rfl
  · rw [gbmv_table_device]
    rfl

/-- C14: the overflow entry of `testing_gbmv_strided_batched_bad_arg` exists in host pointer
mode only; it passes `M = N = batch_count = 2 ^ 31`, `lda = 2 ^ 31 + 1`, `KL = KU = 5`, alpha
referring to 0, beta referring to 1 and null A, x, y, goes to the 64-bit entry point exactly
when the API is a 64-bit one, and expects SUCCESS for a 64-bit API and INVALID_VALUE otherwise.
This agrees with the size predicate of `testing_gbmv_strided_batched`: reduced to 32 bits the
values are -2147483648 and -2147483647, for which `invalid_size` holds, while for the 64-bit
values it does not. -/
theorem gbmv_overflow_entry {T : Type} [NatCast T]
    (env : Env gbmv.Buf gbmv.Call (gbmv.RefCall T) T) (s0 : State gbmv.Buf T)
    (arg : Arguments T) :
    (gbmv.table env s0 arg .HIPBLAS_POINTER_MODE_HOST).filter
        (fun r => r.call.M == gbmv.c_i32_overflow) =
      [ ⟨some (if arg.api.is_64 then HIPBLAS_STATUS_SUCCESS else HIPBLAS_STATUS_INVALID_VALUE),
          { gbmv.valid_call (.to .h_zero) (.to .h_one) with
              M := 2 ^ 31, N := 2 ^ 31, KL := 5, KU := 5, A := .nullptr, lda := 2 ^ 31 + 1,
              x := .nullptr, y := .nullptr, batch_count := 2 ^ 31 },
          [((0 : Nat) : T)], [((1 : Nat) : T)]⟩ ] ∧
    (gbmv.table env s0 arg .HIPBLAS_POINTER_MODE_DEVICE).filter
        (fun r => r.call.M == gbmv.c_i32_overflow) = [] ∧
    (gbmv.bad_arg_body arg .HIPBLAS_POINTER_MODE_HOST).filterMap
        (fun s =>
          match s with
          | .call _ fn c => if c.M == gbmv.c_i32_overflow then some fn.i64 else none
          | _ => none) = [arg.api.is_64] ∧
    gbmv.c_i32_overflow = 2 ^ 31 ∧
    to_int32 gbmv.c_i32_overflow = -2147483648 ∧
    to_int32 (gbmv.c_i32_overflow + 1) = -2147483647 ∧
    gbmv.invalid_size (to_int32 gbmv.c_i32_overflow) (to_int32 gbmv.c_i32_overflow) 5 5
      (to_int32 (gbmv.c_i32_overflow + 1)) 1 1 (to_int32 gbmv.c_i32_overflow) = true ∧
    gbmv.invalid_size gbmv.c_i32_overflow gbmv.c_i32_overflow 5 5 (gbmv.c_i32_overflow + 1)
      1 1 gbmv.c_i32_overflow = false := by
  refine ⟨?_, ?_, ?_, by decide, by decide, by decide, by decide, by decide⟩
  · rw [gbmv_table_host]
    rfl
  · rw [gbmv_table_device]
    rfl
  · cases h : arg.api <;> simp [gbmv.bad_arg_body, DAPI_EXPECT, DAPI_CHECK, h,
      hipblas_client_api.is_64, gbmv.valid_call, gbmv.c_i32_overflow]

/-! ## The timing loop -/

theorem flatMap_singleton_const {α β : Type} (l : List α) (f : α → List β) (b : β)
    (h : ∀ x ∈ l, f x = [b]) : l.flatMap f = List.replicate l.length b := by
  induction l with
  | nil => rfl
  | cons x xs ih =>
    rw [List.flatMap_cons, h x (List.mem_cons_self _ _),
      ih (fun y hy => h y (List.mem_cons_of_mem _ hy))]
    rfl

theorem timing_loop_unroll {B C R T : Type} (cold_iters iters : Int) (body : Stmt B C R T)
    (hc : 0 ≤ cold_iters) (hi : 1 ≤ iters) :
    timing_loop cold_iters iters body =
      List.replicate cold_iters.toNat body ++ [Stmt.get_time] ++
        List.replicate iters.toNat body := by
  obtain ⟨c, rfl⟩ := Int.eq_ofNat_of_zero_le hc
  obtain ⟨k, hk⟩ : ∃ k : Nat, iters = ((k + 1 : Nat) : Int) :=
    ⟨(iters - 1).toNat, by omega⟩
  subst hk
  unfold timing_loop
  have hn : ((c : Int) + ((k + 1 : Nat) : Int)).toNat = c + (k + 1) := by omega
  rw [hn, List.range_add, List.flatMap_append, Int.toNat_ofNat, Int.toNat_ofNat]
  have h1 : (List.range c).flatMap (fun iter =>
      (if (iter : Int) = (c : Int) then [Stmt.get_time] else []) ++ [body]) =
      List.replicate c body := by
    have := flatMap_singleton_const (List.range c) (fun iter =>
      (if (iter : Int) = (c : Int) then [Stmt.get_time] else []) ++ [body]) body (by
        intro x hx
        have hx' : x < c := List.mem_range.mp hx
        have : ¬ ((x : Int) = (c : Int)) := by omega
        simp [this])
    rw [this, List.length_range]
  have h2 : ((List.range (k + 1)).map (fun x => c + x)).flatMap (fun iter =>
      (if (iter : Int) = (c : Int) then [Stmt.get_time] else []) ++ [body]) =
      Stmt.get_time :: List.replicate (k + 1) body := by
    rw [List.range_succ_eq_map, List.map_cons, List.flatMap_cons, List.map_map]
    have := flatMap_singleton_const ((List.range k).map ((fun x => c + x) ∘ Nat.succ))
      (fun iter => (if (iter : Int) = (c : Int) then [Stmt.get_time] else []) ++ [body]) body (by
        intro x hx
        obtain ⟨j, -, rfl⟩ := List.mem_map.mp hx
        have : ¬ (((c + j.succ : Nat) : Int) = (c : Int)) := by omega
        simp only [Function.comp]
        rw [if_neg this]
        rfl)
    rw [this, List.length_map, List.length_range]
    simp [List.replicate_succ]
  rw [h1, h2]
  simp

theorem all_ite_nil {S : Type} (q : S → Bool) (c : Prop) [Decidable c] (l : List S)
    (h : l.all q = true) : (if c then l else []).all q = true := by
  split
  · exact h
  · rfl

theorem step_mem_keeps {B C R T : Type} [DecidableEq B] (sg : Sig B C R T) (env : Env B C R T)
    (b : B) (s : State B T) (st : Stmt B C R T) (h : st.keeps sg b = true) :
    (step sg env s st).1.mem b = s.mem b := by
  have h1 : b ∉ st.writes sg := of_decide_eq_true h
  cases st with
  | store b1 v =>
    have : b ≠ b1 := by simpa [Stmt.writes] using h1
    simp only [step, Function.update_noteq this]
  | init b1 shape =>
    have : b ≠ b1 := by simpa [Stmt.writes] using h1
    simp only [step, Function.update_noteq this]
  | host_loop b1 =>
    have : b ≠ b1 := by simpa [Stmt.writes] using h1
    simp only [step, Function.update_noteq this]
  | copy dst src =>
    have : b ≠ dst := by simpa [Stmt.writes] using h1
    simp only [step, Function.update_noteq this]
  | call expect fn c =>
    have : b ∉ sg.call_outputs c := h1
    simp only [step, write_all_apply, if_neg this]
  | ref r =>
    have : b ∉ sg.ref_outputs r := h1
    simp only [step, write_all_apply, if_neg this]
  | _ => rfl

theorem run_mem_keeps {B C R T : Type} [DecidableEq B] (sg : Sig B C R T) (env : Env B C R T)
    (b : B) (p : List (Stmt B C R T)) (h : p.all (Stmt.keeps sg b) = true) (s : State B T) :
    (run sg env s p).1.mem b = s.mem b := by
  induction p generalizing s with
  | nil => rfl
  | cons x xs ih =>
    rw [List.all_cons, Bool.and_eq_true] at h
    simp only [run]
    rw [ih h.2, step_mem_keeps sg env b s x h.1]

theorem dropWhile_append_all {α : Type} (q : α → Bool) (l₁ l₂ : List α)
    (h : ∀ x ∈ l₁, q x = true) : (l₁ ++ l₂).dropWhile q = l₂.dropWhile q := by
  induction l₁ with
  | nil => rfl
  | cons x xs ih =>
    rw [List.cons_append, List.dropWhile_cons, h x (List.mem_cons_self _ _), if_pos rfl]
    exact ih (fun y hy => h y (List.mem_cons_of_mem _ hy))

theorem loop_first_call {B C R T : Type} [DecidableEq B] (sg : Sig B C R T) (env : Env B C R T)
    (s : State B T) (cold_iters iters : Int) (expect : Option hipblasStatus_t) (fn : Fn) (c : C)
    (tail : List (Stmt B C R T)) (hc : 0 ≤ cold_iters) (hi : 1 ≤ iters) :
    (calls_of (exec sg env s (timing_loop cold_iters iters (.call expect fn c) ++ tail))).head? =
      some ⟨.call expect fn c, (sg.call_ptrs c).map (received s.mem)⟩ := by
  rw [timing_loop_unroll _ _ _ hc hi]
  obtain ⟨k, hk⟩ : ∃ k : Nat, iters.toNat = k + 1 := ⟨iters.toNat - 1, by omega⟩
  rw [hk]
  cases cold_iters.toNat with
  | zero => rfl
  | succ m => rfl

/-- The first timed invocation sees the memory left by the statements before the timing
block, when the statements between the query of the stream and the loop write nothing. -/
theorem first_timed_call {B C R T : Type} [DecidableEq B] (sg : Sig B C R T)
    (env : Env B C R T) (s0 : State B T) (W pre tail : List (Stmt B C R T))
    (cold_iters iters : Int) (expect : Option hipblasStatus_t) (fn : Fn) (c : C)
    (hc : 0 ≤ cold_iters) (hi : 1 ≤ iters)
    (hW : W.all (fun st => !st.isGetStream) = true)
    (hpre : pre.all (fun st => !st.isCall && (st.writes sg).isEmpty) = true) :
    (timed_calls (exec sg env s0
      (W ++ (Stmt.get_stream :: pre ++
        timing_loop cold_iters iters (.call expect fn c) ++ tail)))).head? =
      some ⟨.call expect fn c, (sg.call_ptrs c).map (received (run sg env s0 W).1.mem)⟩ := by
  have hmem : (run sg env (run sg env s0 W).1 pre).1.mem = (run sg env s0 W).1.mem := by
    funext b
    apply run_mem_keeps
    rw [List.all_eq_true] at hpre ⊢
    intro st hst
    have h := hpre st hst
    rw [Bool.and_eq_true, List.isEmpty_iff] at h
    simp only [Stmt.keeps, h.2, List.not_mem_nil, not_false_eq_true, decide_True]
  have hW1 : ∀ e ∈ exec sg env s0 W, (fun e : Event B C R T => !e.stmt.isGetStream) e = true := by
    intro e he
    exact List.all_eq_true.mp hW _ (mem_exec_stmt sg env s0 W e he)
  have hpre1 : ∀ st ∈ pre, st.isCall = false := by
    intro st hst
    have h := List.all_eq_true.mp hpre st hst
    rw [Bool.and_eq_true] at h
    simpa using h.1
  have hshape : W ++ (Stmt.get_stream :: pre ++
      timing_loop cold_iters iters (.call expect fn c) ++ tail) =
      W ++ ([Stmt.get_stream] ++
        (pre ++ (timing_loop cold_iters iters (.call expect fn c) ++ tail))) := by
    simp only [List.cons_append, List.append_assoc, List.nil_append]
  rw [hshape, exec_append, exec_append _ _ _ [Stmt.get_stream], exec_append _ _ _ pre]
  unfold timed_calls
  rw [dropWhile_append_all _ _ _ hW1]
  have hgs : (run sg env (run sg env s0 W).1 [Stmt.get_stream]).1 = (run sg env s0 W).1 := rfl
  rw [hgs]
  have hdrop : ∀ rest : List (Event B C R T),
      calls_of ((exec sg env (run sg env s0 W).1 [Stmt.get_stream] ++ rest).dropWhile
        fun e => !e.stmt.isGetStream) = calls_of rest := fun _ => rfl
  rw [hdrop]
  unfold calls_of
  rw [List.filter_append, filter_exec_nil sg env _ pre Stmt.isCall hpre1, List.nil_append]
  have := loop_first_call sg env (run sg env (run sg env s0 W).1 pre).1 cold_iters iters
    expect fn c tail hc hi
  unfold calls_of at this
  rw [this, hmem]

theorem gbmv_phases_keep {T : Type} (cv : Conv) (arg : Arguments T) (b : gbmv.Buf)
    (hb : b = .d_alpha ∨ b = .dA ∨ b = .dx ∨ b = .d_beta ∨ b = .hy) :
    ((if (arg.unit_check || arg.norm_check) = true then
        gbmv.device_phase cv arg ++ gbmv.ref_phase cv arg ++ gbmv.check_phase cv arg
      else []).all (Stmt.keeps (gbmv.sig T) b)) = true := by
  apply all_ite_nil
  have h1 : (gbmv.device_phase cv arg).all (Stmt.keeps (gbmv.sig T) b) = true := by
    rcases hb with rfl | rfl | rfl | rfl | rfl <;> rfl
  have h2 : (gbmv.ref_phase cv arg).all (Stmt.keeps (gbmv.sig T) b) = true := by
    rcases hb with rfl | rfl | rfl | rfl | rfl <;> exact all_map_true _ _ _ (by intro n; rfl)
  have h3 : (gbmv.check_phase cv arg).all (Stmt.keeps (gbmv.sig T) b) = true := by
    unfold gbmv.check_phase
    cases arg.unit_check <;> cases arg.norm_check <;> rfl
  rw [List.all_append, List.all_append, h1, h2, h3]
  rfl

theorem gbmv_timing_split {T : Type} (cv : Conv) (arg : Arguments T)
    (hq : gbmv.quick_return arg = false) (ht : arg.timing = true) :
    gbmv.testing_gbmv_strided_batched cv arg =
      ((Stmt.create_handle :: gbmv.setup cv arg) ++
        ((if (arg.unit_check || arg.norm_check) = true then
          gbmv.device_phase cv arg ++ gbmv.ref_phase cv arg ++ gbmv.check_phase cv arg
        else []) ++ [Stmt.copy .dy .hy])) ++
      (Stmt.get_stream :: [Stmt.set_pointer_mode .HIPBLAS_POINTER_MODE_DEVICE] ++
        timing_loop arg.cold_iters arg.iters
          (.call none
            (if arg.api.is_64 then ⟨arg.api == .FORTRAN_64, true⟩
              else ⟨arg.api == .FORTRAN, false⟩)
            (gbmv.mk_call cv arg (.to .d_alpha) (.to .dA) (.to .dx) (.to .d_beta) (.to .dy))) ++
        [Stmt.get_time, Stmt.log]) := by
  unfold gbmv.testing_gbmv_strided_batched gbmv.timing_phase DAPI_DISPATCH
  simp only [hq, ht, if_true, Bool.false_eq_true, if_false, List.cons_append,
    List.append_assoc, List.nil_append, List.singleton_append]

/-- C16: in `testing_gbmv_strided_batched` with timing requested (`cold_iters ≥ 0`,
`iters ≥ 1`), the first invocation of the timing loop receives in `dy` exactly the generated
`hy` (and in `dA`, `dx` the generated `hA`, `hx`), whatever the check flags are, that is,
whether or not the correctness phase ran before. -/
theorem gbmv_timing_starts_from_generated_y {T : Type}
    (env : Env gbmv.Buf gbmv.Call (gbmv.RefCall T) T) (s0 : State gbmv.Buf T) (cv : Conv)
    (arg : Arguments T) (hq : gbmv.quick_return arg = false) (ht : arg.timing = true)
    (hc : 0 ≤ arg.cold_iters) (hi : 1 ≤ arg.iters) :
    gbmv.timing_reset env s0 cv arg := by
  unfold gbmv.timing_reset
  refine ⟨(env.gen s0.rng [arg.M, arg.N, arg.lda, gbmv.stride_A arg, arg.batch_count]).1,
    (env.gen (env.gen s0.rng [arg.M, arg.N, arg.lda, gbmv.stride_A arg, arg.batch_count]).2
      [gbmv.dim_x cv arg, gbmv.abs_incx arg, gbmv.stride_x cv arg, arg.batch_count]).1,
    (env.gen (env.gen (env.gen s0.rng
      [arg.M, arg.N, arg.lda, gbmv.stride_A arg, arg.batch_count]).2
      [gbmv.dim_x cv arg, gbmv.abs_incx arg, gbmv.stride_x cv arg, arg.batch_count]).2
      [gbmv.dim_y cv arg, gbmv.abs_incy arg, gbmv.stride_y cv arg, arg.batch_count]).1,
    ?_, ?_, ?_, ?_⟩
  · rw [gbmv_timing_split cv arg hq ht, exec_append, exec_append]
    rfl
  · rw [gbmv_timing_split cv arg hq ht, exec_append, exec_append]
    rfl
  · rw [gbmv_timing_split cv arg hq ht, exec_append, exec_append]
    rfl
  · rw [gbmv_timing_split cv arg hq ht]
    rw [first_timed_call (gbmv.sig T) env s0 _ _ _ _ _ _ _ _ hc hi ?_ ?_]
    · have key : ∀ b : gbmv.Buf,
          (b = .d_alpha ∨ b = .dA ∨ b = .dx ∨ b = .d_beta ∨ b = .hy) →
          (run (gbmv.sig T) env s0 (Stmt.create_handle :: gbmv.setup cv arg ++
            (if (arg.unit_check || arg.norm_check) = true then
              gbmv.device_phase cv arg ++ gbmv.ref_phase cv arg ++ gbmv.check_phase cv arg
            else []))).1.mem b =
          (run (gbmv.sig T) env s0 (Stmt.create_handle :: gbmv.setup cv arg)).1.mem b := by
        intro b hb
        rw [run_append]
        exact run_mem_keeps _ _ _ _ (gbmv_phases_keep cv arg b hb) _
      rw [← List.append_assoc, run_append]
      have f1 : (run (gbmv.sig T) env (run (gbmv.sig T) env s0
          (Stmt.create_handle :: gbmv.setup cv arg ++
            (if (arg.unit_check || arg.norm_check) = true then
              gbmv.device_phase cv arg ++ gbmv.ref_phase cv arg ++ gbmv.check_phase cv arg
            else []))).1 [Stmt.copy .dy .hy]).1.mem .d_alpha = [arg.alpha] :=
        (key .d_alpha (by simp)).trans rfl
      have f2 : (run (gbmv.sig T) env (run (gbmv.sig T) env s0
          (Stmt.create_handle :: gbmv.setup cv arg ++
            (if (arg.unit_check || arg.norm_check) = true then
              gbmv.device_phase cv arg ++ gbmv.ref_phase cv arg ++ gbmv.check_phase cv arg
            else []))).1 [Stmt.copy .dy .hy]).1.mem .dA = _ :=
        (key .dA (by simp)).trans rfl
      have f3 : (run (gbmv.sig T) env (run (gbmv.sig T) env s0
          (Stmt.create_handle :: gbmv.setup cv arg ++
            (if (arg.unit_check || arg.norm_check) = true then
              gbmv.device_phase cv arg ++ gbmv.ref_phase cv arg ++ gbmv.check_phase cv arg
            else []))).1 [Stmt.copy .dy .hy]).1.mem .dx = _ :=
        (key .dx (by simp)).trans rfl
      have f4 : (run (gbmv.sig T) env (run (gbmv.sig T) env s0
          (Stmt.create_handle :: gbmv.setup cv arg ++
            (if (arg.unit_check || arg.norm_check) = true then
              gbmv.device_phase cv arg ++ gbmv.ref_phase cv arg ++ gbmv.check_phase cv arg
            else []))).1 [Stmt.copy .dy .hy]).1.mem .d_beta = [arg.beta] :=
        (key .d_beta (by simp)).trans rfl
      have f5 : (run (gbmv.sig T) env (run (gbmv.sig T) env s0
          (Stmt.create_handle :: gbmv.setup cv arg ++
            (if (arg.unit_check || arg.norm_check) = true then
              gbmv.device_phase cv arg ++ gbmv.ref_phase cv arg ++ gbmv.check_phase cv arg
            else []))).1 [Stmt.copy .dy .hy]).1.mem .dy = _ :=
        (key .hy (by simp)).trans rfl
      have hfinal : ∀ (m : gbmv.Buf → List T) (st : Stmt gbmv.Buf gbmv.Call (gbmv.RefCall T) T)
          (v1 v2 v3 v4 v5 : List T), m .d_alpha = v1 → m .dA = v2 → m .dx = v3 →
          m .d_beta = v4 → m .dy = v5 →
          some (Event.mk st (((gbmv.sig T).call_ptrs
            (gbmv.mk_call cv arg (.to .d_alpha) (.to .dA) (.to .dx) (.to .d_beta)
              (.to .dy))).map (received m))) = some (Event.mk st [v1, v2, v3, v4, v5]) := by
        intro m st v1 v2 v3 v4 v5 h1 h2 h3 h4 h5
        subst h1 h2 h3 h4 h5
        rfl
      exact hfinal _ _ _ _ _ _ _ f1 f2 f3 f4 f5
    · rw [List.all_append, List.all_append]
      have h0 : ((Stmt.create_handle :: gbmv.setup cv arg).all
          fun st : Stmt gbmv.Buf gbmv.Call (gbmv.RefCall T) T => !st.isGetStream) = true := rfl
      have h1 : ((gbmv.device_phase cv arg).all
          fun st : Stmt gbmv.Buf gbmv.Call (gbmv.RefCall T) T => !st.isGetStream) = true := rfl
      have h2 : ((gbmv.ref_phase cv arg).all
          fun st : Stmt gbmv.Buf gbmv.Call (gbmv.RefCall T) T => !st.isGetStream) = true :=
        all_map_true _ _ _ (by intro n; rfl)
      have h3 : ((gbmv.check_phase cv arg).all
          fun st : Stmt gbmv.Buf gbmv.Call (gbmv.RefCall T) T => !st.isGetStream) = true := by
        unfold gbmv.check_phase
        cases arg.unit_check <;> cases arg.norm_check <;> rfl
      rw [h0, all_ite_nil _ _ _ (by rw [List.all_append, List.all_append, h1, h2, h3]; rfl)]
      rfl
    · rfl

/-- The reset of `dy` at the sample record with timing on (the correctness phase runs). -/
theorem gbmv_timing_starts_from_generated_y_witness :
    (gbmv.quick_return sample_args_timing = false ∧ sample_args_timing.timing = true ∧
      0 ≤ sample_args_timing.cold_iters ∧ 1 ≤ sample_args_timing.iters) ∧
    gbmv.timing_reset (sample_env gbmv.Buf gbmv.Call (gbmv.RefCall Int))
      (sample_state gbmv.Buf) sample_conv sample_args_timing :=
  ⟨by decide,
    gbmv_timing_starts_from_generated_y _ _ sample_conv sample_args_timing (by decide) rfl
      (by decide) (by decide)⟩

/-! ## Routines whose timing block does not restore the device buffers -/

theorem hemm_timing_split {T : Type} (cv : Conv) (arg : Arguments T)
    (hg : ¬ (arg.M < 0 ∨ arg.N < 0 ∨ arg.ldc < arg.M ∨ arg.ldb < arg.M ∨
      arg.lda < hemm.K cv arg)) (ht : arg.timing = true) :
    hemm.testing_hemm cv arg =
      (([Stmt.store .h_alpha [arg.alpha], Stmt.store .h_beta [arg.beta]] ++
          hemm.setup cv arg) ++
        (if (arg.unit_check || arg.norm_check) = true then
          hemm.invocations cv arg ++ hemm.comparisons arg else [])) ++
      (Stmt.get_stream :: [Stmt.set_pointer_mode .HIPBLAS_POINTER_MODE_DEVICE] ++
        timing_loop arg.cold_iters arg.iters
          (.call (some HIPBLAS_STATUS_SUCCESS) ⟨arg.fortran, false⟩
            (hemm.mk_call cv arg (.to .d_alpha) (.to .d_beta))) ++
        [Stmt.get_time, Stmt.log]) := by
  unfold hemm.testing_hemm hemm.timing_phase hemm.check_phase CHECK_HIPBLAS_ERROR
    EXPECT_HIPBLAS_STATUS
  rw [if_neg hg]
  simp only [ht, if_true, List.cons_append, List.append_assoc, List.nil_append,
    List.singleton_append]

theorem hemm_timing_inputs {T : Type} (env : Env hemm.Buf hemm.Call (hemm.RefCall T) T)
    (s0 : State hemm.Buf T) (cv : Conv) (arg : Arguments T)
    (hg : ¬ (arg.M < 0 ∨ arg.N < 0 ∨ arg.ldc < arg.M ∨ arg.ldb < arg.M ∨
      arg.lda < hemm.K cv arg)) (ht : arg.timing = true)
    (hc : 0 ≤ arg.cold_iters) (hi : 1 ≤ arg.iters) :
    hemm.timing_inputs env s0 cv arg := by
  unfold hemm.timing_inputs
  refine ⟨(env.gen s0.rng [hemm.rows cv arg, hemm.K cv arg, arg.lda, 0, 1]).1,
    (env.gen (env.gen s0.rng [hemm.rows cv arg, hemm.K cv arg, arg.lda, 0, 1]).2
      [arg.M, arg.N, arg.ldb, 0, 1]).1,
    (env.gen (env.gen (env.gen s0.rng [hemm.rows cv arg, hemm.K cv arg, arg.lda, 0, 1]).2
      [arg.M, arg.N, arg.ldb, 0, 1]).2 [arg.M, arg.N, arg.ldc, 0, 1]).1,
    ?_, ?_, ?_, ?_, ?_⟩
  · rw [hemm_timing_split cv arg hg ht, exec_append, exec_append]
    rfl
  · rw [hemm_timing_split cv arg hg ht, exec_append, exec_append]
    rfl
  · rw [hemm_timing_split cv arg hg ht, exec_append, exec_append]
    rfl
  · intro h
    rw [hemm_timing_split cv arg hg ht]
    simp only [h, Bool.false_eq_true, if_false, List.append_nil]
    rw [first_timed_call (hemm.sig T) env s0 _ _ _ _ _ _ _ _ hc hi ?_ ?_]
    · rfl
    · rfl
    · rfl
  · intro h
    rw [hemm_timing_split cv arg hg ht]
    simp only [h, if_true]
    have hcmp : ∀ b : hemm.Buf, (hemm.comparisons arg).all (Stmt.keeps (hemm.sig T) b) = true := by
      intro b
      unfold hemm.comparisons
      cases arg.unit_check <;> cases arg.norm_check <;> rfl
    have hgs : (hemm.comparisons arg).all
        (fun st : Stmt hemm.Buf hemm.Call (hemm.RefCall T) T => !st.isGetStream) = true := by
      unfold hemm.comparisons
      cases arg.unit_check <;> cases arg.norm_check <;> rfl
    rw [first_timed_call (hemm.sig T) env s0 _ _ _ _ _ _ _ _ hc hi ?_ ?_]
    · rw [← List.append_assoc, run_append]
      have key : ∀ b : hemm.Buf,
          (run (hemm.sig T) env (run (hemm.sig T) env s0
            (([Stmt.store .h_alpha [arg.alpha], Stmt.store .h_beta [arg.beta]] ++
              hemm.setup cv arg) ++ hemm.invocations cv arg)).1 (hemm.comparisons arg)).1.mem b =
          (run (hemm.sig T) env s0
            (([Stmt.store .h_alpha [arg.alpha], Stmt.store .h_beta [arg.beta]] ++
              hemm.setup cv arg) ++ hemm.invocations cv arg)).1.mem b :=
        fun b => run_mem_keeps _ _ _ _ (hcmp b) _
      have hfinal : ∀ (m : hemm.Buf → List T) (st : Stmt hemm.Buf hemm.Call (hemm.RefCall T) T)
          (v1 v2 v3 v4 v5 : List T), m .d_alpha = v1 → m .dA = v2 → m .dB = v3 →
          m .d_beta = v4 → m .dC = v5 →
          some (Event.mk st (((hemm.sig T).call_ptrs
            (hemm.mk_call cv arg (.to .d_alpha) (.to .d_beta))).map (received m))) =
            some (Event.mk st [v1, v2, v3, v4, v5]) := by
        intro m st v1 v2 v3 v4 v5 h1 h2 h3 h4 h5
        subst h1 h2 h3 h4 h5
        rfl
      exact hfinal _ _ _ _ _ _ _ ((key .d_alpha).trans rfl) ((key .dA).trans rfl)
        ((key .dB).trans rfl) ((key .d_beta).trans rfl) ((key .dC).trans rfl)
    · rw [List.all_append, List.all_append, List.all_append, hgs]
      rfl
    · rfl

theorem rotmg_timing_split {T : Type} (epsilon : ℚ) (arg : Arguments T)
    (hb : 1 ≤ arg.batch_count) (ht : arg.timing = true) :
    rotmg.testing_rotmg_strided_batched epsilon arg =
      (rotmg.setup arg ++
        (if (arg.unit_check || arg.norm_check) = true then
          rotmg.device_phase arg ++ (rotmg.ref_phase arg ++ rotmg.comparisons epsilon arg)
        else [])) ++
      (Stmt.get_stream :: [Stmt.set_pointer_mode .HIPBLAS_POINTER_MODE_DEVICE] ++
        timing_loop arg.cold_iters arg.iters
          (.call (some HIPBLAS_STATUS_SUCCESS)
            (if arg.api.is_64 then ⟨arg.api == .FORTRAN_64, true⟩
              else ⟨arg.api == .FORTRAN, false⟩)
            (rotmg.mk_call arg .dd1 .dd2 .dx1 .dy1 .dparams)) ++
        [Stmt.get_time, Stmt.log]) := by
  have hnb : ¬ arg.batch_count ≤ 0 := by omega
  unfold rotmg.testing_rotmg_strided_batched rotmg.timing_phase DAPI_CHECK DAPI_EXPECT
  rw [if_neg hnb]
  simp only [ht, if_true, List.cons_append, List.append_assoc, List.nil_append,
    List.singleton_append]

theorem rotmg_timing_inputs {T : Type} (env : Env rotmg.Buf rotmg.Call rotmg.RefCall T)
    (s0 : State rotmg.Buf T) (epsilon : ℚ) (arg : Arguments T)
    (hb : 1 ≤ arg.batch_count) (ht : arg.timing = true)
    (hc : 0 ≤ arg.cold_iters) (hi : 1 ≤ arg.iters) :
    rotmg.timing_inputs env s0 epsilon arg := by
  unfold rotmg.timing_inputs
  refine ⟨(run (rotmg.sig T) env s0 (rotmg.setup arg)).1.mem .hd1,
    (run (rotmg.sig T) env s0 (rotmg.setup arg)).1.mem .hd2,
    (run (rotmg.sig T) env s0 (rotmg.setup arg)).1.mem .hx1,
    (run (rotmg.sig T) env s0 (rotmg.setup arg)).1.mem .hy1,
    (run (rotmg.sig T) env s0 (rotmg.setup arg)).1.mem .hparams, ?_, ?_, ?_, ?_, ?_, ?_, ?_⟩
  · rw [rotmg_timing_split epsilon arg hb ht, exec_append, exec_append]
    rfl
  · rw [rotmg_timing_split epsilon arg hb ht, exec_append, exec_append]
    rfl
  · rw [rotmg_timing_split epsilon arg hb ht, exec_append, exec_append]
    rfl
  · rw [rotmg_timing_split epsilon arg hb ht, exec_append, exec_append]
    rfl
  · rw [rotmg_timing_split epsilon arg hb ht, exec_append, exec_append]
    rfl
  · intro h
    rw [rotmg_timing_split epsilon arg hb ht]
    simp only [h, Bool.false_eq_true, if_false, List.append_nil]
    rw [first_timed_call (rotmg.sig T) env s0 _ _ _ _ _ _ _ _ hc hi ?_ ?_]
    · rfl
    · rfl
    · rfl
  · intro h
    rw [rotmg_timing_split epsilon arg hb ht]
    simp only [h, if_true]
    have hcmp : ∀ b : rotmg.Buf,
        (b = .dd1 ∨ b = .dd2 ∨ b = .dx1 ∨ b = .dy1 ∨ b = .dparams) →
        (rotmg.ref_phase arg ++ rotmg.comparisons epsilon arg).all
          (Stmt.keeps (rotmg.sig T) b) = true := by
      intro b hb
      have h1 : (rotmg.ref_phase arg).all (Stmt.keeps (rotmg.sig T) b) = true := by
        rcases hb with rfl | rfl | rfl | rfl | rfl <;>
          exact all_map_true _ _ _ (by intro n; rfl)
      have h2 : (rotmg.comparisons epsilon arg).all (Stmt.keeps (rotmg.sig T) b) = true := by
        unfold rotmg.comparisons
        cases arg.unit_check <;> cases arg.norm_check <;> rfl
      rw [List.all_append, h1, h2]
      rfl
    have hgs : (rotmg.ref_phase arg ++ rotmg.comparisons epsilon arg).all
        (fun st : Stmt rotmg.Buf rotmg.Call rotmg.RefCall T => !st.isGetStream) = true := by
      have h1 : (rotmg.ref_phase arg).all
          (fun st : Stmt rotmg.Buf rotmg.Call rotmg.RefCall T => !st.isGetStream) = true :=
        all_map_true _ _ _ (by intro n; rfl)
      have h2 : (rotmg.comparisons epsilon arg).all
          (fun st : Stmt rotmg.Buf rotmg.Call rotmg.RefCall T => !st.isGetStream) = true := by
        unfold rotmg.comparisons
        cases arg.unit_check <;> cases arg.norm_check <;> rfl
      rw [List.all_append, h1, h2]
      rfl
    rw [first_timed_call (rotmg.sig T) env s0 _ _ _ _ _ _ _ _ hc hi ?_ ?_]
    · rw [← List.append_assoc, run_append]
      have key : ∀ b : rotmg.Buf,
          (b = .dd1 ∨ b = .dd2 ∨ b = .dx1 ∨ b = .dy1 ∨ b = .dparams) →
          (run (rotmg.sig T) env (run (rotmg.sig T) env s0
            (rotmg.setup arg ++ rotmg.device_phase arg)).1
            (rotmg.ref_phase arg ++ rotmg.comparisons epsilon arg)).1.mem b =
          (run (rotmg.sig T) env s0 (rotmg.setup arg ++ rotmg.device_phase arg)).1.mem b :=
        fun b hb => run_mem_keeps _ _ _ _ (hcmp b hb) _
      have hfinal : ∀ (m : rotmg.Buf → List T) (st : Stmt rotmg.Buf rotmg.Call rotmg.RefCall T)
          (v1 v2 v3 v4 v5 : List T), m .dd1 = v1 → m .dd2 = v2 → m .dx1 = v3 →
          m .dy1 = v4 → m .dparams = v5 →
          some (Event.mk st (((rotmg.sig T).call_ptrs
            (rotmg.mk_call arg .dd1 .dd2 .dx1 .dy1 .dparams)).map (received m))) =
            some (Event.mk st [v1, v2, v3, v4, v5]) := by
        intro m st v1 v2 v3 v4 v5 h1 h2 h3 h4 h5
        subst h1 h2 h3 h4 h5
        rfl
      exact hfinal _ _ _ _ _ _ _ ((key .dd1 (by simp)).trans rfl)
        ((key .dd2 (by simp)).trans rfl) ((key .dx1 (by simp)).trans rfl)
        ((key .dy1 (by simp)).trans rfl) ((key .dparams (by simp)).trans rfl)
    · rw [List.all_append, List.all_append, hgs]
      rfl
    · rfl

theorem getrf_timing_split {T : Type} [Ring T] (eps : ℚ) (arg : Arguments T)
    (hg : ¬ (arg.N < 0 ∨ arg.N < 0 ∨ arg.lda < arg.N ∨ arg.batch_count < 0))
    (hb : ¬ arg.batch_count = 0) (ht : arg.timing = true) :
    getrf.testing_getrf_strided_batched eps arg =
      ([ Stmt.host_alloc .hA [arg.N, arg.N, arg.lda, getrf.strideA arg, arg.batch_count],
         .host_alloc .hA1 [arg.N, arg.N, arg.lda, getrf.strideA arg, arg.batch_count],
         .host_alloc .hIpiv [getrf.Ipiv_size arg], .host_alloc .hIpiv1 [getrf.Ipiv_size arg],
         .host_alloc .hInfo [arg.batch_count], .host_alloc .hInfo1 [arg.batch_count],
         .device_alloc .dA [arg.N, arg.N, arg.lda, getrf.strideA arg, arg.batch_count],
         .device_alloc .dIpiv [getrf.Ipiv_size arg], .device_alloc .dInfo [arg.batch_count],
         .create_handle,
         .init .hA [arg.N, arg.N, arg.lda, getrf.strideA arg, arg.batch_count],
         .host_loop .hA,
         .copy .dA .hA,
         .store .dIpiv (List.replicate (getrf.Ipiv_size arg).toNat 0),
         .store .dInfo (List.replicate arg.batch_count.toNat 0) ] ++
        (if (arg.unit_check || arg.norm_check) = true then
          [ Stmt.call (some HIPBLAS_STATUS_SUCCESS) ⟨arg.api == .FORTRAN, false⟩
              (getrf.mk_call arg),
            .copy .hA1 .dA, .copy .hIpiv1 .dIpiv, .copy .hInfo1 .dInfo ] ++
          (((List.range arg.batch_count.toNat).map fun b => Stmt.ref (getrf.ref_call arg b)) ++
            ([ Stmt.check ⟨.norm_check_general,
                [arg.N, arg.N, arg.lda, getrf.strideA arg, arg.batch_count], .hA, .hA1, none⟩ ] ++
            (if arg.unit_check = true then
              [ Stmt.check ⟨.unit_check_error, [], .hA, .hA1, some (getrf.tolerance eps)⟩ ]
            else [])))
        else [])) ++
      (Stmt.get_stream :: [] ++
        timing_loop arg.cold_iters arg.iters
          (.call (some HIPBLAS_STATUS_SUCCESS) ⟨arg.api == .FORTRAN, false⟩
            (getrf.mk_call arg)) ++
        [Stmt.get_time, Stmt.log]) := by
  unfold getrf.testing_getrf_strided_batched CHECK_HIPBLAS_ERROR EXPECT_HIPBLAS_STATUS
  simp only [if_neg hg, if_neg hb, ht, if_true, List.cons_append, List.append_assoc,
    List.nil_append, List.singleton_append]

theorem getrf_timing_inputs {T : Type} [Ring T]
    (env : Env getrf.Buf getrf.Call getrf.RefCall T) (s0 : State getrf.Buf T) (eps : ℚ)
    (arg : Arguments T)
    (hg : ¬ (arg.N < 0 ∨ arg.N < 0 ∨ arg.lda < arg.N ∨ arg.batch_count < 0))
    (hb : ¬ arg.batch_count = 0) (ht : arg.timing = true)
    (hc : 0 ≤ arg.cold_iters) (hi : 1 ≤ arg.iters) :
    getrf.timing_inputs env s0 eps arg := by
  unfold getrf.timing_inputs
  refine ⟨(env.gen s0.rng [arg.N, arg.N, arg.lda, getrf.strideA arg, arg.batch_count]).1,
    ?_, ?_, ?_⟩
  · rw [getrf_timing_split eps arg hg hb ht, exec_append, exec_append]
    rfl
  · intro h
    rw [getrf_timing_split eps arg hg hb ht]
    simp only [h, Bool.false_eq_true, if_false, List.append_nil]
    rw [first_timed_call (getrf.sig arg) env s0 _ _ _ _ _ _ _ _ hc hi ?_ ?_]
    · rfl
    · rfl
    · rfl
  · intro h
    rw [getrf_timing_split eps arg hg hb ht]
    simp only [h, if_true]
    have hcmp : ∀ b : getrf.Buf, (b = .dA ∨ b = .dIpiv ∨ b = .dInfo) →
        ((((List.range arg.batch_count.toNat).map fun b => Stmt.ref (getrf.ref_call arg b)) ++
          ([ Stmt.check ⟨.norm_check_general,
              [arg.N, arg.N, arg.lda, getrf.strideA arg, arg.batch_count], .hA, .hA1, none⟩ ] ++
          (if arg.unit_check = true then
            [ Stmt.check ⟨.unit_check_error, [], .hA, .hA1, some (getrf.tolerance eps)⟩ ]
          else [])) : List (Stmt getrf.Buf getrf.Call getrf.RefCall T))).all
          (Stmt.keeps (getrf.sig arg) b) = true := by
      intro b hb
      have h1 : ((List.range arg.batch_count.toNat).map
          fun b => (Stmt.ref (getrf.ref_call arg b) :
            Stmt getrf.Buf getrf.Call getrf.RefCall T)).all
          (Stmt.keeps (getrf.sig arg) b) = true := by
        rcases hb with rfl | rfl | rfl <;> exact all_map_true _ _ _ (by intro n; rfl)
      rw [List.all_append, h1]
      cases arg.unit_check <;> rfl
    have hgs : ((((List.range arg.batch_count.toNat).map
          fun b => Stmt.ref (getrf.ref_call arg b)) ++
          ([ Stmt.check ⟨.norm_check_general,
              [arg.N, arg.N, arg.lda, getrf.strideA arg, arg.batch_count], .hA, .hA1, none⟩ ] ++
          (if arg.unit_check = true then
            [ Stmt.check ⟨.unit_check_error, [], .hA, .hA1, some (getrf.tolerance eps)⟩ ]
          else [])) : List (Stmt getrf.Buf getrf.Call getrf.RefCall T))).all
          (fun st => !st.isGetStream) = true := by
      rw [List.all_append, all_map_true _ _ _ (by intro n; rfl)]
      cases arg.unit_check <;> rfl
    rw [first_timed_call (getrf.sig arg) env s0 _ _ _ _ _ _ _ _ hc hi ?_ ?_]
    · rw [← List.append_assoc, run_append]
      have key : ∀ (s : State getrf.Buf T) (b : getrf.Buf),
          (b = .dA ∨ b = .dIpiv ∨ b = .dInfo) →
          (run (getrf.sig arg) env s
            (((List.range arg.batch_count.toNat).map
              fun b => Stmt.ref (getrf.ref_call arg b)) ++
            ([ Stmt.check ⟨.norm_check_general,
                [arg.N, arg.N, arg.lda, getrf.strideA arg, arg.batch_count], .hA, .hA1,
                none⟩ ] ++
            (if arg.unit_check = true then
              [ Stmt.check ⟨.unit_check_error, [], .hA, .hA1, some (getrf.tolerance eps)⟩ ]
            else [])))).1.mem b = s.mem b :=
        fun s b hb => run_mem_keeps _ _ _ _ (hcmp b hb) s
      have hfinal : ∀ (m : getrf.Buf → List T)
          (st : Stmt getrf.Buf getrf.Call getrf.RefCall T)
          (v1 v2 v3 : List T), m .dA = v1 → m .dIpiv = v2 → m .dInfo = v3 →
          some (Event.mk st (((getrf.sig arg).call_ptrs (getrf.mk_call arg)).map
            (received m))) = some (Event.mk st [v1, v2, v3]) := by
        intro m st v1 v2 v3 h1 h2 h3
        subst h1 h2 h3
        rfl
      exact hfinal _ _ _ _ _ ((key _ .dA (by simp)).trans rfl)
        ((key _ .dIpiv (by simp)).trans rfl) ((key _ .dInfo (by simp)).trans rfl)
    · rw [List.all_append, List.all_append, hgs]
      rfl
    · rfl

/-- C17 (corrected): with timing requested (`cold_iters ≥ 0`, `iters ≥ 1`), `testing_hemm`,
`testing_rotmg_strided_batched` and `testing_getrf_strided_batched` hand the first invocation
of the timing loop the initially generated data (for getrf the generated matrices after the
scaling loop) only when the correctness phase did not run. When it ran, the overwritten
device buffers are not restored: `dC`, the five rotmg device arrays and `dA` hold what the
last device invocation of the correctness phase wrote. -/
theorem timing_inputs_not_restored {T : Type} [Ring T]
    (envh : Env hemm.Buf hemm.Call (hemm.RefCall T) T) (sh : State hemm.Buf T)
    (envr : Env rotmg.Buf rotmg.Call rotmg.RefCall T) (sr : State rotmg.Buf T)
    (envg : Env getrf.Buf getrf.Call getrf.RefCall T) (sg : State getrf.Buf T)
    (cv : Conv) (epsilon : ℚ) (arg : Arguments T)
    (ht : arg.timing = true) (hc : 0 ≤ arg.cold_iters) (hi : 1 ≤ arg.iters) :
    (¬ (arg.M < 0 ∨ arg.N < 0 ∨ arg.ldc < arg.M ∨ arg.ldb < arg.M ∨ arg.lda < hemm.K cv arg) →
      hemm.timing_inputs envh sh cv arg) ∧
    (1 ≤ arg.batch_count → rotmg.timing_inputs envr sr epsilon arg) ∧
    (¬ (arg.N < 0 ∨ arg.N < 0 ∨ arg.lda < arg.N ∨ arg.batch_count < 0) →
      ¬ arg.batch_count = 0 → getrf.timing_inputs envg sg epsilon arg) :=
  ⟨fun hg => hemm_timing_inputs envh sh cv arg hg ht hc hi,
    fun hb => rotmg_timing_inputs envr sr epsilon arg hb ht hc hi,
    fun hg hb => getrf_timing_inputs envg sg epsilon arg hg hb ht hc hi⟩

/-- The three routines at the sample record with timing on, where every guard is passed. -/
theorem timing_inputs_not_restored_witness :
    (sample_args_timing.timing = true ∧ 0 ≤ sample_args_timing.cold_iters ∧
      1 ≤ sample_args_timing.iters) ∧
    ((¬ (sample_args_timing.M < 0 ∨ sample_args_timing.N < 0 ∨
        sample_args_timing.ldc < sample_args_timing.M ∨
        sample_args_timing.ldb < sample_args_timing.M ∨
        sample_args_timing.lda < hemm.K sample_conv sample_args_timing) →
      hemm.timing_inputs (sample_env hemm.Buf hemm.Call (hemm.RefCall Int))
        (sample_state hemm.Buf) sample_conv sample_args_timing) ∧
    (1 ≤ sample_args_timing.batch_count →
      rotmg.timing_inputs (sample_env rotmg.Buf rotmg.Call rotmg.RefCall)
        (sample_state rotmg.Buf) 1 sample_args_timing) ∧
    (¬ (sample_args_timing.N < 0 ∨ sample_args_timing.N < 0 ∨
        sample_args_timing.lda < sample_args_timing.N ∨ sample_args_timing.batch_count < 0) →
      ¬ sample_args_timing.batch_count = 0 →
      getrf.timing_inputs (sample_env getrf.Buf getrf.Call getrf.RefCall)
        (sample_state getrf.Buf) 1 sample_args_timing)) :=
  ⟨by decide,
    timing_inputs_not_restored _ _ _ _ _ _ sample_conv 1 sample_args_timing rfl (by decide)
      (by decide)⟩

/-- C17 as stated fails: at the sample record with timing on (the unit check runs), the
generated `hC_host` is `[2, 5]`, but the first invocation of the timing loop of `testing_hemm`
receives in `dC` the `[1]` written by the invocation in device pointer mode. -/
theorem hemm_timing_sees_device_output :
    (sample_args_timing.unit_check = true ∧ sample_args_timing.timing = true) ∧
    generated .hC_host (exec (hemm.sig Int) (sample_env hemm.Buf hemm.Call (hemm.RefCall Int))
      (sample_state hemm.Buf) (hemm.testing_hemm sample_conv sample_args_timing)) =
        some [2, 5] ∧
    (timed_calls (exec (hemm.sig Int) (sample_env hemm.Buf hemm.Call (hemm.RefCall Int))
      (sample_state hemm.Buf) (hemm.testing_hemm sample_conv sample_args_timing))).head?.map
        (fun e => e.data.getD 4 []) = some [1] := by
  decide

/-! ## Return values and clean-up of `testing_dot` and `testing_spr2_batched` -/

theorem dot_late_count {T : Type} (status : hipblasStatus_t) (argus : Arguments T)
    (q : Stmt dot.Buf dot.Call dot.RefCall T → Bool)
    (hr : ∀ r, q (.ref r) = false) (hk : ∀ k, q (.check k) = false)
    (hcp : ∀ d s, q (.copy d s) = false)
    (hg : ¬ (argus.N < 0 ∨ argus.incx < 0 ∨ argus.incy < 0)) :
    (dot.testing_dot status argus).1.countP q =
      (dot.setup argus).countP q + dot.cleanup.countP q := by
  have hN : ¬ argus.N < 0 := fun h => hg (Or.inl h)
  have hx : ¬ argus.incx < 0 := fun h => hg (Or.inr (Or.inl h))
  have hy : ¬ argus.incy < 0 := fun h => hg (Or.inr (Or.inr h))
  unfold dot.testing_dot
  simp only [if_neg hN, if_neg hx, if_neg hy]
  by_cases hs : status ≠ HIPBLAS_STATUS_SUCCESS
  · rw [if_pos hs, List.countP_append]
  · rw [if_neg hs]
    cases argus.unit_check <;> cases argus.norm_check <;>
      simp [List.countP_append, List.countP_cons, hr, hk, hcp, dot.device_pointer]

/-- C18: `testing_dot` returns `HIPBLAS_STATUS_INVALID_VALUE` having created no handle and
allocated nothing exactly when `N < 0`, `incx < 0` or `incy < 0`; otherwise it creates the
handle, issues the one `hipblasDot` call and returns the status of that call, whatever the
check flags are. -/
theorem dot_return_value {T : Type} (status : hipblasStatus_t) (argus : Arguments T) :
    (((dot.testing_dot status argus).2 = HIPBLAS_STATUS_INVALID_VALUE ∧
        (dot.testing_dot status argus).1.countP Stmt.isCreateHandle = 0 ∧
        (dot.testing_dot status argus).1.countP Stmt.isAlloc = 0) ↔
      (argus.N < 0 ∨ argus.incx < 0 ∨ argus.incy < 0)) ∧
    ((argus.N < 0 ∨ argus.incx < 0 ∨ argus.incy < 0) →
      (dot.testing_dot status argus).1 = []) ∧
    (¬ (argus.N < 0 ∨ argus.incx < 0 ∨ argus.incy < 0) →
      (dot.testing_dot status argus).2 = status ∧
      (dot.testing_dot status argus).1.countP Stmt.isCreateHandle = 1 ∧
      (dot.testing_dot status argus).1.countP Stmt.isCall = 1) ∧
    (∀ argus2 : Arguments T, argus2.N = argus.N → argus2.incx = argus.incx →
      argus2.incy = argus.incy →
      (dot.testing_dot status argus2).2 = (dot.testing_dot status argus).2) := by
  have hearly : (argus.N < 0 ∨ argus.incx < 0 ∨ argus.incy < 0) →
      dot.testing_dot status argus = ([], HIPBLAS_STATUS_INVALID_VALUE) := by
    intro hg
    unfold dot.testing_dot
    by_cases hN : argus.N < 0
    · simp only [if_pos hN]
    · by_cases hx : argus.incx < 0
      · simp only [if_neg hN, if_pos hx]
      · have hy : argus.incy < 0 := by tauto
        simp only [if_neg hN, if_neg hx, if_pos hy]
  have hret : ∀ a : Arguments T, ¬ (a.N < 0 ∨ a.incx < 0 ∨ a.incy < 0) →
      (dot.testing_dot status a).2 = status := by
    intro a hg
    have hN : ¬ a.N < 0 := fun h => hg (Or.inl h)
    have hx : ¬ a.incx < 0 := fun h => hg (Or.inr (Or.inl h))
    have hy : ¬ a.incy < 0 := fun h => hg (Or.inr (Or.inr h))
    unfold dot.testing_dot
    simp only [if_neg hN, if_neg hx, if_neg hy]
    by_cases hs : status ≠ HIPBLAS_STATUS_SUCCESS
    · rw [if_pos hs]
    · rw [if_neg hs]
      exact (not_not.mp hs).symm
  have hlate : ¬ (argus.N < 0 ∨ argus.incx < 0 ∨ argus.incy < 0) →
      (dot.testing_dot status argus).1.countP Stmt.isCreateHandle = 1 ∧
      (dot.testing_dot status argus).1.countP Stmt.isCall = 1 := by
    intro hg
    rw [dot_late_count status argus _ (fun _ => rfl) (fun _ => rfl) (fun _ _ => rfl) hg,
      dot_late_count status argus _ (fun _ => rfl) (fun _ => rfl) (fun _ _ => rfl) hg]
    exact ⟨rfl, rfl⟩
  refine ⟨⟨?_, ?_⟩, ?_, ?_, ?_⟩
  · rintro ⟨-, hcr, -⟩
    by_contra hg
    rw [(hlate hg).1] at hcr
    exact absurd hcr (by decide)
  · intro hg
    rw [hearly hg]
    exact ⟨rfl, rfl, rfl⟩
  · intro hg
    rw [hearly hg]
  · intro hg
    exact ⟨hret argus hg, hlate hg⟩
  · intro a hN hx hy
    by_cases hg : (argus.N < 0 ∨ argus.incx < 0 ∨ argus.incy < 0)
    · rw [hearly hg]
      have hg2 : a.N < 0 ∨ a.incx < 0 ∨ a.incy < 0 := by rw [hN, hx, hy]; exact hg
      unfold dot.testing_dot
      by_cases h1 : a.N < 0
      · simp only [if_pos h1]
      · by_cases h2 : a.incx < 0
        · simp only [if_neg h1, if_pos h2]
        · have h3 : a.incy < 0 := by tauto
          simp only [if_neg h1, if_neg h2, if_pos h3]
    · rw [hret argus hg, hret a (by rw [hN, hx, hy]; exact hg)]

theorem spr2_batched_late_count {T : Type} (cv : Conv) (is_null : spr2_batched.Buf → Bool)
    (status : hipblasStatus_t) (argus : Arguments T)
    (q : Stmt spr2_batched.Buf spr2_batched.Call (spr2_batched.RefCall T) T → Bool)
    (hst : ∀ b v, q (.store b v) = false) (hha : ∀ b d, q (.host_alloc b d) = false)
    (hin : ∀ b d, q (.init b d) = false) (hsr : ∀ n, q (.srand n) = false)
    (hcp : ∀ d s, q (.copy d s) = false) (hgt : q .get_time = false)
    (hcl : ∀ e f c, q (.call e f c) = false)
    (hr : ∀ r, q (.ref r) = false) (hk : ∀ k, q (.check k) = false)
    (hg : ¬ (argus.N < 0 ∨ argus.incx = 0 ∨ argus.incy = 0 ∨ argus.batch_count < 0))
    (hb : ¬ argus.batch_count = 0) :
    (spr2_batched.testing_spr2_batched cv is_null status argus).1.countP q =
      (spr2_batched.allocation argus).countP q + (if q .destroy_handle then 1 else 0) := by
  have hinit : ∀ b, (spr2_batched.init_batch argus b).countP q = 0 := by
    intro b
    simp [spr2_batched.init_batch, List.countP_cons, hha, hsr, hin, hcp]
  have hgen : (spr2_batched.generate_and_call cv argus).countP q = 0 := by
    rw [spr2_batched_generate_countP cv argus q hinit hgt hcp (hsr 1)]
    simp [spr2_batched.the_call, hcl]
  have hver : (spr2_batched.verify cv argus).countP q = 0 := by
    unfold spr2_batched.verify spr2_batched.copy_back spr2_batched.ref_phase
      spr2_batched.compare
    rw [List.countP_append, countP_map_zero q _ _ (fun _ => hcp _ _)]
    cases argus.unit_check
    · rfl
    · simp only [if_true, List.countP_append, List.countP_cons, List.countP_nil,
        countP_map_zero q _ _ (fun _ => hr _), hk]
      rfl
  unfold spr2_batched.testing_spr2_batched
  simp only [if_neg hg, if_neg hb]
  cases spr2_batched.alloc_failed is_null argus
  · by_cases hs : status ≠ HIPBLAS_STATUS_SUCCESS
    · simp [hs, List.countP_append, List.countP_cons, hgen, hst]
    · simp [hs, List.countP_append, List.countP_cons, hgen, hver, hst]
  · simp [List.countP_append, List.countP_cons, hst]

/-- C19: the return value of `testing_spr2_batched`: `HIPBLAS_STATUS_INVALID_VALUE` when
`N < 0`, `incx = 0`, `incy = 0` or `batch_count < 0`; otherwise `HIPBLAS_STATUS_SUCCESS` when
`batch_count = 0`; otherwise `HIPBLAS_STATUS_ALLOC_FAILED` when the allocation check fails;
otherwise the status of the operation when that is not success; otherwise
`HIPBLAS_STATUS_SUCCESS`. On the first two paths no handle is created and the operation is
never invoked. -/
theorem spr2_batched_return_value {T : Type} (cv : Conv) (is_null : spr2_batched.Buf → Bool)
    (status : hipblasStatus_t) (argus : Arguments T) :
    ((argus.N < 0 ∨ argus.incx = 0 ∨ argus.incy = 0 ∨ argus.batch_count < 0) →
      (spr2_batched.testing_spr2_batched cv is_null status argus).2 =
        HIPBLAS_STATUS_INVALID_VALUE) ∧
    (¬ (argus.N < 0 ∨ argus.incx = 0 ∨ argus.incy = 0 ∨ argus.batch_count < 0) →
      (argus.batch_count = 0 →
        (spr2_batched.testing_spr2_batched cv is_null status argus).2 =
          HIPBLAS_STATUS_SUCCESS) ∧
      (argus.batch_count ≠ 0 →
        (spr2_batched.alloc_failed is_null argus = true →
          (spr2_batched.testing_spr2_batched cv is_null status argus).2 =
            HIPBLAS_STATUS_ALLOC_FAILED) ∧
        (spr2_batched.alloc_failed is_null argus = false →
          (status ≠ HIPBLAS_STATUS_SUCCESS →
            (spr2_batched.testing_spr2_batched cv is_null status argus).2 = status) ∧
          (status = HIPBLAS_STATUS_SUCCESS →
            (spr2_batched.testing_spr2_batched cv is_null status argus).2 =
              HIPBLAS_STATUS_SUCCESS)))) ∧
    (((argus.N < 0 ∨ argus.incx = 0 ∨ argus.incy = 0 ∨ argus.batch_count < 0) ∨
        argus.batch_count = 0) →
      (spr2_batched.testing_spr2_batched cv is_null status argus).1 =
        [Stmt.store .alpha [argus.alpha]] ∧
      (spr2_batched.testing_spr2_batched cv is_null status argus).1.countP
        Stmt.isCreateHandle = 0 ∧
      (spr2_batched.testing_spr2_batched cv is_null status argus).1.countP Stmt.isCall = 0) := by
  refine ⟨?_, ?_, ?_⟩
  · intro hg
    unfold spr2_batched.testing_spr2_batched
    simp only [if_pos hg]
  · intro hg
    refine ⟨?_, ?_⟩
    · intro hb
      unfold spr2_batched.testing_spr2_batched
      simp only [if_neg hg, if_pos hb]
    · intro hb
      refine ⟨?_, ?_⟩
      · intro ha
        unfold spr2_batched.testing_spr2_batched
        simp only [if_neg hg, if_neg hb, ha, if_true]
      · intro ha
        refine ⟨?_, ?_⟩
        · intro hs
          unfold spr2_batched.testing_spr2_batched
          simp only [if_neg hg, if_neg hb, ha, Bool.false_eq_true, if_false, if_pos hs]
        · intro hs
          unfold spr2_batched.testing_spr2_batched
          simp only [if_neg hg, if_neg hb, ha, Bool.false_eq_true, if_false, hs, ne_eq,
            not_true_eq_false, if_false]
  · intro h
    have hp : (spr2_batched.testing_spr2_batched cv is_null status argus).1 =
        [Stmt.store .alpha [argus.alpha]] := by
      unfold spr2_batched.testing_spr2_batched
      by_cases hg : (argus.N < 0 ∨ argus.incx = 0 ∨ argus.incy = 0 ∨ argus.batch_count < 0)
      · simp only [if_pos hg]
      · have hb : argus.batch_count = 0 := by tauto
        simp only [if_neg hg, if_pos hb]
    rw [hp]
    exact ⟨rfl, rfl, rfl⟩

/-- C20: taking every `CHECK_HIP_ERROR` to succeed, `testing_dot` and `testing_spr2_batched`
destroy the handle exactly once on every path that created it (every path past the argument
checks) and never on a path that did not; on every path of `testing_dot` past the allocation
(both late returns) each of `dx`, `dy` and `d_rocblas_result` is allocated once and released
once, and on the early path nothing is allocated or released. -/
theorem handles_and_buffers_released {T : Type} (cv : Conv)
    (is_null : spr2_batched.Buf → Bool) (status : hipblasStatus_t) (argus : Arguments T) :
    ((dot.testing_dot status argus).1.countP Stmt.isDestroyHandle =
        (dot.testing_dot status argus).1.countP Stmt.isCreateHandle ∧
      (dot.testing_dot status argus).1.countP Stmt.isCreateHandle =
        if argus.N < 0 ∨ argus.incx < 0 ∨ argus.incy < 0 then 0 else 1) ∧
    (∀ b ∈ [dot.Buf.dx, dot.Buf.dy, dot.Buf.d_rocblas_result],
      (dot.testing_dot status argus).1.countP (Stmt.isFreeOf b) =
        (dot.testing_dot status argus).1.countP (Stmt.isDeviceAllocOf b) ∧
      (dot.testing_dot status argus).1.countP (Stmt.isDeviceAllocOf b) =
        if argus.N < 0 ∨ argus.incx < 0 ∨ argus.incy < 0 then 0 else 1) ∧
    ((spr2_batched.testing_spr2_batched cv is_null status argus).1.countP
        Stmt.isDestroyHandle =
      (spr2_batched.testing_spr2_batched cv is_null status argus).1.countP
        Stmt.isCreateHandle ∧
      (spr2_batched.testing_spr2_batched cv is_null status argus).1.countP
        Stmt.isCreateHandle =
        if (argus.N < 0 ∨ argus.incx = 0 ∨ argus.incy = 0 ∨ argus.batch_count < 0) ∨
            argus.batch_count = 0 then 0 else 1) := by
  have hd : ∀ q : Stmt dot.Buf dot.Call dot.RefCall T → Bool,
      (∀ r, q (.ref r) = false) → (∀ k, q (.check k) = false) →
      (∀ d s, q (.copy d s) = false) →
      (dot.testing_dot status argus).1.countP q =
        if argus.N < 0 ∨ argus.incx < 0 ∨ argus.incy < 0 then 0
        else (dot.setup argus).countP q + dot.cleanup.countP q := by
    intro q h1 h2 h3
    by_cases hg : (argus.N < 0 ∨ argus.incx < 0 ∨ argus.incy < 0)
    · rw [if_pos hg]
      have : (dot.testing_dot status argus).1 = [] := by
        unfold dot.testing_dot
        by_cases hN : argus.N < 0
        · simp only [if_pos hN]
        · by_cases hx : argus.incx < 0
          · simp only [if_neg hN, if_pos hx]
          · have hy : argus.incy < 0 := by tauto
            simp only [if_neg hN, if_neg hx, if_pos hy]
      rw [this]
      rfl
    · rw [if_neg hg]
      exact dot_late_count status argus q h1 h2 h3 hg
  have hs : ∀ q : Stmt spr2_batched.Buf spr2_batched.Call (spr2_batched.RefCall T) T → Bool,
      (∀ b v, q (.store b v) = false) → (∀ b d, q (.host_alloc b d) = false) →
      (∀ b d, q (.init b d) = false) → (∀ n, q (.srand n) = false) →
      (∀ d s, q (.copy d s) = false) → q .get_time = false →
      (∀ e f c, q (.call e f c) = false) →
      (∀ r, q (.ref r) = false) → (∀ k, q (.check k) = false) →
      (spr2_batched.testing_spr2_batched cv is_null status argus).1.countP q =
        if (argus.N < 0 ∨ argus.incx = 0 ∨ argus.incy = 0 ∨ argus.batch_count < 0) ∨
            argus.batch_count = 0 then 0
        else (spr2_batched.allocation argus).countP q +
          (if q .destroy_handle then 1 else 0) := by
    intro q h1 h2 h3 h4 h5 h6 h7 h8 h9
    by_cases hg : (argus.N < 0 ∨ argus.incx = 0 ∨ argus.incy = 0 ∨ argus.batch_count < 0) ∨
        argus.batch_count = 0
    · rw [if_pos hg]
      have : (spr2_batched.testing_spr2_batched cv is_null status argus).1 =
          [Stmt.store .alpha [argus.alpha]] := by
        unfold spr2_batched.testing_spr2_batched
        by_cases hg1 : (argus.N < 0 ∨ argus.incx = 0 ∨ argus.incy = 0 ∨ argus.batch_count < 0)
        · simp only [if_pos hg1]
        · have hb : argus.batch_count = 0 := by tauto
          simp only [if_neg hg1, if_pos hb]
      rw [this]
      simp [List.countP_cons, h1]
    · rw [if_neg hg]
      exact spr2_batched_late_count cv is_null status argus q h1 h2 h3 h4 h5 h6 h7 h8 h9
        (fun h => hg (Or.inl h)) (fun h => hg (Or.inr h))
  refine ⟨⟨?_, ?_⟩, ?_, ?_, ?_⟩
  · rw [hd _ (fun _ => rfl) (fun _ => rfl) (fun _ _ => rfl),
      hd _ (fun _ => rfl) (fun _ => rfl) (fun _ _ => rfl)]
    rfl
  · rw [hd _ (fun _ => rfl) (fun _ => rfl) (fun _ _ => rfl)]
    rfl
  · intro b hb
    rw [hd _ (fun _ => rfl) (fun _ => rfl) (fun _ _ => rfl),
      hd _ (fun _ => rfl) (fun _ => rfl) (fun _ _ => rfl)]
    simp only [List.mem_cons, List.mem_singleton, List.mem_nil_iff, or_false] at hb
    rcases hb with rfl | rfl | rfl <;> exact ⟨rfl, rfl⟩
  · rw [hs _ (fun _ _ => rfl) (fun _ _ => rfl) (fun _ _ => rfl) (fun _ => rfl)
        (fun _ _ => rfl) rfl (fun _ _ _ => rfl) (fun _ => rfl) (fun _ => rfl),
      hs _ (fun _ _ => rfl) (fun _ _ => rfl) (fun _ _ => rfl) (fun _ => rfl)
        (fun _ _ => rfl) rfl (fun _ _ _ => rfl) (fun _ => rfl) (fun _ => rfl)]
    rfl
  · rw [hs _ (fun _ _ => rfl) (fun _ _ => rfl) (fun _ _ => rfl) (fun _ => rfl)
        (fun _ _ => rfl) rfl (fun _ _ _ => rfl) (fun _ => rfl) (fun _ => rfl)]
    rfl

/-! ## Vector lengths of gbmv -/

/-- C25: the guard of `testing_hemm` does not bound the row count with which `hA` is
initialised. With `side` left and `1 ≤ M ≤ lda < N`, `ldb ≥ M`, `ldc ≥ M` the record passes the
guard, `rows = N` exceeds `lda`, and the largest index of the `rows`-by-`K` block with leading
dimension `lda` is at least `A_size = lda * K` (such a record exists); the data generation of
`hA` is asked for exactly this shape on a buffer of `A_size` elements. For every accepted
record with `rows ≤ lda` and `K ≥ 1` that index is below `A_size`. -/
theorem hemm_guard_does_not_bound_rows {T : Type} (cv : Conv) (arg : Arguments T) :
    (cv.char2hipblas_side arg.side = .HIPBLAS_SIDE_LEFT → 1 ≤ arg.M → arg.M ≤ arg.lda →
      arg.lda < arg.N → arg.M ≤ arg.ldb → arg.M ≤ arg.ldc → arg.N < 2 ^ 64 →
      arg.lda * arg.M < 2 ^ 64 →
      ¬ (arg.M < 0 ∨ arg.N < 0 ∨ arg.ldc < arg.M ∨ arg.ldb < arg.M ∨ arg.lda < hemm.K cv arg) ∧
      hemm.rows cv arg = arg.N ∧ hemm.K cv arg = arg.M ∧
      hemm.A_size cv arg = arg.lda * hemm.K cv arg ∧
      arg.lda < hemm.rows cv arg ∧
      hemm.A_size cv arg ≤ last_index (hemm.rows cv arg) (hemm.K cv arg) arg.lda) ∧
    (∃ a : Arguments Int,
      ¬ (a.M < 0 ∨ a.N < 0 ∨ a.ldc < a.M ∨ a.ldb < a.M ∨ a.lda < hemm.K sample_conv a) ∧
      a.lda < hemm.rows sample_conv a ∧
      hemm.A_size sample_conv a ≤ last_index (hemm.rows sample_conv a) (hemm.K sample_conv a)
        a.lda) ∧
    (¬ (arg.M < 0 ∨ arg.N < 0 ∨ arg.ldc < arg.M ∨ arg.ldb < arg.M ∨ arg.lda < hemm.K cv arg) →
      Stmt.host_alloc .hA [hemm.A_size cv arg] ∈ hemm.testing_hemm cv arg ∧
      Stmt.init .hA [hemm.rows cv arg, hemm.K cv arg, arg.lda, 0, 1] ∈
        hemm.testing_hemm cv arg) ∧
    (¬ (arg.M < 0 ∨ arg.N < 0 ∨ arg.ldc < arg.M ∨ arg.ldb < arg.M ∨ arg.lda < hemm.K cv arg) →
      hemm.rows cv arg ≤ arg.lda → 1 ≤ hemm.K cv arg → arg.lda * hemm.K cv arg < 2 ^ 64 →
      last_index (hemm.rows cv arg) (hemm.K cv arg) arg.lda < hemm.A_size cv arg) := by
  refine ⟨?_, ⟨sample_args_wide, by decide⟩, ?_, ?_⟩
  · intro hside hM hMl hlN hb hc hN64 hA64
    have hK : hemm.K cv arg = arg.M := by simp only [hemm.K, hside, if_true]
    have hrows : hemm.rows cv arg = arg.N := by
      simp only [hemm.rows, hside, if_true]
      exact size_t_of_range _ (by omega) hN64
    have hl : size_t arg.lda = arg.lda := size_t_of_range _ (by omega) (by omega)
    have hm : size_t arg.M = arg.M := size_t_of_range _ (by omega) (by omega)
    have hA : hemm.A_size cv arg = arg.lda * arg.M := by
      simp only [hemm.A_size, hK, hl, hm]
      exact size_t_of_range _ (mul_nonneg (by omega) (by omega)) hA64
    refine ⟨?_, hrows, hK, ?_, ?_, ?_⟩
    · rw [hK]
      omega
    · rw [hA, hK]
    · rw [hrows]
      exact hlN
    · rw [hA, hrows, hK, last_index]
      nlinarith
  · intro hg
    unfold hemm.testing_hemm
    rw [if_neg hg]
    constructor
    · simp [hemm.setup]
    · simp [hemm.setup]
  · intro hg hr hK h64
    have hKl : hemm.K cv arg ≤ arg.lda := by
      by_contra h
      exact hg (Or.inr (Or.inr (Or.inr (Or.inr (by omega)))))
    have hl : size_t arg.lda = arg.lda := size_t_of_range _ (by omega) (by nlinarith)
    have hk : size_t (hemm.K cv arg) = hemm.K cv arg :=
      size_t_of_range _ (by omega) (by nlinarith)
    have hA : hemm.A_size cv arg = arg.lda * hemm.K cv arg := by
      unfold hemm.A_size
      rw [hl, hk]
      exact size_t_of_range _ (by nlinarith) h64
    rw [hA, last_index]
    nlinarith

/-- C26 (corrected): in `testing_dot`, on every record that passes the sanity check, the host
and device buffers of `x` are allocated with `sizeX = N * incx` elements and those of `y` with
`sizeY = N * incy`; for `N ≥ 1` the last strided index `(N - 1) * incx` is below `sizeX`
exactly when `incx ≥ 1`, and likewise for `y`. A zero increment passes the check and gives a
buffer of zero elements, while the one `hipblasDot` call is passed `N` and the zero
increment; the `cblas_dot` call is passed them too, but it is made only when the call
returned success and a check flag is set. -/
theorem dot_buffers_and_last_index {T : Type} (status : hipblasStatus_t) (argus : Arguments T) :
    (¬ (argus.N < 0 ∨ argus.incx < 0 ∨ argus.incy < 0) →
      ((dot.testing_dot status argus).1.filter Stmt.isAlloc =
        [ .host_alloc .hx [dot.sizeX argus], .host_alloc .hy [dot.sizeY argus],
          .device_alloc .dx [dot.sizeX argus], .device_alloc .dy [dot.sizeY argus],
          .device_alloc .d_rocblas_result [1] ]) ∧
      ((dot.testing_dot status argus).1.filter Stmt.isCall =
        [ .call none ⟨false, false⟩
            { handle := .handle, N := argus.N, x := .to .dx, incx := argus.incx,
              y := .to .dy, incy := argus.incy, result := .to .d_rocblas_result } ]) ∧
      ((dot.testing_dot status argus).1.filter Stmt.isRef =
        if status = HIPBLAS_STATUS_SUCCESS ∧ (argus.unit_check || argus.norm_check) = true then
          [ .ref { N := argus.N, x := .to .hx, incx := argus.incx, y := .to .hy,
                   incy := argus.incy, result := .to .cpu_result } ]
        else []) ∧
      (1 ≤ argus.N →
        ((argus.N - 1) * argus.incx < dot.sizeX argus ↔ 1 ≤ argus.incx) ∧
        ((argus.N - 1) * argus.incy < dot.sizeY argus ↔ 1 ≤ argus.incy))) ∧
    (0 ≤ argus.N → argus.incx = 0 → 0 ≤ argus.incy →
      ¬ (argus.N < 0 ∨ argus.incx < 0 ∨ argus.incy < 0) ∧ dot.sizeX argus = 0) ∧
    (0 ≤ argus.N → 0 ≤ argus.incx → argus.incy = 0 →
      ¬ (argus.N < 0 ∨ argus.incx < 0 ∨ argus.incy < 0) ∧ dot.sizeY argus = 0) := by
  refine ⟨?_, ?_, ?_⟩
  · intro hg
    have hN : ¬ argus.N < 0 := fun h => hg (Or.inl h)
    have hx : ¬ argus.incx < 0 := fun h => hg (Or.inr (Or.inl h))
    have hy : ¬ argus.incy < 0 := fun h => hg (Or.inr (Or.inr h))
    refine ⟨?_, ?_, ?_, ?_⟩
    · unfold dot.testing_dot
      simp only [if_neg hN, if_neg hx, if_neg hy]
      by_cases hs : status ≠ HIPBLAS_STATUS_SUCCESS
      · rw [if_pos hs]
        rfl
      · rw [if_neg hs]
        cases argus.unit_check <;> cases argus.norm_check <;> rfl
    · unfold dot.testing_dot
      simp only [if_neg hN, if_neg hx, if_neg hy]
      by_cases hs : status ≠ HIPBLAS_STATUS_SUCCESS
      · rw [if_pos hs]
        rfl
      · rw [if_neg hs]
        cases argus.unit_check <;> cases argus.norm_check <;> rfl
    · unfold dot.testing_dot
      simp only [if_neg hN, if_neg hx, if_neg hy]
      by_cases hs : status ≠ HIPBLAS_STATUS_SUCCESS
      · rw [if_pos hs, if_neg (fun h => hs h.1)]
        rfl
      · rw [if_neg hs]
        have hs' : status = HIPBLAS_STATUS_SUCCESS := not_not.mp hs
        subst hs'
        cases argus.unit_check <;> cases argus.norm_check <;> rfl
    · intro h1
      unfold dot.sizeX dot.sizeY
      constructor
      · constructor
        · intro h
          nlinarith
        · intro h
          nlinarith
      · constructor
        · intro h
          nlinarith
        · intro h
          nlinarith
  · intro hN hx hy
    refine ⟨?_, ?_⟩
    · omega
    · simp [dot.sizeX, hx]
  · intro hN hx hy
    refine ⟨?_, ?_⟩
    · omega
    · simp [dot.sizeY, hy]

/-! ## In-place host loops, element by element -/

theorem spr2_batched_init_batch_mem {T : Type}
    (env : Env spr2_batched.Buf spr2_batched.Call (spr2_batched.RefCall T) T)
    (s : State spr2_batched.Buf T) (argus : Arguments T) (m : Nat) :
    (run (spr2_batched.sig T) env s (spr2_batched.init_batch argus m)).1.mem (.hA m) =
      (env.gen (env.seed 1) [1, spr2_batched.A_size argus, 1]).1 ∧
    (run (spr2_batched.sig T) env s (spr2_batched.init_batch argus m)).1.mem (.hx m) =
      (env.gen (env.gen (env.seed 1) [1, spr2_batched.A_size argus, 1]).2
        [1, argus.N, if argus.incx < 0 then -argus.incx else argus.incx]).1 ∧
    (run (spr2_batched.sig T) env s (spr2_batched.init_batch argus m)).1.mem (.hy m) =
      (env.gen (env.gen (env.gen (env.seed 1) [1, spr2_batched.A_size argus, 1]).2
        [1, argus.N, if argus.incx < 0 then -argus.incx else argus.incx]).2
        [1, argus.N, if argus.incy < 0 then -argus.incy else argus.incy]).1 ∧
    (run (spr2_batched.sig T) env s (spr2_batched.init_batch argus m)).1.mem (.hA_cpu m) =
      (env.gen (env.seed 1) [1, spr2_batched.A_size argus, 1]).1 := by
  simp [spr2_batched.init_batch, run, step, Function.update_apply]

theorem spr2_batched_init_batch_keeps {T : Type} (argus : Arguments T) (m b : Nat)
    (hne : b ≠ m) :
    (spr2_batched.init_batch argus m).all (Stmt.keeps (spr2_batched.sig T) (.hA b)) = true ∧
    (spr2_batched.init_batch argus m).all (Stmt.keeps (spr2_batched.sig T) (.hx b)) = true ∧
    (spr2_batched.init_batch argus m).all (Stmt.keeps (spr2_batched.sig T) (.hy b)) = true ∧
    (spr2_batched.init_batch argus m).all (Stmt.keeps (spr2_batched.sig T) (.hA_cpu b)) =
      true := by
  simp [spr2_batched.init_batch, Stmt.keeps, Stmt.writes, hne]

theorem spr2_batched_loop_mem {T : Type}
    (env : Env spr2_batched.Buf spr2_batched.Call (spr2_batched.RefCall T) T)
    (argus : Arguments T) (n : Nat) (s : State spr2_batched.Buf T) (b : Nat) (hb : b < n) :
    (run (spr2_batched.sig T) env s
        ((List.range n).flatMap (spr2_batched.init_batch argus))).1.mem (.hA b) =
      (env.gen (env.seed 1) [1, spr2_batched.A_size argus, 1]).1 ∧
    (run (spr2_batched.sig T) env s
        ((List.range n).flatMap (spr2_batched.init_batch argus))).1.mem (.hx b) =
      (env.gen (env.gen (env.seed 1) [1, spr2_batched.A_size argus, 1]).2
        [1, argus.N, if argus.incx < 0 then -argus.incx else argus.incx]).1 ∧
    (run (spr2_batched.sig T) env s
        ((List.range n).flatMap (spr2_batched.init_batch argus))).1.mem (.hy b) =
      (env.gen (env.gen (env.gen (env.seed 1) [1, spr2_batched.A_size argus, 1]).2
        [1, argus.N, if argus.incx < 0 then -argus.incx else argus.incx]).2
        [1, argus.N, if argus.incy < 0 then -argus.incy else argus.incy]).1 ∧
    (run (spr2_batched.sig T) env s
        ((List.range n).flatMap (spr2_batched.init_batch argus))).1.mem (.hA_cpu b) =
      (env.gen (env.seed 1) [1, spr2_batched.A_size argus, 1]).1 := by
  induction n with
  | zero => exact absurd hb (Nat.not_lt_zero _)
  | succ m ih =>
    rw [List.range_succ, List.flatMap_append, run_append]
    have hsingle : [m].flatMap (spr2_batched.init_batch argus) =
        spr2_batched.init_batch (T := T) argus m := by
      simp [List.flatMap]
    rw [hsingle]
    dsimp only
    by_cases hbm : b = m
    · subst hbm
      exact spr2_batched_init_batch_mem env _ argus b
    · have hlt : b < m := by omega
      obtain ⟨k1, k2, k3, k4⟩ := spr2_batched_init_batch_keeps (T := T) argus m b hbm
      obtain ⟨i1, i2, i3, i4⟩ := ih hlt
      refine ⟨?_, ?_, ?_, ?_⟩
      · exact (run_mem_keeps _ env _ _ k1 _).trans i1
      · exact (run_mem_keeps _ env _ _ k2 _).trans i2
      · exact (run_mem_keeps _ env _ _ k3 _).trans i3
      · exact (run_mem_keeps _ env _ _ k4 _).trans i4

/-- C27: in `testing_spr2_batched`, on every record that reaches the initialisation loop,
the generator is re-seeded with `srand(1)` in every iteration, so (data generation being a
function of the generator state and the requested shape) after the loop `hA[b]`, `hx[b]` and
`hy[b]` hold the same data for every `b` in `[0, batch_count)`, equal to those of batch 0, and
`hA_cpu[b]` equals `hA[b]`. -/
theorem spr2_batched_batches_identical {T : Type}
    (env : Env spr2_batched.Buf spr2_batched.Call (spr2_batched.RefCall T) T)
    (s0 : State spr2_batched.Buf T) (cv : Conv) (is_null : spr2_batched.Buf → Bool)
    (status : hipblasStatus_t) (argus : Arguments T)
    (hg : ¬ (argus.N < 0 ∨ argus.incx = 0 ∨ argus.incy = 0 ∨ argus.batch_count < 0))
    (hb : ¬ argus.batch_count = 0) (ha : spr2_batched.alloc_failed is_null argus = false) :
    spr2_batched.batches_identical env s0 cv is_null status argus := by
  refine ⟨?_, ?_⟩
  · unfold spr2_batched.testing_spr2_batched spr2_batched.through_init
      spr2_batched.generate_and_call
    simp only [if_neg hg, if_neg hb, ha, Bool.false_eq_true, if_false]
    by_cases hs : status ≠ HIPBLAS_STATUS_SUCCESS
    · rw [if_pos hs]
      exact ⟨[Stmt.copy .dA .bA_ptrs, Stmt.copy .dx .bx_ptrs, Stmt.copy .dy .by_ptrs] ++
        ((if argus.timing = true then [Stmt.get_time] else []) ++
          ([spr2_batched.the_call cv argus] ++ [Stmt.destroy_handle])),
        by simp only [List.append_assoc]⟩
    · rw [if_neg hs]
      exact ⟨[Stmt.copy .dA .bA_ptrs, Stmt.copy .dx .bx_ptrs, Stmt.copy .dy .by_ptrs] ++
        ((if argus.timing = true then [Stmt.get_time] else []) ++
          ([spr2_batched.the_call cv argus] ++
            (spr2_batched.verify cv argus ++ [Stmt.destroy_handle]))),
        by simp only [List.append_assoc]⟩
  · intro b hbb
    have hlt : b < argus.batch_count.toNat := by omega
    have h0 : 0 < argus.batch_count.toNat := by omega
    unfold spr2_batched.through_init
    rw [run_append]
    obtain ⟨e1, e2, e3, e4⟩ := spr2_batched_loop_mem env argus argus.batch_count.toNat
      (run (spr2_batched.sig T) env s0
        ([Stmt.store .alpha [argus.alpha]] ++ spr2_batched.allocation argus ++
          [Stmt.srand 1])).1 b hlt
    obtain ⟨z1, z2, z3, -⟩ := spr2_batched_loop_mem env argus argus.batch_count.toNat
      (run (spr2_batched.sig T) env s0
        ([Stmt.store .alpha [argus.alpha]] ++ spr2_batched.allocation argus ++
          [Stmt.srand 1])).1 0 h0
    exact ⟨e1, e1.trans z1.symm, e2.trans z2.symm, e3.trans z3.symm, e4.trans e1.symm⟩

/-- The initialisation loop at the sample record (two batches): every allocation succeeds
and the call returns success. -/
theorem spr2_batched_batches_identical_witness :
    (¬ (sample_args.N < 0 ∨ sample_args.incx = 0 ∨ sample_args.incy = 0 ∨
        sample_args.batch_count < 0) ∧
      ¬ sample_args.batch_count = 0 ∧
      spr2_batched.alloc_failed (fun _ => false) sample_args = false) ∧
    spr2_batched.batches_identical
      (sample_env spr2_batched.Buf spr2_batched.Call (spr2_batched.RefCall Int))
      (sample_state spr2_batched.Buf) sample_conv (fun _ => false) HIPBLAS_STATUS_SUCCESS
      sample_args :=
  ⟨by decide,
    spr2_batched_batches_identical _ _ sample_conv (fun _ => false) HIPBLAS_STATUS_SUCCESS
      sample_args (by decide) (by decide) (by decide)⟩

/-! ## The verdict of getrf -/

theorem compared_append {B C R T : Type} [DecidableEq B] (sg : Sig B C R T)
    (env : Env B C R T) (s : State B T) (l₁ l₂ : List (Stmt B C R T)) :
    compared sg env s (l₁ ++ l₂) =
      compared sg env s l₁ ++ compared sg env (run sg env s l₁).1 l₂ := by
  induction l₁ generalizing s with
  | nil => rfl
  | cons x xs ih =>
    rw [List.cons_append]
    simp only [compared, run]
    rw [ih, List.append_assoc]

theorem compared_no_check {B C R T : Type} [DecidableEq B] (sg : Sig B C R T)
    (env : Env B C R T) (l : List (Stmt B C R T)) (h : l.all (fun s => !s.isCheck) = true)
    (s : State B T) : compared sg env s l = [] := by
  induction l generalizing s with
  | nil => rfl
  | cons x xs ih =>
    rw [List.all_cons, Bool.and_eq_true] at h
    simp only [compared]
    rw [ih h.2]
    cases x <;> first | rfl | exact absurd h.1 (by simp [Stmt.isCheck])

theorem run_refs_mem_congr {B C R T : Type} [DecidableEq B] (sg : Sig B C R T)
    (env env1 : Env B C R T) (href : env1.reference = env.reference) (S : B → Prop)
    (l : List R)
    (hl : ∀ r ∈ l, (∀ p ∈ sg.ref_ptrs r, ∀ b ∈ p.buffers, S b) ∧ ∀ b ∈ sg.ref_outputs r, S b)
    (s s1 : State B T) (hm : ∀ b, S b → s1.mem b = s.mem b) :
    ∀ b, S b → (run sg env1 s1 (l.map Stmt.ref)).1.mem b =
      (run sg env s (l.map Stmt.ref)).1.mem b := by
  induction l generalizing s s1 with
  | nil => exact hm
  | cons r rs ih =>
    have hr := hl r (List.mem_cons_self _ _)
    have hd : (sg.ref_ptrs r).map (received s1.mem) = (sg.ref_ptrs r).map (received s.mem) := by
      apply List.map_congr_left
      intro p hp
      cases p with
      | nullptr => rfl
      | addr b o =>
        have := hm b (hr.1 _ hp b (by simp [Ptr.buffers]))
        simp only [received, this]
    have ht := ih (fun r' hr' => hl r' (List.mem_cons_of_mem _ hr'))
      (step sg env s (.ref r)).1 (step sg env1 s1 (.ref r)).1
      (by
        intro b hb
        simp only [step, write_all_apply, hd, href]
        by_cases hbo : b ∈ sg.ref_outputs r
        · simp [hbo]
        · simp [hbo, hm b hb])
    intro b hb
    simp only [List.map_cons, run]
    exact ht b hb

theorem getrf_checked_split {T : Type} [Ring T] (eps : ℚ) (arg : Arguments T)
    (hg : ¬ (arg.N < 0 ∨ arg.N < 0 ∨ arg.lda < arg.N ∨ arg.batch_count < 0))
    (hb : ¬ arg.batch_count = 0) (hf : (arg.unit_check || arg.norm_check) = true) :
    getrf.testing_getrf_strided_batched eps arg =
      getrf.before_refs arg ++ (getrf.ref_phase arg ++ (getrf.checks eps arg ++
        (if arg.timing = true then
          [Stmt.get_stream] ++
            timing_loop arg.cold_iters arg.iters
              (CHECK_HIPBLAS_ERROR (arg.api == .FORTRAN) (getrf.mk_call arg)) ++
            [Stmt.get_time, Stmt.log]
        else []))) := by
  unfold getrf.testing_getrf_strided_batched getrf.before_refs getrf.ref_phase getrf.checks
  simp only [if_neg hg, if_neg hb, hf, if_true, List.cons_append, List.append_assoc,
    List.nil_append, List.singleton_append]

theorem getrf_timing_no_check {T : Type} (arg : Arguments T) :
    ((if arg.timing = true then
        [Stmt.get_stream] ++
          timing_loop arg.cold_iters arg.iters
            (CHECK_HIPBLAS_ERROR (arg.api == .FORTRAN) (getrf.mk_call arg)) ++
          [Stmt.get_time, Stmt.log]
      else [] : List (Stmt getrf.Buf getrf.Call getrf.RefCall T)).all
      fun s => !s.isCheck) = true := by
  apply all_ite_nil
  rw [List.all_append, List.all_append, timing_loop_all _ _ _ _ rfl rfl]
  rfl

theorem getrf_compared_main {T : Type} [Ring T]
    (env : Env getrf.Buf getrf.Call getrf.RefCall T) (s0 : State getrf.Buf T) (eps : ℚ)
    (arg : Arguments T)
    (hg : ¬ (arg.N < 0 ∨ arg.N < 0 ∨ arg.lda < arg.N ∨ arg.batch_count < 0))
    (hb : ¬ arg.batch_count = 0) (hf : (arg.unit_check || arg.norm_check) = true) :
    compared (getrf.sig arg) env s0 (getrf.testing_getrf_strided_batched eps arg) =
      [ (⟨.norm_check_general, [arg.N, arg.N, arg.lda, getrf.strideA arg, arg.batch_count],
          .hA, .hA1, none⟩,
          (run (getrf.sig arg) env s0 (getrf.before_refs arg ++ getrf.ref_phase arg)).1.mem .hA,
          (run (getrf.sig arg) env s0
            (getrf.before_refs arg ++ getrf.ref_phase arg)).1.mem .hA1) ] ++
      (if arg.unit_check = true then
        [ (⟨.unit_check_error, [], .hA, .hA1, some (getrf.tolerance eps)⟩,
          (run (getrf.sig arg) env s0 (getrf.before_refs arg ++ getrf.ref_phase arg)).1.mem .hA,
          (run (getrf.sig arg) env s0
            (getrf.before_refs arg ++ getrf.ref_phase arg)).1.mem .hA1) ]
      else []) := by
  rw [getrf_checked_split eps arg hg hb hf, ← List.append_assoc,
    compared_append _ _ _ (getrf.before_refs arg ++ getrf.ref_phase arg),
    compared_append _ _ _ (getrf.checks eps arg)]
  have h1 : compared (getrf.sig arg) env s0 (getrf.before_refs arg ++ getrf.ref_phase arg)
      = [] := by
    apply compared_no_check
    rw [List.all_append]
    have : (getrf.ref_phase arg).all
        (fun s : Stmt getrf.Buf getrf.Call getrf.RefCall T => !s.isCheck) = true :=
      all_map_true _ _ _ (by intro n; rfl)
    rw [this]
    rfl
  have h3 : ∀ s, compared (getrf.sig arg) env s
      (if arg.timing = true then
        [Stmt.get_stream] ++
          timing_loop arg.cold_iters arg.iters
            (CHECK_HIPBLAS_ERROR (arg.api == .FORTRAN) (getrf.mk_call arg)) ++
          [Stmt.get_time, Stmt.log]
      else []) = [] :=
    fun s => compared_no_check _ _ _ (getrf_timing_no_check arg) s
  rw [h1, h3, List.nil_append, List.append_nil]
  unfold getrf.checks
  cases arg.unit_check <;> rfl

theorem getrf_compared_empty {T : Type} [Ring T]
    (env : Env getrf.Buf getrf.Call getrf.RefCall T) (s0 : State getrf.Buf T) (eps : ℚ)
    (arg : Arguments T)
    (h : ¬ (¬ (arg.N < 0 ∨ arg.N < 0 ∨ arg.lda < arg.N ∨ arg.batch_count < 0) ∧
      ¬ arg.batch_count = 0 ∧ (arg.unit_check || arg.norm_check) = true)) :
    compared (getrf.sig arg) env s0 (getrf.testing_getrf_strided_batched eps arg) = [] := by
  by_cases hg : (arg.N < 0 ∨ arg.N < 0 ∨ arg.lda < arg.N ∨ arg.batch_count < 0)
  · have : getrf.testing_getrf_strided_batched eps arg = [] := by
      unfold getrf.testing_getrf_strided_batched
      simp only [if_pos hg]
    rw [this]
    rfl
  · by_cases hb : arg.batch_count = 0
    · have : getrf.testing_getrf_strided_batched eps arg = [] := by
        unfold getrf.testing_getrf_strided_batched
        simp only [if_neg hg, if_pos hb]
      rw [this]
      rfl
    · have hf : (arg.unit_check || arg.norm_check) = false := by
        cases hf : (arg.unit_check || arg.norm_check)
        · rfl
        · exact absurd ⟨hg, hb, hf⟩ h
      apply compared_no_check
      unfold getrf.testing_getrf_strided_batched
      simp only [if_neg hg, if_neg hb, hf, Bool.false_eq_true, if_false, List.append_nil]
      rw [List.all_append]
      have := getrf_timing_no_check arg
      simp only [CHECK_HIPBLAS_ERROR, EXPECT_HIPBLAS_STATUS] at this ⊢
      rw [this]
      rfl

theorem getrf_seen_congr {T : Type} [Ring T]
    (env env1 : Env getrf.Buf getrf.Call getrf.RefCall T) (s0 : State getrf.Buf T)
    (arg : Arguments T) (hsame : getrf.same_matrices env env1) :
    (run (getrf.sig arg) env1 s0 (getrf.before_refs arg ++ getrf.ref_phase arg)).1.mem .hA =
      (run (getrf.sig arg) env s0 (getrf.before_refs arg ++ getrf.ref_phase arg)).1.mem .hA ∧
    (run (getrf.sig arg) env1 s0 (getrf.before_refs arg ++ getrf.ref_phase arg)).1.mem .hA1 =
      (run (getrf.sig arg) env s0 (getrf.before_refs arg ++ getrf.ref_phase arg)).1.mem .hA1 := by
  obtain ⟨seed1, gen1, dev1, ref1⟩ := env1
  obtain ⟨hs, hgen, hr, hdev⟩ := hsame
  simp only at hs hgen hr hdev
  subst hs hgen hr
  rw [run_append, run_append]
  dsimp only
  constructor
  · have hmap : getrf.ref_phase (T := T) arg =
        ((List.range arg.batch_count.toNat).map (getrf.ref_call arg)).map Stmt.ref := by
      unfold getrf.ref_phase
      rw [List.map_map]
      rfl
    rw [hmap]
    apply run_refs_mem_congr (getrf.sig arg) env
      { seed := env.seed, gen := env.gen, device := dev1, reference := env.reference } rfl
      (fun b => b = getrf.Buf.hA ∨ b = getrf.Buf.hIpiv ∨ b = getrf.Buf.hInfo)
    · intro r hr
      obtain ⟨b, -, rfl⟩ := List.mem_map.mp hr
      constructor
      · intro p hp b1 hb1
        simp only [getrf.sig, getrf.ref_call, List.mem_cons, List.mem_singleton,
          List.mem_nil_iff, or_false] at hp
        rcases hp with rfl | rfl | rfl <;> simp [Ptr.buffers] at hb1 <;> simp [hb1]
      · intro b1 hb1
        simp [getrf.sig, getrf.ref_call, Ptr.buffers] at hb1
        rcases hb1 with rfl | rfl | rfl <;> simp
    · intro b hb
      rcases hb with rfl | rfl | rfl <;> rfl
    · exact Or.inl rfl
  · have hk : (getrf.ref_phase arg).all (Stmt.keeps (getrf.sig arg) .hA1) = true :=
      all_map_true _ _ _ (by intro n; rfl)
    rw [run_mem_keeps _ _ _ _ hk, run_mem_keeps _ _ _ _ hk]
    have k1 : ∀ e : Env getrf.Buf getrf.Call getrf.RefCall T,
        (run (getrf.sig arg) e s0 (getrf.before_refs arg)).1.mem .hA1 =
          e.device s0.calls (getrf.mk_call arg)
            [ getrf.scale arg.N arg.N arg.lda (getrf.strideA arg) arg.batch_count
                (e.gen s0.rng [arg.N, arg.N, arg.lda, getrf.strideA arg, arg.batch_count]).1,
              List.replicate (getrf.Ipiv_size arg).toNat 0,
              List.replicate arg.batch_count.toNat 0 ] .dA := fun _ => rfl
    rw [k1, k1]
    exact hdev _ _ _

/-- C24: the verdict of `testing_getrf_strided_batched` depends only on the factored
matrices: for two behaviours of the device operation that write the same `A` (whatever
pivots and info values they write), the comparisons see the same contents, every comparison
is between `hA` and `hA1` (none reads `hIpiv`, `hInfo`, `hIpiv1` or `hInfo1`), the error
scalar and the outcome of the unit check coincide, and with `unit_check` set the check passes
iff the error scalar is at most `2000 * eps`. -/
theorem getrf_verdict_from_matrices {T : Type} [Ring T]
    (env env1 : Env getrf.Buf getrf.Call getrf.RefCall T) (s0 : State getrf.Buf T) (eps : ℚ)
    (arg : Arguments T) (hsame : getrf.same_matrices env env1) :
    getrf.verdict_ignores_pivots env env1 s0 eps arg := by
  obtain ⟨eA, eA1⟩ := getrf_seen_congr env env1 s0 arg hsame
  have hcmp : compared (getrf.sig arg) env1 s0 (getrf.testing_getrf_strided_batched eps arg) =
      compared (getrf.sig arg) env s0 (getrf.testing_getrf_strided_batched eps arg) := by
    by_cases hmain : (¬ (arg.N < 0 ∨ arg.N < 0 ∨ arg.lda < arg.N ∨ arg.batch_count < 0) ∧
        ¬ arg.batch_count = 0 ∧ (arg.unit_check || arg.norm_check) = true)
    · rw [getrf_compared_main env1 s0 eps arg hmain.1 hmain.2.1 hmain.2.2,
        getrf_compared_main env s0 eps arg hmain.1 hmain.2.1 hmain.2.2, eA, eA1]
    · rw [getrf_compared_empty env1 s0 eps arg hmain, getrf_compared_empty env s0 eps arg hmain]
  refine ⟨hcmp, ?_, ?_, ?_⟩
  · intro c hc
    by_cases hmain : (¬ (arg.N < 0 ∨ arg.N < 0 ∨ arg.lda < arg.N ∨ arg.batch_count < 0) ∧
        ¬ arg.batch_count = 0 ∧ (arg.unit_check || arg.norm_check) = true)
    · rw [getrf_compared_main env s0 eps arg hmain.1 hmain.2.1 hmain.2.2] at hc
      rcases List.mem_append.mp hc with h | h
      · rw [List.mem_singleton] at h
        subst h
        exact ⟨rfl, rfl⟩
      · by_cases hu : arg.unit_check = true
        · rw [if_pos hu, List.mem_singleton] at h
          subst h
          exact ⟨rfl, rfl⟩
        · rw [if_neg hu] at h
          exact absurd h (List.not_mem_nil _)
    · rw [getrf_compared_empty env s0 eps arg hmain] at hc
      exact absurd hc (List.not_mem_nil _)
  · intro norm
    rw [hcmp]
    exact ⟨rfl, rfl⟩
  · intro hg hb hu norm
    have hf : (arg.unit_check || arg.norm_check) = true := by rw [hu]; rfl
    rw [getrf_compared_main env s0 eps arg hg hb hf, if_pos hu]
    refine ⟨_, rfl, ?_⟩
    show some (unit_check_error _ (getrf.tolerance eps)) = some true ↔ _
    rw [Option.some_inj, unit_check_error, decide_eq_true_iff, getrf.tolerance, mul_comm]

/-- The verdict at the sample record, for the sample environment and the one that writes
other pivots and info values. -/
theorem getrf_verdict_from_matrices_witness :
    (getrf.same_matrices (sample_env getrf.Buf getrf.Call getrf.RefCall) sample_env_pivots ∧
      sample_env_pivots.device 0 (getrf.mk_call sample_args) [] .dIpiv ≠
        (sample_env getrf.Buf getrf.Call getrf.RefCall).device 0 (getrf.mk_call sample_args)
          [] .dIpiv) ∧
    getrf.verdict_ignores_pivots (sample_env getrf.Buf getrf.Call getrf.RefCall)
      sample_env_pivots (sample_state getrf.Buf) 1 sample_args :=
  ⟨⟨⟨rfl, rfl, rfl, fun _ _ _ => rfl⟩, by decide⟩,
    getrf_verdict_from_matrices _ _ (sample_state getrf.Buf) 1 sample_args
      ⟨rfl, rfl, rfl, fun _ _ _ => rfl⟩⟩

/-- C26 as stated fails when neither check flag is set: the sample record with `incx = 0`
and both flags cleared passes the sanity check with `N = 2`, its `x` buffers have zero
elements and `hipblasDot` is called once, but `cblas_dot` is not called at all. -/
theorem dot_reference_needs_check_flag :
    ¬ (sample_args_zero_incx.N < 0 ∨ sample_args_zero_incx.incx < 0 ∨
      sample_args_zero_incx.incy < 0) ∧
    1 ≤ sample_args_zero_incx.N ∧
    dot.sizeX sample_args_zero_incx = 0 ∧
    (dot.testing_dot HIPBLAS_STATUS_SUCCESS sample_args_zero_incx).1.countP Stmt.isCall = 1 ∧
    (dot.testing_dot HIPBLAS_STATUS_SUCCESS sample_args_zero_incx).1.countP Stmt.isRef = 0 := by
  decide

end hipBLAS
